import Mathlib

/-!
# Verification of `libdenavit`'s effective length factor solver and
# uniaxial material analysis driver

This file gives a shallow embedding of the two Python source files of the
repository:

* `src/libdenavit/effective_length_factor.py` — the AISC effective length
  factor solver `effective_length_factor(sidesway, GA, GB)` together with its
  four nomogram equation kernels; and
* `src/libdenavit/OpenSees/uniaxial_material_analysis.py` — the
  displacement-controlled uniaxial material test driver.

Machine floats are modelled by exact reals; `math.inf` (a possible value of
the `GA`/`GB` arguments and of the returned `K`) is modelled by a dedicated
constructor.  The external root finder `scipy.optimize.brentq` is not part of
this repository; following the spec, a returned value of a conforming
bracketed root finder is characterised as an exact root of the handed
function lying inside the handed bracket (`solverReturns` below).  The
external OpenSees analysis engine is abstracted as an oracle giving the
recorded `(getTime, nodeDisp)` pair after each analysis step.
-/

open Real

namespace LibDenavit

/-- A Python float argument or return value that may be `math.inf`:
either positive infinity or a finite real number. -/
inductive GInput where
  | inf : GInput
  | fin : ℝ → GInput

/-- The observable outcome of one call to `effective_length_factor`:

* `val v`   — the function returns `v` immediately (degenerate-case table);
* `err msg` — the function raises `ValueError(msg)`;
* `solve f lo hi` — the function returns `brentq(f, lo, hi)`, i.e. hands the
  single-argument real function `f` (the chosen nomogram equation with its
  `G` parameters already bound, as Python's `args=` does) and the bracket
  `(lo, hi)` to the external root finder. -/
inductive ELFResult where
  | val : GInput → ELFResult
  | err : String → ELFResult
  | solve : (ℝ → ℝ) → ℝ → ℝ → ELFResult

/-- `nextafter(1.0, -inf)` from the source: the largest IEEE 754 double
strictly below `1.0`, whose exact real value is `1 - 2⁻⁵³`. -/
noncomputable def nextafter_one : ℝ := 1 - 2 ^ (-53 : ℤ)

/-- Equation C-A-7-2 of the Commentary on the 2016 AISC Specification
(`_sidesway_uninhibited` in the source). -/
noncomputable def sidesway_uninhibited_fcn (K GA GB : ℝ) : ℝ :=
  let pK := π / K
  (GA * GB * pK ^ 2 - 36) / (6 * (GA + GB)) - pK / Real.tan pK

/-- `_sidesway_uninhibited_one_zero` in the source: the uninhibited nomogram
equation reduced for the case that one `G` is zero. -/
noncomputable def sidesway_uninhibited_one_zero (K G : ℝ) : ℝ :=
  let pK := π / K;
  -6 / G - pK / Real.tan pK

/-- Equation C-A-7-1 of the Commentary on the 2016 AISC Specification
(`_sidesway_inhibited` in the source). -/
noncomputable def sidesway_inhibited_fcn (K GA GB : ℝ) : ℝ :=
  let pK := π / K
  0.25 * GA * GB * pK ^ 2 + 0.5 * (GA + GB) * (1 - pK / Real.tan pK) +
    2 * Real.tan (0.5 * pK) / pK - 1

/-- `_sidesway_inhibited_one_zero` in the source: the inhibited nomogram
equation reduced for the case that one `G` is zero. -/
noncomputable def sidesway_inhibited_one_zero (K G : ℝ) : ℝ :=
  let pK := π / K
  0.5 * G * (1 - pK / Real.tan pK) + 2 * Real.tan (0.5 * pK) / pK - 1

/-- The `if GA == inf: GA = 1e10` / `if GB == inf: GB = 1e10` substitution of
the source ("Change infinity to large value to avoid trouble in solver"). -/
noncomputable def GInput.subst : GInput → ℝ
  | .inf => 1e10
  | .fin x => x

open Classical in
/-- The part of `effective_length_factor` that follows the selection of the
per-sidesway constants: the degenerate-case quick returns, the substitution
of `1e10` for infinite inputs, and the dispatch to the root finder, exactly
as in the source. -/
noncomputable def elf_body (case_inf case_0_inf case_0 : GInput) (lo hi : ℝ)
    (fcn_with_one_zero : ℝ → ℝ → ℝ) (fcn : ℝ → ℝ → ℝ → ℝ)
    (GA GB : GInput) : ELFResult :=
  -- Check basic cases for a quick return
  if GA = GInput.inf ∧ GB = GInput.inf then .val case_inf
  else if (GA = GInput.inf ∧ GB = GInput.fin 0) ∨
      (GA = GInput.fin 0 ∧ GB = GInput.inf) then .val case_0_inf
  else if GA = GInput.fin 0 ∧ GB = GInput.fin 0 then .val case_0
  else
    -- Change infinity to large value to avoid trouble in solver
    let GA' := GA.subst
    let GB' := GB.subst
    -- Solve for the effective length factor
    if GA' = 0 then .solve (fun K => fcn_with_one_zero K GB') lo hi
    else if GB' = 0 then .solve (fun K => fcn_with_one_zero K GA') lo hi
    else .solve (fun K => fcn K GA' GB') lo hi

/-- `effective_length_factor(sidesway, GA, GB)` from the source.  The
`sidesway` string selects the degenerate-case table values, the bracket and
the two nomogram equations; an unrecognized string raises `ValueError`. -/
noncomputable def effective_length_factor (sidesway : String) (GA GB : GInput) :
    ELFResult :=
  if sidesway = "inhibited" then
    elf_body (.fin 1.0) (.fin 0.7) (.fin 0.5) 0.5 nextafter_one
      sidesway_inhibited_one_zero sidesway_inhibited_fcn GA GB
  else if sidesway = "uninhibited" then
    elf_body .inf (.fin 2.0) (.fin 1.0) 1.0 1e10
      sidesway_uninhibited_one_zero sidesway_uninhibited_fcn GA GB
  else
    .err ("Unrecognized sidesway value " ++ sidesway)

/-- `sidesway_uninhibited_effective_length_factor` from the source. -/
noncomputable def sidesway_uninhibited_effective_length_factor (GA GB : GInput) :
    ELFResult :=
  effective_length_factor "uninhibited" GA GB

/-- `sidesway_inhibited_effective_length_factor` from the source. -/
noncomputable def sidesway_inhibited_effective_length_factor (GA GB : GInput) :
    ELFResult :=
  effective_length_factor "inhibited" GA GB

/-- Modelled from the spec: `scipy.optimize.brentq` is an external
collaborator, not code of this repository.  The spec requires "any robust
bracketed root finder with guaranteed convergence on a continuous
sign-changing function (e.g. Brent's method)", so a value returned by the
root-finding call recorded in an `ELFResult.solve` outcome is characterised
as an exact root of the handed function inside the handed bracket.  For the
quick-return outcomes the returned value is the table value itself, and an
outcome that raises returns nothing. -/
def solverReturns : ELFResult → ℝ → Prop
  | .val (.fin x), y => y = x
  | .val .inf, _ => False
  | .err _, _ => False
  | .solve f lo hi, y => lo ≤ y ∧ y ≤ hi ∧ f y = 0

/-- The degenerate-input test of the source's quick-return table: both
inputs infinite, one infinite and one zero, or both zero. -/
def degenerate (GA GB : GInput) : Prop :=
  (GA = GInput.inf ∧ GB = GInput.inf) ∨
    ((GA = GInput.inf ∧ GB = GInput.fin 0) ∨ (GA = GInput.fin 0 ∧ GB = GInput.inf)) ∨
    (GA = GInput.fin 0 ∧ GB = GInput.fin 0)

/-- A valid stiffness-ratio input in the sense of the spec: `+∞` or a
non-negative finite value. -/
def GInput.valid : GInput → Prop
  | .inf => True
  | .fin x => 0 ≤ x

/-- `x * cos x / sin x`: the value of `x / tan x`, written without the
intermediate tangent.  The two expressions agree at every real `x`
(including the poles) by the junk-value convention of real division, which
is proved below and used to reason about the nomogram equations. -/
noncomputable def xcot (x : ℝ) : ℝ := x * Real.cos x / Real.sin x

/-!
## Embedding of `uniaxial_material_analysis`

The OpenSees engine (`openseespy`) is an external collaborator.  Its only
influence on the data returned by the driver is the pair of readings
`(ops.getTime(), ops.nodeDisp(2, 1))` taken after each `ops.analyze(1)`
call, so the engine is abstracted as an oracle `obs : ℕ → ℝ × ℝ` giving the
reading taken after the `k`-th analysis step (`k = 0` for the initial step
to `peak_points[0]`).  Plotting is omitted (it does not affect the returned
value).  `rate_value` is modelled as a natural number: Python's `range`
requires an integer count in the `'Steps'` branch, and the claims under
study use it as a count.
-/

/-- One recorded `(strain, stress)` sample of the driver after an
`ops.analyze(1)` call: `(nodeDisp, getTime)` read from the engine state
`obs k`, both negated when `compression_positive` is set, exactly as in the
source's append statements. -/
noncomputable def uma_record (obs : ℕ → ℝ × ℝ) (compression_positive : Bool)
    (k : ℕ) : ℝ × ℝ :=
  if compression_positive then (-(obs k).2, -(obs k).1) else ((obs k).2, (obs k).1)

/-- The number of displacement increments the driver performs for the
segment from peak `p` to peak `q`: `1` for `'None'`,
`ceil(abs(q - p) / rate_value)` for `'StrainRate'`, `rate_value` for
`'Steps'`; an unknown `rate_type` raises.  In the `'StrainRate'` branch
Python's float division raises `ZeroDivisionError` when `rate_value` is
zero, before `ceil` is taken. -/
noncomputable def uma_num_steps (rate_type : String) (rate_value : ℕ) (p q : ℝ) :
    Except String ℕ :=
  if rate_type = "None" then .ok 1
  else if rate_type = "StrainRate" then
    if rate_value = 0 then .error "ZeroDivisionError: float division by zero"
    else .ok (Int.toNat ⌈|q - p| / (rate_value : ℝ)⌉)
  else if rate_type = "Steps" then .ok rate_value
  else .error ("Unknown rate_type: " ++ rate_type)

/-- The `for i in range(len(peak_points)-1)` loop of the source, processing
the remaining peaks one segment at a time.  `p` is the previous peak, `k`
the number of analysis steps already performed, and `strain`/`stress` the
lists recorded so far; for each segment, `num_steps` samples are appended
to both lists (one strain entry exactly when one stress entry).  Before the
inner loop the source computes `incr = (peak_points[i+1] - peak_points[i]) /
num_steps`, which raises `ZeroDivisionError` when `num_steps` is zero
(`'Steps'` with `rate_value = 0`, or `'StrainRate'` with equal consecutive
peaks); the quotient itself only feeds the displacement-control integrator,
which is part of the abstracted engine state, so only the raise is
modelled. -/
noncomputable def uma_loop (obs : ℕ → ℝ × ℝ) (cp : Bool) (rate_type : String)
    (rate_value : ℕ) :
    List ℝ → ℝ → ℕ → List ℝ → List ℝ → Except String (List ℝ × List ℝ)
  | [], _, _, strain, stress => .ok (strain, stress)
  | q :: rest, p, k, strain, stress =>
    match uma_num_steps rate_type rate_value p q with
    | .error e => .error e
    | .ok n =>
      if n = 0 then .error "ZeroDivisionError: float division by zero"
      else
        uma_loop obs cp rate_type rate_value rest q (k + n)
          (strain ++ (List.range n).map (fun j => (uma_record obs cp (k + j)).1))
          (stress ++ (List.range n).map (fun j => (uma_record obs cp (k + j)).2))

/-- `uniaxial_material_analysis` from the source, with the model-building
calls into the engine abstracted away (they produce no returned data).  An
empty `peak_points` raises (`peak_points[0]` is an out-of-range index);
otherwise the initial analysis step is recorded and the segment loop runs. -/
noncomputable def uniaxial_material_analysis (obs : ℕ → ℝ × ℝ)
    (peak_points : List ℝ) (rate_type : String) (rate_value : ℕ)
    (compression_positive : Bool) : Except String (List ℝ × List ℝ) :=
  match peak_points with
  | [] => .error "IndexError: list index out of range"
  | p0 :: rest =>
    uma_loop obs compression_positive rate_type rate_value rest p0 1
      [(uma_record obs compression_positive 0).1]
      [(uma_record obs compression_positive 0).2]


/-! ## Structural lemmas about the dispatch of `effective_length_factor` -/

theorem GInput.subst_inf : GInput.subst GInput.inf = 1e10 := rfl

theorem GInput.subst_fin (x : ℝ) : GInput.subst (GInput.fin x) = x := rfl

theorem effective_length_factor_inhibited (GA GB : GInput) :
    effective_length_factor "inhibited" GA GB =
      elf_body (.fin 1.0) (.fin 0.7) (.fin 0.5) 0.5 nextafter_one
        sidesway_inhibited_one_zero sidesway_inhibited_fcn GA GB := by
  simp [effective_length_factor]

theorem effective_length_factor_uninhibited (GA GB : GInput) :
    effective_length_factor "uninhibited" GA GB =
      elf_body .inf (.fin 2.0) (.fin 1.0) 1.0 1e10
        sidesway_uninhibited_one_zero sidesway_uninhibited_fcn GA GB := by
  simp [effective_length_factor]

theorem elf_body_solve_one_zero_left (ci c0i c0 : GInput) (lo hi : ℝ)
    (fone : ℝ → ℝ → ℝ) (ffull : ℝ → ℝ → ℝ → ℝ) (GA GB : GInput)
    (h : ¬ degenerate GA GB) (hA : GA = GInput.fin 0) :
    elf_body ci c0i c0 lo hi fone ffull GA GB =
      ELFResult.solve (fun K => fone K GB.subst) lo hi := by
  subst hA
  cases GB with
  | inf => exact absurd (Or.inr (Or.inl (Or.inr ⟨rfl, rfl⟩))) h
  | fin b =>
    have hb : b ≠ 0 := fun hc => h (Or.inr (Or.inr ⟨rfl, by rw [hc]⟩))
    simp [elf_body, GInput.subst, hb]

theorem elf_body_solve_one_zero_right (ci c0i c0 : GInput) (lo hi : ℝ)
    (fone : ℝ → ℝ → ℝ) (ffull : ℝ → ℝ → ℝ → ℝ) (GA GB : GInput)
    (h : ¬ degenerate GA GB) (hB : GB = GInput.fin 0) :
    elf_body ci c0i c0 lo hi fone ffull GA GB =
      ELFResult.solve (fun K => fone K GA.subst) lo hi := by
  subst hB
  cases GA with
  | inf => exact absurd (Or.inr (Or.inl (Or.inl ⟨rfl, rfl⟩))) h
  | fin a =>
    have ha : a ≠ 0 := fun hc => h (Or.inr (Or.inr ⟨by rw [hc], rfl⟩))
    simp [elf_body, GInput.subst, ha]

theorem elf_body_solve_full (ci c0i c0 : GInput) (lo hi : ℝ)
    (fone : ℝ → ℝ → ℝ) (ffull : ℝ → ℝ → ℝ → ℝ) (GA GB : GInput)
    (h : ¬ degenerate GA GB) (hA : GA ≠ GInput.fin 0) (hB : GB ≠ GInput.fin 0) :
    elf_body ci c0i c0 lo hi fone ffull GA GB =
      ELFResult.solve (fun K => ffull K GA.subst GB.subst) lo hi := by
  have h10 : (1e10 : ℝ) ≠ 0 := by norm_num
  cases GA with
  | inf =>
    cases GB with
    | inf => exact absurd (Or.inl ⟨rfl, rfl⟩) h
    | fin b =>
      have hb : b ≠ 0 := fun hc => hB (by rw [hc])
      simp [elf_body, GInput.subst, hb, h10]
  | fin a =>
    have ha : a ≠ 0 := fun hc => hA (by rw [hc])
    cases GB with
    | inf => simp [elf_body, GInput.subst, ha, h10]
    | fin b =>
      have hb : b ≠ 0 := fun hc => hB (by rw [hc])
      simp [elf_body, GInput.subst, ha, hb]

theorem elf_body_is_solve (ci c0i c0 : GInput) (lo hi : ℝ)
    (fone : ℝ → ℝ → ℝ) (ffull : ℝ → ℝ → ℝ → ℝ) (GA GB : GInput)
    (h : ¬ degenerate GA GB) :
    ∃ f, elf_body ci c0i c0 lo hi fone ffull GA GB = ELFResult.solve f lo hi := by
  by_cases hA : GA = GInput.fin 0
  · exact ⟨_, elf_body_solve_one_zero_left ci c0i c0 lo hi fone ffull GA GB h hA⟩
  · by_cases hB : GB = GInput.fin 0
    · exact ⟨_, elf_body_solve_one_zero_right ci c0i c0 lo hi fone ffull GA GB h hB⟩
    · exact ⟨_, elf_body_solve_full ci c0i c0 lo hi fone ffull GA GB h hA hB⟩

/-! ## Claims C1-C4, C7, C9 -/

/-- C1: For every condition in {inhibited, uninhibited} and every pair
(GA, GB) in {(∞,∞), (∞,0), (0,∞), (0,0)}, `effective_length_factor` returns
exactly the value of the degenerate-case table (inhibited: 1.0, 0.7, 0.7,
0.5; uninhibited: ∞, 2.0, 2.0, 1.0) as an immediate `val` outcome, without
invoking the root finder. -/
theorem c1_degenerate_table :
    effective_length_factor "inhibited" .inf .inf = .val (.fin 1.0) ∧
    effective_length_factor "inhibited" .inf (.fin 0) = .val (.fin 0.7) ∧
    effective_length_factor "inhibited" (.fin 0) .inf = .val (.fin 0.7) ∧
    effective_length_factor "inhibited" (.fin 0) (.fin 0) = .val (.fin 0.5) ∧
    effective_length_factor "uninhibited" .inf .inf = .val .inf ∧
    effective_length_factor "uninhibited" .inf (.fin 0) = .val (.fin 2.0) ∧
    effective_length_factor "uninhibited" (.fin 0) .inf = .val (.fin 2.0) ∧
    effective_length_factor "uninhibited" (.fin 0) (.fin 0) = .val (.fin 1.0) := by
  refine ⟨?_, ?_, ?_, ?_, ?_, ?_, ?_, ?_⟩ <;>
    simp [effective_length_factor, elf_body]

/-- C2: In the general (non-degenerate) case, `effective_length_factor`
first replaces any infinite GA or GB with the finite value 1e10
(`GInput.subst`), then dispatches: if exactly one of GA, GB is zero it
solves the single-variable reduced nomogram equation with the non-zero
(substituted) G as parameter, otherwise it solves the full two-variable
nomogram equation with both substituted values as parameters. -/
theorem c2_general_dispatch (GA GB : GInput) (h : ¬ degenerate GA GB) :
    GInput.subst GInput.inf = 1e10 ∧
    (∀ x, GInput.subst (GInput.fin x) = x) ∧
    (GA = GInput.fin 0 →
      effective_length_factor "inhibited" GA GB =
        ELFResult.solve (fun K => sidesway_inhibited_one_zero K GB.subst)
          0.5 nextafter_one ∧
      effective_length_factor "uninhibited" GA GB =
        ELFResult.solve (fun K => sidesway_uninhibited_one_zero K GB.subst)
          1.0 1e10) ∧
    (GB = GInput.fin 0 →
      effective_length_factor "inhibited" GA GB =
        ELFResult.solve (fun K => sidesway_inhibited_one_zero K GA.subst)
          0.5 nextafter_one ∧
      effective_length_factor "uninhibited" GA GB =
        ELFResult.solve (fun K => sidesway_uninhibited_one_zero K GA.subst)
          1.0 1e10) ∧
    (GA ≠ GInput.fin 0 → GB ≠ GInput.fin 0 →
      effective_length_factor "inhibited" GA GB =
        ELFResult.solve (fun K => sidesway_inhibited_fcn K GA.subst GB.subst)
          0.5 nextafter_one ∧
      effective_length_factor "uninhibited" GA GB =
        ELFResult.solve (fun K => sidesway_uninhibited_fcn K GA.subst GB.subst)
          1.0 1e10) := by
  refine ⟨rfl, fun x => rfl, fun hA => ⟨?_, ?_⟩, fun hB => ⟨?_, ?_⟩,
    fun hA hB => ⟨?_, ?_⟩⟩
  · rw [effective_length_factor_inhibited]
    exact elf_body_solve_one_zero_left _ _ _ _ _ _ _ _ _ h hA
  · rw [effective_length_factor_uninhibited]
    exact elf_body_solve_one_zero_left _ _ _ _ _ _ _ _ _ h hA
  · rw [effective_length_factor_inhibited]
    exact elf_body_solve_one_zero_right _ _ _ _ _ _ _ _ _ h hB
  · rw [effective_length_factor_uninhibited]
    exact elf_body_solve_one_zero_right _ _ _ _ _ _ _ _ _ h hB
  · rw [effective_length_factor_inhibited]
    exact elf_body_solve_full _ _ _ _ _ _ _ _ _ h hA hB
  · rw [effective_length_factor_uninhibited]
    exact elf_body_solve_full _ _ _ _ _ _ _ _ _ h hA hB

/-- Witness for C2 at the concrete non-degenerate input GA = 0, GB = 5. -/
theorem c2_general_dispatch_witness :
    ¬ degenerate (GInput.fin 0) (GInput.fin 5) ∧
    (GInput.fin 0 = GInput.fin 0 →
      effective_length_factor "inhibited" (GInput.fin 0) (GInput.fin 5) =
        ELFResult.solve
          (fun K => sidesway_inhibited_one_zero K (GInput.fin 5).subst)
          0.5 nextafter_one ∧
      effective_length_factor "uninhibited" (GInput.fin 0) (GInput.fin 5) =
        ELFResult.solve
          (fun K => sidesway_uninhibited_one_zero K (GInput.fin 5).subst)
          1.0 1e10) := by
  have hnd : ¬ degenerate (GInput.fin 0) (GInput.fin 5) := by
    rintro (⟨hc, -⟩ | (⟨hc, -⟩ | ⟨-, hc⟩) | ⟨-, hc⟩)
    · cases hc
    · cases hc
    · cases hc
    · rw [GInput.fin.injEq] at hc; norm_num at hc
  exact ⟨hnd, (c2_general_dispatch (GInput.fin 0) (GInput.fin 5) hnd).2.2.1⟩

/-- C3: The root-finding bracket passed to the root finder is
(0.5, nextafter(1.0, -inf)) — the upper end being the largest representable
double strictly less than 1.0, i.e. the exact real 1 - 2⁻⁵³ — when the
condition is inhibited, and (1.0, 1e10) when the condition is uninhibited,
for every non-degenerate input. -/
theorem c3_bracket (GA GB : GInput) (h : ¬ degenerate GA GB) :
    (∃ f, effective_length_factor "inhibited" GA GB =
      ELFResult.solve f 0.5 nextafter_one) ∧
    (∃ f, effective_length_factor "uninhibited" GA GB =
      ELFResult.solve f 1.0 1e10) ∧
    nextafter_one = 1 - 2 ^ (-53 : ℤ) ∧ nextafter_one < 1 := by
  refine ⟨?_, ?_, rfl, ?_⟩
  · rw [effective_length_factor_inhibited]
    exact elf_body_is_solve _ _ _ _ _ _ _ _ _ h
  · rw [effective_length_factor_uninhibited]
    exact elf_body_is_solve _ _ _ _ _ _ _ _ _ h
  · rw [nextafter_one]
    have : (0 : ℝ) < 2 ^ (-53 : ℤ) := by positivity
    linarith

/-- Witness for C3 at the concrete non-degenerate input GA = 2, GB = 3. -/
theorem c3_bracket_witness :
    ¬ degenerate (GInput.fin 2) (GInput.fin 3) ∧
    (∃ f, effective_length_factor "inhibited" (GInput.fin 2) (GInput.fin 3) =
      ELFResult.solve f 0.5 nextafter_one) := by
  have hnd : ¬ degenerate (GInput.fin 2) (GInput.fin 3) := by
    rintro (⟨hc, -⟩ | (⟨hc, -⟩ | ⟨hc, -⟩) | ⟨hc, -⟩)
    · cases hc
    · cases hc
    · rw [GInput.fin.injEq] at hc; norm_num at hc
    · rw [GInput.fin.injEq] at hc; norm_num at hc
  exact ⟨hnd, (c3_bracket (GInput.fin 2) (GInput.fin 3) hnd).1⟩

/-- C4: For every GA and GB (including the degenerate values 0 and ∞),
calling `effective_length_factor` with a condition that is neither
"inhibited" nor "uninhibited" raises a ValueError and never returns a
default value. -/
theorem c4_unknown_condition (s : String) (hs1 : s ≠ "inhibited")
    (hs2 : s ≠ "uninhibited") (GA GB : GInput) :
    effective_length_factor s GA GB =
      ELFResult.err ("Unrecognized sidesway value " ++ s) := by
  simp only [effective_length_factor]
  rw [if_neg hs1, if_neg hs2]

/-- Witness for C4 at the concrete condition "foo" with GA = ∞, GB = 0. -/
theorem c4_unknown_condition_witness :
    ("foo" : String) ≠ "inhibited" ∧ ("foo" : String) ≠ "uninhibited" ∧
    effective_length_factor "foo" GInput.inf (GInput.fin 0) =
      ELFResult.err ("Unrecognized sidesway value " ++ "foo") :=
  ⟨by decide, by decide,
    c4_unknown_condition "foo" (by decide) (by decide) GInput.inf (GInput.fin 0)⟩

/-- C7: For every valid non-degenerate input with GA, GB ≥ 0, any value the
bracketed root finder can return for the inhibited condition lies in (0, 1],
and any value it can return for the uninhibited condition lies in [1, ∞). -/
theorem c7_range (GA GB : GInput) (_hGA : GA.valid) (_hGB : GB.valid)
    (h : ¬ degenerate GA GB) :
    (∀ y, solverReturns (effective_length_factor "inhibited" GA GB) y →
      0 < y ∧ y ≤ 1) ∧
    (∀ y, solverReturns (effective_length_factor "uninhibited" GA GB) y →
      1 ≤ y) := by
  constructor
  · intro y hy
    rw [effective_length_factor_inhibited] at hy
    obtain ⟨f, hf⟩ := elf_body_is_solve (.fin 1.0) (.fin 0.7) (.fin 0.5) 0.5
      nextafter_one sidesway_inhibited_one_zero sidesway_inhibited_fcn GA GB h
    rw [hf] at hy
    obtain ⟨h1, h2, -⟩ := hy
    have hlt : nextafter_one < 1 := by
      rw [nextafter_one]
      have : (0 : ℝ) < 2 ^ (-53 : ℤ) := by positivity
      linarith
    exact ⟨by linarith, by linarith⟩
  · intro y hy
    rw [effective_length_factor_uninhibited] at hy
    obtain ⟨f, hf⟩ := elf_body_is_solve .inf (.fin 2.0) (.fin 1.0) 1.0 1e10
      sidesway_uninhibited_one_zero sidesway_uninhibited_fcn GA GB h
    rw [hf] at hy
    obtain ⟨h1, -, -⟩ := hy
    linarith

/-- Witness for C7 at the concrete valid non-degenerate input GA = 1,
GB = 4. -/
theorem c7_range_witness :
    GInput.valid (GInput.fin 1) ∧ GInput.valid (GInput.fin 4) ∧
    ¬ degenerate (GInput.fin 1) (GInput.fin 4) ∧
    (∀ y, solverReturns
        (effective_length_factor "uninhibited" (GInput.fin 1) (GInput.fin 4)) y →
      1 ≤ y) := by
  have hnd : ¬ degenerate (GInput.fin 1) (GInput.fin 4) := by
    rintro (⟨hc, -⟩ | (⟨hc, -⟩ | ⟨hc, -⟩) | ⟨hc, -⟩)
    · cases hc
    · cases hc
    · rw [GInput.fin.injEq] at hc; norm_num at hc
    · rw [GInput.fin.injEq] at hc; norm_num at hc
  refine ⟨by norm_num [GInput.valid], by norm_num [GInput.valid], hnd, ?_⟩
  exact (c7_range (GInput.fin 1) (GInput.fin 4) (by norm_num [GInput.valid])
    (by norm_num [GInput.valid]) hnd).2

/-- C9: Under the precondition GA, GB ≥ 0 (valid inputs), whenever the
single-variable reduced nomogram function is invoked by
`effective_length_factor`, the G argument bound into it is strictly
positive — so its division by G never divides by zero — and the
GA = GB = 0 double-zero case is consumed by the degenerate-case table
before dispatch. -/
theorem c9_one_zero_positive (GA GB : GInput) (hGA : GA.valid) (hGB : GB.valid)
    (h : ¬ degenerate GA GB) :
    (GA = GInput.fin 0 →
      0 < GB.subst ∧
      effective_length_factor "inhibited" GA GB =
        ELFResult.solve (fun K => sidesway_inhibited_one_zero K GB.subst)
          0.5 nextafter_one ∧
      effective_length_factor "uninhibited" GA GB =
        ELFResult.solve (fun K => sidesway_uninhibited_one_zero K GB.subst)
          1.0 1e10) ∧
    (GB = GInput.fin 0 →
      0 < GA.subst ∧
      effective_length_factor "inhibited" GA GB =
        ELFResult.solve (fun K => sidesway_inhibited_one_zero K GA.subst)
          0.5 nextafter_one ∧
      effective_length_factor "uninhibited" GA GB =
        ELFResult.solve (fun K => sidesway_uninhibited_one_zero K GA.subst)
          1.0 1e10) ∧
    effective_length_factor "inhibited" (GInput.fin 0) (GInput.fin 0) =
      ELFResult.val (GInput.fin 0.5) ∧
    effective_length_factor "uninhibited" (GInput.fin 0) (GInput.fin 0) =
      ELFResult.val (GInput.fin 1.0) := by
  refine ⟨fun hA => ⟨?_, ?_, ?_⟩, fun hB => ⟨?_, ?_, ?_⟩, ?_, ?_⟩
  · subst hA
    cases GB with
    | inf =>
      exact absurd (Or.inr (Or.inl (Or.inr ⟨rfl, rfl⟩))) h
    | fin b =>
      rw [GInput.subst_fin]
      rcases lt_or_eq_of_le (hGB : (0 : ℝ) ≤ b) with hb | hb
      · exact hb
      · exact absurd (Or.inr (Or.inr ⟨rfl, by rw [← hb]⟩)) h
  · rw [effective_length_factor_inhibited]
    exact elf_body_solve_one_zero_left _ _ _ _ _ _ _ _ _ h hA
  · rw [effective_length_factor_uninhibited]
    exact elf_body_solve_one_zero_left _ _ _ _ _ _ _ _ _ h hA
  · subst hB
    cases GA with
    | inf =>
      rw [GInput.subst_inf]; norm_num
    | fin a =>
      rw [GInput.subst_fin]
      rcases lt_or_eq_of_le (hGA : (0 : ℝ) ≤ a) with ha | ha
      · exact ha
      · exact absurd (Or.inr (Or.inr ⟨by rw [← ha], rfl⟩)) h
  · rw [effective_length_factor_inhibited]
    exact elf_body_solve_one_zero_right _ _ _ _ _ _ _ _ _ h hB
  · rw [effective_length_factor_uninhibited]
    exact elf_body_solve_one_zero_right _ _ _ _ _ _ _ _ _ h hB
  · simp [effective_length_factor, elf_body]
  · simp [effective_length_factor, elf_body]

/-- Witness for C9 at the concrete valid input GA = 0, GB = 7. -/
theorem c9_one_zero_positive_witness :
    GInput.valid (GInput.fin 0) ∧ GInput.valid (GInput.fin 7) ∧
    ¬ degenerate (GInput.fin 0) (GInput.fin 7) ∧
    (GInput.fin 0 = GInput.fin 0 → 0 < (GInput.fin 7).subst ∧
      effective_length_factor "inhibited" (GInput.fin 0) (GInput.fin 7) =
        ELFResult.solve
          (fun K => sidesway_inhibited_one_zero K (GInput.fin 7).subst)
          0.5 nextafter_one ∧
      effective_length_factor "uninhibited" (GInput.fin 0) (GInput.fin 7) =
        ELFResult.solve
          (fun K => sidesway_uninhibited_one_zero K (GInput.fin 7).subst)
          1.0 1e10) := by
  have hnd : ¬ degenerate (GInput.fin 0) (GInput.fin 7) := by
    rintro (⟨hc, -⟩ | (⟨hc, -⟩ | ⟨-, hc⟩) | ⟨-, hc⟩)
    · cases hc
    · cases hc
    · cases hc
    · rw [GInput.fin.injEq] at hc; norm_num at hc
  refine ⟨by norm_num [GInput.valid], by norm_num [GInput.valid], hnd, ?_⟩
  exact (c9_one_zero_positive (GInput.fin 0) (GInput.fin 7)
    (by norm_num [GInput.valid]) (by norm_num [GInput.valid]) hnd).1

/-! ## Claim C5: symmetry in GA and GB -/

theorem sidesway_uninhibited_fcn_symm (K a b : ℝ) :
    sidesway_uninhibited_fcn K a b = sidesway_uninhibited_fcn K b a := by
  simp only [sidesway_uninhibited_fcn]
  ring_nf

theorem sidesway_inhibited_fcn_symm (K a b : ℝ) :
    sidesway_inhibited_fcn K a b = sidesway_inhibited_fcn K b a := by
  simp only [sidesway_inhibited_fcn]
  ring_nf

theorem degenerate_comm (GA GB : GInput) (h : ¬ degenerate GA GB) :
    ¬ degenerate GB GA := by
  rintro (⟨hA, hB⟩ | (⟨hA, hB⟩ | ⟨hA, hB⟩) | ⟨hA, hB⟩)
  · exact h (Or.inl ⟨hB, hA⟩)
  · exact h (Or.inr (Or.inl (Or.inr ⟨hB, hA⟩)))
  · exact h (Or.inr (Or.inl (Or.inl ⟨hB, hA⟩)))
  · exact h (Or.inr (Or.inr ⟨hB, hA⟩))

theorem elf_body_symm (ci c0i c0 : GInput) (lo hi : ℝ)
    (fone : ℝ → ℝ → ℝ) (ffull : ℝ → ℝ → ℝ → ℝ)
    (hsym : ∀ K a b, ffull K a b = ffull K b a) (GA GB : GInput) :
    elf_body ci c0i c0 lo hi fone ffull GA GB =
      elf_body ci c0i c0 lo hi fone ffull GB GA := by
  by_cases h : degenerate GA GB
  · rcases h with ⟨hA, hB⟩ | (⟨hA, hB⟩ | ⟨hA, hB⟩) | ⟨hA, hB⟩ <;>
      subst hA <;> subst hB <;> simp [elf_body]
  · have h2 : ¬ degenerate GB GA := degenerate_comm GA GB h
    by_cases hA : GA = GInput.fin 0
    · rw [elf_body_solve_one_zero_left _ _ _ _ _ _ _ _ _ h hA,
        elf_body_solve_one_zero_right _ _ _ _ _ _ _ _ _ h2 hA]
    · by_cases hB : GB = GInput.fin 0
      · rw [elf_body_solve_one_zero_right _ _ _ _ _ _ _ _ _ h hB,
          elf_body_solve_one_zero_left _ _ _ _ _ _ _ _ _ h2 hB]
      · rw [elf_body_solve_full _ _ _ _ _ _ _ _ _ h hA hB,
          elf_body_solve_full _ _ _ _ _ _ _ _ _ h2 hB hA]
        congr 1
        funext K
        exact hsym K GA.subst GB.subst

/-- C5: Symmetry — for every valid condition and every valid GA, GB ≥ 0
(including ∞), `effective_length_factor condition GA GB` produces the same
outcome as `effective_length_factor condition GB GA`. -/
theorem c5_symmetry (s : String) (hs : s = "inhibited" ∨ s = "uninhibited")
    (GA GB : GInput) (_hGA : GA.valid) (_hGB : GB.valid) :
    effective_length_factor s GA GB = effective_length_factor s GB GA := by
  rcases hs with hs | hs <;> subst hs
  · rw [effective_length_factor_inhibited, effective_length_factor_inhibited]
    exact elf_body_symm _ _ _ _ _ _ _ sidesway_inhibited_fcn_symm GA GB
  · rw [effective_length_factor_uninhibited, effective_length_factor_uninhibited]
    exact elf_body_symm _ _ _ _ _ _ _ sidesway_uninhibited_fcn_symm GA GB

/-- Witness for C5 at the concrete input (inhibited, GA = 2, GB = 3). -/
theorem c5_symmetry_witness :
    (("inhibited" : String) = "inhibited" ∨
      ("inhibited" : String) = "uninhibited") ∧
    GInput.valid (GInput.fin 2) ∧ GInput.valid (GInput.fin 3) ∧
    effective_length_factor "inhibited" (GInput.fin 2) (GInput.fin 3) =
      effective_length_factor "inhibited" (GInput.fin 3) (GInput.fin 2) :=
  ⟨Or.inl rfl, by norm_num [GInput.valid], by norm_num [GInput.valid],
    c5_symmetry "inhibited" (Or.inl rfl) (GInput.fin 2) (GInput.fin 3)
      (by norm_num [GInput.valid]) (by norm_num [GInput.valid])⟩

theorem uma_loop_length_eq (obs : ℕ → ℝ × ℝ) (cp : Bool) (rt : String) (rv : ℕ) :
    ∀ (peaks : List ℝ) (p : ℝ) (k : ℕ) (strain stress : List ℝ)
      (out : List ℝ × List ℝ),
      uma_loop obs cp rt rv peaks p k strain stress = .ok out →
      strain.length = stress.length → out.1.length = out.2.length := by
  intro peaks
  induction peaks with
  | nil =>
    intro p k strain stress out h hlen
    unfold uma_loop at h
    cases h
    simpa using hlen
  | cons q rest ih =>
    intro p k strain stress out h hlen
    unfold uma_loop at h
    cases hn : uma_num_steps rt rv p q with
    | error e => rw [hn] at h; cases h
    | ok n =>
      simp only [hn] at h
      by_cases hz : n = 0
      · rw [if_pos hz] at h
        cases h
      · rw [if_neg hz] at h
        exact ih q (k + n) _ _ out h (by simp [hlen])

theorem uma_loop_const_steps (obs : ℕ → ℝ × ℝ) (cp : Bool) (rt : String)
    (rv n0 : ℕ) (hconst : ∀ p q : ℝ, uma_num_steps rt rv p q = .ok n0)
    (hn0 : n0 ≠ 0) :
    ∀ (peaks : List ℝ) (p : ℝ) (k : ℕ) (strain stress : List ℝ),
      ∃ s1 s2, uma_loop obs cp rt rv peaks p k strain stress = .ok (s1, s2) ∧
        s1.length = strain.length + n0 * peaks.length ∧
        s2.length = stress.length + n0 * peaks.length := by
  intro peaks
  induction peaks with
  | nil =>
    intro p k strain stress
    exact ⟨strain, stress, rfl, by simp, by simp⟩
  | cons q rest ih =>
    intro p k strain stress
    obtain ⟨s1, s2, h, h1, h2⟩ := ih q (k + n0)
      (strain ++ (List.range n0).map (fun j => (uma_record obs cp (k + j)).1))
      (stress ++ (List.range n0).map (fun j => (uma_record obs cp (k + j)).2))
    refine ⟨s1, s2, ?_, ?_, ?_⟩
    · unfold uma_loop
      simp only [hconst p q, if_neg hn0]
      exact h
    · simp only [h1, List.length_append, List.length_map, List.length_range,
        List.length_cons]
      ring
    · simp only [h2, List.length_append, List.length_map, List.length_range,
        List.length_cons]
      ring

theorem uma_loop_steps_zero (obs : ℕ → ℝ × ℝ) (cp : Bool) (q : ℝ)
    (rest : List ℝ) (p : ℝ) (k : ℕ) (strain stress : List ℝ) :
    uma_loop obs cp "Steps" 0 (q :: rest) p k strain stress =
      .error "ZeroDivisionError: float division by zero" := by
  unfold uma_loop
  rfl

/-- C10 counterexample: with two peak points, `rate_type` `'Steps'` and
`rate_value = 0`, the driver raises `ZeroDivisionError` at
`incr = (peak_points[i+1] - peak_points[i]) / num_steps` instead of
returning a pair of lists, so the claimed `'Steps'` length formula
`1 + rate_value * (len(peak_points) - 1)` has no returned lists to hold
of. -/
theorem c10_counterexample :
    uniaxial_material_analysis (fun _ => (0, 0)) [0, 1] "Steps" 0 false =
      .error "ZeroDivisionError: float division by zero" :=
  uma_loop_steps_zero (fun _ => (0, 0)) false 1 [] 0 1
    [(uma_record (fun _ => (0, 0)) false 0).1]
    [(uma_record (fun _ => (0, 0)) false 0).2]

/-- C10 amended: `uniaxial_material_analysis` appends one strain entry
exactly when it appends one stress entry, so any successfully returned pair
of lists has equal lengths; with `rate_type` `'None'` it succeeds and the
lists have length equal to the number of peak points, and with `rate_type`
`'Steps'` and a nonzero `rate_value` it succeeds and they have length
`1 + rate_value * (len(peak_points) - 1)`.  But with `'Steps'` and
`rate_value = 0` and at least two peak points nothing is returned: the
increment division raises `ZeroDivisionError`. -/
theorem c10_amended (obs : ℕ → ℝ × ℝ) (peak_points : List ℝ)
    (hne : peak_points ≠ []) (rate_type : String) (rate_value : ℕ) (cp : Bool) :
    (∀ strain stress,
      uniaxial_material_analysis obs peak_points rate_type rate_value cp =
        .ok (strain, stress) → strain.length = stress.length) ∧
    (rate_type = "None" → ∃ strain stress,
      uniaxial_material_analysis obs peak_points rate_type rate_value cp =
        .ok (strain, stress) ∧
      strain.length = peak_points.length ∧ stress.length = peak_points.length) ∧
    (rate_type = "Steps" → rate_value ≠ 0 → ∃ strain stress,
      uniaxial_material_analysis obs peak_points rate_type rate_value cp =
        .ok (strain, stress) ∧
      strain.length = 1 + rate_value * (peak_points.length - 1) ∧
      stress.length = 1 + rate_value * (peak_points.length - 1)) ∧
    (rate_type = "Steps" → rate_value = 0 → 2 ≤ peak_points.length →
      uniaxial_material_analysis obs peak_points rate_type rate_value cp =
        .error "ZeroDivisionError: float division by zero") := by
  match peak_points, hne with
  | p0 :: rest, _ =>
    refine ⟨?_, ?_, ?_, ?_⟩
    · intro strain stress h
      exact uma_loop_length_eq obs cp rate_type rate_value rest p0 1 _ _
        (strain, stress) h (by simp)
    · intro hrt
      subst hrt
      obtain ⟨s1, s2, h, h1, h2⟩ := uma_loop_const_steps obs cp "None"
        rate_value 1 (fun p q => rfl) one_ne_zero rest p0 1 _ _
      refine ⟨s1, s2, h, ?_, ?_⟩
      · rw [h1]; simp [Nat.add_comm]
      · rw [h2]; simp [Nat.add_comm]
    · intro hrt hrv
      subst hrt
      obtain ⟨s1, s2, h, h1, h2⟩ := uma_loop_const_steps obs cp "Steps"
        rate_value rate_value (fun p q => rfl) hrv rest p0 1 _ _
      refine ⟨s1, s2, h, ?_, ?_⟩
      · rw [h1]; simp
      · rw [h2]; simp
    · intro hrt hrv hlen2
      subst hrt
      subst hrv
      cases rest with
      | nil => simp at hlen2
      | cons q rest2 =>
        exact uma_loop_steps_zero obs cp q rest2 p0 1
          [(uma_record obs cp 0).1] [(uma_record obs cp 0).2]

/-- Witness for the amended C10 at a concrete input. -/
theorem c10_amended_witness :
    ([0, 1, -1] : List ℝ) ≠ [] ∧
    (∀ strain stress,
      uniaxial_material_analysis (fun _ => (0, 0)) [0, 1, -1] "Steps" 4 false =
        .ok (strain, stress) → strain.length = stress.length) :=
  ⟨by simp, (c10_amended (fun _ => (0, 0)) [0, 1, -1] (by simp) "Steps" 4 false).1⟩

/-! ## Analysis toolkit for the nomogram equations -/

theorem div_tan_eq_xcot (x : ℝ) : x / Real.tan x = xcot x := by
  rw [xcot, Real.tan_eq_sin_div_cos, div_div_eq_mul_div]

theorem sidesway_uninhibited_one_zero_eq (K G : ℝ) :
    sidesway_uninhibited_one_zero K G = -6 / G - xcot (π / K) := by
  simp only [sidesway_uninhibited_one_zero]
  rw [div_tan_eq_xcot]

theorem sidesway_uninhibited_fcn_eq (K GA GB : ℝ) :
    sidesway_uninhibited_fcn K GA GB =
      (GA * GB * (π / K) ^ 2 - 36) / (6 * (GA + GB)) - xcot (π / K) := by
  simp only [sidesway_uninhibited_fcn]
  rw [div_tan_eq_xcot]

theorem sidesway_inhibited_one_zero_eq (K G : ℝ) :
    sidesway_inhibited_one_zero K G =
      0.5 * G * (1 - xcot (π / K)) + 2 * Real.tan (0.5 * (π / K)) / (π / K) - 1 := by
  simp only [sidesway_inhibited_one_zero]
  rw [div_tan_eq_xcot]

theorem sidesway_inhibited_fcn_eq (K GA GB : ℝ) :
    sidesway_inhibited_fcn K GA GB =
      0.25 * GA * GB * (π / K) ^ 2 + 0.5 * (GA + GB) * (1 - xcot (π / K)) +
        2 * Real.tan (0.5 * (π / K)) / (π / K) - 1 := by
  simp only [sidesway_inhibited_fcn]
  rw [div_tan_eq_xcot]

theorem sin_neg_on_pi_two_pi (x : ℝ) (h1 : π < x) (h2 : x < 2 * π) :
    Real.sin x < 0 := by
  have h := Real.sin_pos_of_pos_of_lt_pi (x := x - π) (by linarith) (by linarith)
  rw [Real.sin_sub_pi] at h
  linarith

theorem xcot_hasDerivAt (x : ℝ) (hx : Real.sin x ≠ 0) :
    HasDerivAt xcot ((Real.sin x * Real.cos x - x) / Real.sin x ^ 2) x := by
  have h1 : HasDerivAt (fun y : ℝ => y * Real.cos y)
      (1 * Real.cos x + x * -Real.sin x) x :=
    (hasDerivAt_id x).mul (Real.hasDerivAt_cos x)
  have h3 := h1.div (Real.hasDerivAt_sin x) hx
  have h4 : (Real.sin x * Real.cos x - x) / Real.sin x ^ 2 =
      ((1 * Real.cos x + x * -Real.sin x) * Real.sin x -
        x * Real.cos x * Real.cos x) / Real.sin x ^ 2 := by
    congr 1
    linear_combination x * Real.sin_sq_add_cos_sq x
  rw [h4]
  unfold xcot
  exact h3

theorem xcot_continuousOn (s : Set ℝ) (h : ∀ x ∈ s, Real.sin x ≠ 0) :
    ContinuousOn xcot s := by
  unfold xcot
  exact ContinuousOn.div ((continuous_id.mul Real.continuous_cos).continuousOn)
    (Real.continuous_sin.continuousOn) h

theorem xcot_deriv_neg (x : ℝ) (hsin : Real.sin x ≠ 0)
    (hnum : Real.sin x * Real.cos x - x < 0) : deriv xcot x < 0 := by
  rw [(xcot_hasDerivAt x hsin).deriv]
  exact div_neg_of_neg_of_pos hnum (pow_two_pos_of_ne_zero hsin)

theorem xcot_strictAntiOn_low : StrictAntiOn xcot (Set.Ioo 0 π) := by
  apply strictAntiOn_of_deriv_neg (convex_Ioo 0 π)
  · exact xcot_continuousOn _
      (fun x hx => (Real.sin_pos_of_pos_of_lt_pi hx.1 hx.2).ne')
  · intro x hx
    rw [interior_Ioo] at hx
    have hs := Real.sin_pos_of_pos_of_lt_pi hx.1 hx.2
    apply xcot_deriv_neg x hs.ne'
    have h1 : Real.sin x * Real.cos x ≤ Real.sin x := by
      nlinarith [Real.cos_le_one x]
    linarith [Real.sin_lt hx.1]

theorem xcot_strictAntiOn_high : StrictAntiOn xcot (Set.Ioo π (2 * π)) := by
  apply strictAntiOn_of_deriv_neg (convex_Ioo π (2 * π))
  · exact xcot_continuousOn _
      (fun x hx => (sin_neg_on_pi_two_pi x hx.1 hx.2).ne)
  · intro x hx
    rw [interior_Ioo] at hx
    have hs := sin_neg_on_pi_two_pi x hx.1 hx.2
    apply xcot_deriv_neg x hs.ne
    have h1 : Real.sin x * Real.cos x ≤ 1 / 2 := by
      nlinarith [sq_nonneg (Real.sin x - Real.cos x), Real.sin_sq_add_cos_sq x]
    linarith [Real.pi_gt_three, hx.1]

theorem xcot_lt_one (u : ℝ) (h1 : 0 < u) (h2 : u < π) : xcot u < 1 := by
  rcases lt_trichotomy u (π / 2) with h | h | h
  · have ht := Real.lt_tan h1 h
    have hc : 0 < Real.cos u := Real.cos_pos_of_mem_Ioo ⟨by linarith, h⟩
    have hs : 0 < Real.sin u := Real.sin_pos_of_pos_of_lt_pi h1 h2
    rw [xcot, div_lt_one hs]
    rw [Real.tan_eq_sin_div_cos, lt_div_iff₀ hc] at ht
    linarith
  · rw [xcot, h, Real.cos_pi_div_two]
    simp
  · have hc : Real.cos u < 0 :=
      Real.cos_neg_of_pi_div_two_lt_of_lt h (by linarith [Real.pi_pos])
    have hs : 0 < Real.sin u := Real.sin_pos_of_pos_of_lt_pi h1 h2
    have hn : u * Real.cos u < 0 := mul_neg_of_pos_of_neg h1 hc
    calc xcot u < 0 := div_neg_of_neg_of_pos hn hs
    _ < 1 := one_pos

theorem xcot_pi : xcot π = 0 := by
  rw [xcot, Real.sin_pi, div_zero]

/-! ## Special values of sin and cos at the angles used by the claims -/

theorem cos_five_pi_div_three : Real.cos (5 * π / 3) = 1 / 2 := by
  rw [show (5 * π / 3 : ℝ) = 2 * π / 3 + π by ring, Real.cos_add_pi,
    show (2 * π / 3 : ℝ) = π - π / 3 by ring, Real.cos_pi_sub,
    Real.cos_pi_div_three]
  norm_num

theorem sin_five_pi_div_three : Real.sin (5 * π / 3) = -(Real.sqrt 3 / 2) := by
  rw [show (5 * π / 3 : ℝ) = 2 * π / 3 + π by ring, Real.sin_add_pi,
    show (2 * π / 3 : ℝ) = π - π / 3 by ring, Real.sin_pi_sub,
    Real.sin_pi_div_three]

theorem cos_five_pi_div_six : Real.cos (5 * π / 6) = -(Real.sqrt 3 / 2) := by
  rw [show (5 * π / 6 : ℝ) = π - π / 6 by ring, Real.cos_pi_sub,
    Real.cos_pi_div_six]

theorem sin_five_pi_div_six : Real.sin (5 * π / 6) = 1 / 2 := by
  rw [show (5 * π / 6 : ℝ) = π - π / 6 by ring, Real.sin_pi_sub,
    Real.sin_pi_div_six]

theorem cos_five_pi_div_four : Real.cos (5 * π / 4) = -(Real.sqrt 2 / 2) := by
  rw [show (5 * π / 4 : ℝ) = π / 4 + π by ring, Real.cos_add_pi,
    Real.cos_pi_div_four]

theorem sin_five_pi_div_four : Real.sin (5 * π / 4) = -(Real.sqrt 2 / 2) := by
  rw [show (5 * π / 4 : ℝ) = π / 4 + π by ring, Real.sin_add_pi,
    Real.sin_pi_div_four]

theorem sin_five_pi_div_eight :
    Real.sin (5 * π / 8) = Real.sqrt (2 + Real.sqrt 2) / 2 := by
  rw [show (5 * π / 8 : ℝ) = π / 8 + π / 2 by ring, Real.sin_add_pi_div_two,
    Real.cos_pi_div_eight]

theorem cos_five_pi_div_eight :
    Real.cos (5 * π / 8) = -(Real.sqrt (2 - Real.sqrt 2) / 2) := by
  rw [show (5 * π / 8 : ℝ) = π / 8 + π / 2 by ring, Real.cos_add_pi_div_two,
    Real.sin_pi_div_eight]

/-! ## Strict monotonicity of the nomogram equations over the brackets -/

theorem pi_div_mem_Ioo_of_one_lt (K : ℝ) (h1 : 1 < K) :
    π / K ∈ Set.Ioo 0 π := by
  have hpi := Real.pi_pos
  constructor
  · exact div_pos hpi (by linarith)
  · rw [div_lt_iff₀ (by linarith)]
    nlinarith

theorem pi_div_mem_Ioo_of_lt_one (K : ℝ) (h0 : 0.5 < K) (h1 : K < 1) :
    π / K ∈ Set.Ioo π (2 * π) := by
  have hpi := Real.pi_pos
  constructor
  · rw [lt_div_iff₀ (by linarith)]
    nlinarith
  · rw [div_lt_iff₀ (by linarith)]
    nlinarith

theorem uninhibited_one_zero_strict_anti (G K₁ K₂ : ℝ) (h1 : 1 < K₁)
    (h12 : K₁ < K₂) :
    sidesway_uninhibited_one_zero K₂ G < sidesway_uninhibited_one_zero K₁ G := by
  rw [sidesway_uninhibited_one_zero_eq, sidesway_uninhibited_one_zero_eq]
  have hpi := Real.pi_pos
  have hu : π / K₂ < π / K₁ :=
    div_lt_div_of_pos_left hpi (by linarith) h12
  have hx := xcot_strictAntiOn_low (pi_div_mem_Ioo_of_one_lt K₂ (by linarith))
    (pi_div_mem_Ioo_of_one_lt K₁ h1) hu
  linarith

theorem uninhibited_fcn_strict_anti (A g K₁ K₂ : ℝ) (hA : 0 < A) (hg : 0 < g)
    (h1 : 1 < K₁) (h12 : K₁ < K₂) :
    sidesway_uninhibited_fcn K₂ A g < sidesway_uninhibited_fcn K₁ A g := by
  rw [sidesway_uninhibited_fcn_eq, sidesway_uninhibited_fcn_eq]
  have hpi := Real.pi_pos
  have hu : π / K₂ < π / K₁ :=
    div_lt_div_of_pos_left hpi (by linarith) h12
  have hu2 := (pi_div_mem_Ioo_of_one_lt K₂ (by linarith)).1
  have hx := xcot_strictAntiOn_low (pi_div_mem_Ioo_of_one_lt K₂ (by linarith))
    (pi_div_mem_Ioo_of_one_lt K₁ h1) hu
  have hsq : (π / K₂) ^ 2 < (π / K₁) ^ 2 := by nlinarith [hu, hu2]
  have hkey : (A * g * (π / K₂) ^ 2 - 36) / (6 * (A + g)) -
      (A * g * (π / K₁) ^ 2 - 36) / (6 * (A + g)) < 0 := by
    rw [div_sub_div_same]
    apply div_neg_of_neg_of_pos
    · nlinarith [mul_pos hA hg, hsq]
    · linarith
  linarith

theorem tan_neg_upper (u : ℝ) (h1 : π / 2 < u) (h2 : u < π) : Real.tan u < 0 := by
  have h := Real.tan_neg_of_neg_of_pi_div_two_lt (x := u - π) (by linarith)
    (by linarith)
  rwa [Real.tan_sub_pi] at h

theorem tan_mono_upper (u v : ℝ) (h1 : π / 2 < u) (huv : u < v) (h2 : v < π) :
    Real.tan u < Real.tan v := by
  have h := Real.tan_lt_tan_of_lt_of_lt_pi_div_two (x := u - π) (y := v - π)
    (by linarith) (by linarith [Real.pi_pos]) (by linarith)
  rwa [Real.tan_sub_pi, Real.tan_sub_pi] at h

theorem tan_half_term_strict_mono (x y : ℝ) (hx : π < x) (hxy : x < y)
    (hy : y < 2 * π) :
    2 * Real.tan (0.5 * x) / x < 2 * Real.tan (0.5 * y) / y := by
  have hpi := Real.pi_pos
  have hu1 : π / 2 < 0.5 * x := by linarith
  have huv : 0.5 * x < 0.5 * y := by linarith
  have hv2 : 0.5 * y < π := by linarith
  have htu : Real.tan (0.5 * x) < Real.tan (0.5 * y) :=
    tan_mono_upper (0.5 * x) (0.5 * y) hu1 huv hv2
  have htv : Real.tan (0.5 * y) < 0 := tan_neg_upper (0.5 * y) (by linarith) hv2
  rw [div_lt_div_iff₀ (by linarith) (by linarith)]
  have s1 : 2 * Real.tan (0.5 * x) * y < 2 * Real.tan (0.5 * y) * y := by
    have := mul_lt_mul_of_pos_right htu (show (0 : ℝ) < y by linarith)
    linarith
  have s2 : 2 * Real.tan (0.5 * y) * y < 2 * Real.tan (0.5 * y) * x := by
    have := mul_lt_mul_of_neg_left hxy
      (show 2 * Real.tan (0.5 * y) < 0 by linarith)
    linarith
  linarith

theorem inhibited_one_zero_strict_anti (G K₁ K₂ : ℝ) (hG : 0 < G)
    (h05 : 0.5 < K₁) (h12 : K₁ < K₂) (h1 : K₂ < 1) :
    sidesway_inhibited_one_zero K₂ G < sidesway_inhibited_one_zero K₁ G := by
  rw [sidesway_inhibited_one_zero_eq, sidesway_inhibited_one_zero_eq]
  have hpi := Real.pi_pos
  have hm1 := pi_div_mem_Ioo_of_lt_one K₁ h05 (by linarith)
  have hm2 := pi_div_mem_Ioo_of_lt_one K₂ (by linarith) h1
  have hu : π / K₂ < π / K₁ :=
    div_lt_div_of_pos_left hpi (by linarith) h12
  have hx := xcot_strictAntiOn_high hm2 hm1 hu
  have ht := tan_half_term_strict_mono (π / K₂) (π / K₁) hm2.1 hu hm1.2
  nlinarith

theorem inhibited_fcn_strict_anti (GA GB K₁ K₂ : ℝ) (hGA : 0 < GA)
    (hGB : 0 < GB) (h05 : 0.5 < K₁) (h12 : K₁ < K₂) (h1 : K₂ < 1) :
    sidesway_inhibited_fcn K₂ GA GB < sidesway_inhibited_fcn K₁ GA GB := by
  rw [sidesway_inhibited_fcn_eq, sidesway_inhibited_fcn_eq]
  have hpi := Real.pi_pos
  have hm1 := pi_div_mem_Ioo_of_lt_one K₁ h05 (by linarith)
  have hm2 := pi_div_mem_Ioo_of_lt_one K₂ (by linarith) h1
  have hu : π / K₂ < π / K₁ :=
    div_lt_div_of_pos_left hpi (by linarith) h12
  have hx := xcot_strictAntiOn_high hm2 hm1 hu
  have ht := tan_half_term_strict_mono (π / K₂) (π / K₁) hm2.1 hu hm1.2
  have hsq : (π / K₂) ^ 2 < (π / K₁) ^ 2 := by nlinarith [hm2.1, hm1.1]
  have hprod1 : 0.25 * GA * GB * (π / K₂) ^ 2 < 0.25 * GA * GB * (π / K₁) ^ 2 := by
    nlinarith [mul_pos hGA hGB, hsq]
  have hprod2 : 0.5 * (GA + GB) * (1 - xcot (π / K₂)) <
      0.5 * (GA + GB) * (1 - xcot (π / K₁)) := by
    nlinarith [hx, show (0 : ℝ) < GA + GB by linarith]
  linarith

/-! ## Continuity of the nomogram equations away from the poles -/

theorem pi_div_continuousOn (s : Set ℝ) (h0 : ∀ K ∈ s, K ≠ 0) :
    ContinuousOn (fun K : ℝ => π / K) s := by
  apply ContinuousOn.div continuousOn_const continuousOn_id
  intro x hx
  simpa using h0 x hx

theorem xcot_comp_continuousOn (s : Set ℝ) (h0 : ∀ K ∈ s, K ≠ 0)
    (hsin : ∀ K ∈ s, Real.sin (π / K) ≠ 0) :
    ContinuousOn (fun K => xcot (π / K)) s := by
  have hq := pi_div_continuousOn s h0
  unfold xcot
  exact (hq.mul (Real.continuous_cos.comp_continuousOn hq)).div
    (Real.continuous_sin.comp_continuousOn hq) hsin

theorem uninhibited_fcn_continuousOn (A g : ℝ) (s : Set ℝ)
    (h0 : ∀ K ∈ s, K ≠ 0) (hsin : ∀ K ∈ s, Real.sin (π / K) ≠ 0) :
    ContinuousOn (fun K => sidesway_uninhibited_fcn K A g) s := by
  have hq := pi_div_continuousOn s h0
  have hbase : ContinuousOn
      (fun K => (A * g * (π / K) ^ 2 - 36) / (6 * (A + g)) - xcot (π / K)) s :=
    (((continuousOn_const.mul (hq.pow 2)).sub continuousOn_const).div_const _).sub
      (xcot_comp_continuousOn s h0 hsin)
  exact hbase.congr (fun K _ => sidesway_uninhibited_fcn_eq K A g)

theorem tan_half_div_continuousOn (s : Set ℝ) (h0 : ∀ K ∈ s, K ≠ 0)
    (hcos : ∀ K ∈ s, Real.cos (0.5 * (π / K)) ≠ 0) :
    ContinuousOn
      (fun K => 2 * Real.tan (0.5 * (π / K)) / (π / K)) s := by
  have hq := pi_div_continuousOn s h0
  have hq2 : ContinuousOn (fun K : ℝ => 0.5 * (π / K)) s :=
    continuousOn_const.mul hq
  have htan : ContinuousOn
      (fun K => 2 * (Real.sin (0.5 * (π / K)) / Real.cos (0.5 * (π / K))) /
        (π / K)) s :=
    (continuousOn_const.mul ((Real.continuous_sin.comp_continuousOn hq2).div
      (Real.continuous_cos.comp_continuousOn hq2) hcos)).div hq
      (fun K hK => div_ne_zero Real.pi_ne_zero (h0 K hK))
  exact htan.congr (fun K _ => by rw [Real.tan_eq_sin_div_cos])

theorem inhibited_one_zero_continuousOn (G : ℝ) (s : Set ℝ)
    (h0 : ∀ K ∈ s, K ≠ 0) (hsin : ∀ K ∈ s, Real.sin (π / K) ≠ 0)
    (hcos : ∀ K ∈ s, Real.cos (0.5 * (π / K)) ≠ 0) :
    ContinuousOn (fun K => sidesway_inhibited_one_zero K G) s := by
  have hbase : ContinuousOn
      (fun K => 0.5 * G * (1 - xcot (π / K)) +
        2 * Real.tan (0.5 * (π / K)) / (π / K) - 1) s :=
    ((continuousOn_const.mul
      (continuousOn_const.sub (xcot_comp_continuousOn s h0 hsin))).add
      (tan_half_div_continuousOn s h0 hcos)).sub continuousOn_const
  exact hbase.congr (fun K _ => sidesway_inhibited_one_zero_eq K G)

theorem inhibited_fcn_continuousOn (GA GB : ℝ) (s : Set ℝ)
    (h0 : ∀ K ∈ s, K ≠ 0) (hsin : ∀ K ∈ s, Real.sin (π / K) ≠ 0)
    (hcos : ∀ K ∈ s, Real.cos (0.5 * (π / K)) ≠ 0) :
    ContinuousOn (fun K => sidesway_inhibited_fcn K GA GB) s := by
  have hq := pi_div_continuousOn s h0
  have hbase : ContinuousOn
      (fun K => 0.25 * GA * GB * (π / K) ^ 2 +
        0.5 * (GA + GB) * (1 - xcot (π / K)) +
        2 * Real.tan (0.5 * (π / K)) / (π / K) - 1) s :=
    (((continuousOn_const.mul (hq.pow 2)).add
      (continuousOn_const.mul
        (continuousOn_const.sub (xcot_comp_continuousOn s h0 hsin)))).add
      (tan_half_div_continuousOn s h0 hcos)).sub continuousOn_const
  exact hbase.congr (fun K _ => sidesway_inhibited_fcn_eq K GA GB)

/-! ## Claim C8: behaviour on negative inputs -/

theorem not_degenerate_of_fin_neg (a : ℝ) (ha : a < 0) (GB : GInput) :
    ¬ degenerate (GInput.fin a) GB := by
  rintro (⟨hc, -⟩ | (⟨hc, -⟩ | ⟨hc, -⟩) | ⟨hc, -⟩)
  · cases hc
  · cases hc
  · rw [GInput.fin.injEq] at hc; exact absurd hc (by linarith)
  · rw [GInput.fin.injEq] at hc; exact absurd hc (by linarith)

/-- C8 counterexample: at the negative input (uninhibited, GA = 0,
GB = -12), `effective_length_factor` does not fail with an invalid-argument
error: it dispatches to the root finder, the dispatched equation has a root
inside the bracket, and so the guaranteed-convergent bracketed root finder
returns a value.  This refutes the claim that every (indeed any particular)
negative input fails with an invalid-argument error. -/
theorem c8_counterexample :
    effective_length_factor "uninhibited" (GInput.fin 0) (GInput.fin (-12)) =
      ELFResult.solve (fun K => sidesway_uninhibited_one_zero K (-12))
        1.0 1e10 ∧
    ∃ y, solverReturns
      (effective_length_factor "uninhibited" (GInput.fin 0) (GInput.fin (-12)))
      y := by
  have hnd : ¬ degenerate (GInput.fin 0) (GInput.fin (-12)) := by
    rintro (⟨hc, -⟩ | (⟨hc, -⟩ | ⟨-, hc⟩) | ⟨-, hc⟩)
    · cases hc
    · cases hc
    · cases hc
    · rw [GInput.fin.injEq] at hc; norm_num at hc
  have hdisp : effective_length_factor "uninhibited" (GInput.fin 0)
      (GInput.fin (-12)) =
      ELFResult.solve (fun K => sidesway_uninhibited_one_zero K (-12))
        1.0 1e10 := by
    rw [effective_length_factor_uninhibited]
    exact elf_body_solve_one_zero_left _ _ _ _ _ _ _ _ _ hnd rfl
  refine ⟨hdisp, ?_⟩
  -- A sign change of the dispatched equation between K = 1.5 and K = 6.
  have hsqrt3 : (1 : ℝ) < Real.sqrt 3 := by
    rw [show (1 : ℝ) = Real.sqrt 1 from (Real.sqrt_one).symm]
    exact Real.sqrt_lt_sqrt (by norm_num) (by norm_num)
  have hsqrt3' : (0 : ℝ) < Real.sqrt 3 := by linarith
  have hg : ∀ K : ℝ, sidesway_uninhibited_one_zero K (-12) =
      -6 / (-12) - xcot (π / K) := fun K =>
    sidesway_uninhibited_one_zero_eq K (-12)
  have hval15 : 0 < sidesway_uninhibited_one_zero 1.5 (-12) := by
    rw [hg, show (π / (1.5 : ℝ)) = π - π / 3 by
      rw [show (1.5 : ℝ) = 3 / 2 by norm_num]; ring]
    rw [xcot, Real.cos_pi_sub, Real.sin_pi_sub, Real.cos_pi_div_three,
      Real.sin_pi_div_three]
    have hneg : (π - π / 3) * -(1 / 2) / (Real.sqrt 3 / 2) < 0 := by
      apply div_neg_of_neg_of_pos
      · have : 0 < π - π / 3 := by linarith [Real.pi_pos]
        nlinarith
      · linarith
    norm_num at hneg ⊢
    linarith
  have hval6 : sidesway_uninhibited_one_zero 6 (-12) < 0 := by
    rw [hg, xcot, Real.cos_pi_div_six, Real.sin_pi_div_six]
    have hpi := Real.pi_gt_three
    have h1 : π / 6 * (Real.sqrt 3 / 2) / (1 / 2) = π * Real.sqrt 3 / 6 := by
      ring
    rw [h1, show -6 / (-12 : ℝ) = 1 / 2 by norm_num]
    have h2 : (3 : ℝ) * 1 < π * Real.sqrt 3 := by nlinarith
    linarith
  -- Continuity of the dispatched equation on [1.5, 6].
  have hcont : ContinuousOn (fun K => sidesway_uninhibited_one_zero K (-12))
      (Set.Icc 1.5 6) := by
    have heq : ∀ K ∈ Set.Icc (1.5 : ℝ) 6,
        -6 / (-12) - xcot (π / K) = sidesway_uninhibited_one_zero K (-12) :=
      fun K _ => (hg K).symm
    apply ContinuousOn.congr _ (fun K hK => (heq K hK).symm)
    apply ContinuousOn.sub continuousOn_const
    have hq : ContinuousOn (fun K : ℝ => π / K) (Set.Icc 1.5 6) := by
      apply ContinuousOn.div continuousOn_const continuousOn_id
      intro x hx
      simp only [id_eq]
      intro hc
      have h15 := hx.1
      rw [hc] at h15
      norm_num at h15
    apply ContinuousOn.comp (t := Set.Icc (π / 6) (2 * π / 3))
      (xcot_continuousOn _ ?_) hq ?_
    · intro u hu
      have hpi := Real.pi_pos
      have hu1 : 0 < u := lt_of_lt_of_le (by linarith) hu.1
      have hu2 : u < π := lt_of_le_of_lt hu.2 (by linarith)
      exact (Real.sin_pos_of_pos_of_lt_pi hu1 hu2).ne'
    · intro K hK
      have hK1 : (1.5 : ℝ) ≤ K := hK.1
      have hK2 : K ≤ 6 := hK.2
      have hpi := Real.pi_pos
      constructor
      · rw [div_le_div_iff₀ (by norm_num) (by linarith)]
        nlinarith
      · rw [div_le_div_iff₀ (by linarith) (by norm_num)]
        nlinarith
  -- Intermediate value theorem.
  have hsub := intermediate_value_Icc' (by norm_num : (1.5 : ℝ) ≤ 6) hcont
  have hmem : (0 : ℝ) ∈ Set.Icc (sidesway_uninhibited_one_zero 6 (-12))
      (sidesway_uninhibited_one_zero 1.5 (-12)) := ⟨le_of_lt hval6, le_of_lt hval15⟩
  obtain ⟨y, hy, hgy⟩ := hsub hmem
  rw [Set.mem_Icc] at hy
  refine ⟨y, ?_⟩
  rw [hdisp]
  exact ⟨by linarith [hy.1], by linarith [hy.2], hgy⟩

/-- C8 amended: negative GA or GB inputs are not validated:
`effective_length_factor` never raises an invalid-argument error for them,
but always dispatches to the root finder.  For some negative inputs the
root-finding call then fails — at (uninhibited, GA = 0, GB = -1) the
dispatched equation has no root in the bracket, so no conforming bracketed
root finder can return — but not for every negative input (see the
counterexample), so the failure is not universal and is a root-finder
failure, not an input-validation error. -/
theorem c8_amended :
    (∀ y, ¬ solverReturns
      (effective_length_factor "uninhibited" (GInput.fin 0) (GInput.fin (-1)))
      y) ∧
    (∀ (GA GB : GInput),
      ((∃ a, GA = GInput.fin a ∧ a < 0) ∨ (∃ b, GB = GInput.fin b ∧ b < 0)) →
      ∃ f, effective_length_factor "uninhibited" GA GB =
        ELFResult.solve f 1.0 1e10) ∧
    (∀ (GA GB : GInput),
      ((∃ a, GA = GInput.fin a ∧ a < 0) ∨ (∃ b, GB = GInput.fin b ∧ b < 0)) →
      ∃ f, effective_length_factor "inhibited" GA GB =
        ELFResult.solve f 0.5 nextafter_one) := by
  refine ⟨?_, ?_, ?_⟩
  · intro y hy
    have hnd : ¬ degenerate (GInput.fin 0) (GInput.fin (-1)) := by
      rintro (⟨hc, -⟩ | (⟨hc, -⟩ | ⟨-, hc⟩) | ⟨-, hc⟩)
      · cases hc
      · cases hc
      · cases hc
      · rw [GInput.fin.injEq] at hc; norm_num at hc
    have hdisp : effective_length_factor "uninhibited" (GInput.fin 0)
        (GInput.fin (-1)) =
        ELFResult.solve (fun K => sidesway_uninhibited_one_zero K (-1))
          1.0 1e10 := by
      rw [effective_length_factor_uninhibited]
      exact elf_body_solve_one_zero_left _ _ _ _ _ _ _ _ _ hnd rfl
    rw [hdisp] at hy
    obtain ⟨h1, h2, h3⟩ := hy
    have h3' : sidesway_uninhibited_one_zero y (-1) = 0 := h3
    rw [sidesway_uninhibited_one_zero_eq] at h3'
    have h6 : xcot (π / y) = 6 := by
      have he : -6 / (-1 : ℝ) = 6 := by norm_num
      rw [he] at h3'
      linarith
    have h1' : (1 : ℝ) ≤ y := by norm_num at h1; linarith
    rcases eq_or_lt_of_le h1' with he | hlt
    · rw [← he, div_one, xcot_pi] at h6
      norm_num at h6
    · have hu1 : 0 < π / y := div_pos Real.pi_pos (by linarith)
      have hu2 : π / y < π := by
        rw [div_lt_iff₀ (by linarith)]
        nlinarith [Real.pi_pos]
      linarith [xcot_lt_one (π / y) hu1 hu2]
  · intro GA GB h
    rw [effective_length_factor_uninhibited]
    rcases h with ⟨a, hA, ha⟩ | ⟨b, hB, hb⟩
    · subst hA
      exact elf_body_is_solve _ _ _ _ _ _ _ _ _ (not_degenerate_of_fin_neg a ha GB)
    · subst hB
      exact elf_body_is_solve _ _ _ _ _ _ _ _ _
        (degenerate_comm _ _ (not_degenerate_of_fin_neg b hb GA))
  · intro GA GB h
    rw [effective_length_factor_inhibited]
    rcases h with ⟨a, hA, ha⟩ | ⟨b, hB, hb⟩
    · subst hA
      exact elf_body_is_solve _ _ _ _ _ _ _ _ _ (not_degenerate_of_fin_neg a ha GB)
    · subst hB
      exact elf_body_is_solve _ _ _ _ _ _ _ _ _
        (degenerate_comm _ _ (not_degenerate_of_fin_neg b hb GA))

/-- Witness for the amended C8 at a concrete input with a non-negative `GA`
and a negative `GB`. -/
theorem c8_amended_witness :
    ((∃ a, (GInput.fin 5 : GInput) = GInput.fin a ∧ a < 0) ∨
      (∃ b, (GInput.fin (-1) : GInput) = GInput.fin b ∧ b < 0)) ∧
    (∃ f, effective_length_factor "uninhibited" (GInput.fin 5)
        (GInput.fin (-1)) = ELFResult.solve f 1.0 1e10) :=
  ⟨Or.inr ⟨-1, rfl, by norm_num⟩,
    c8_amended.2.1 (GInput.fin 5) (GInput.fin (-1))
      (Or.inr ⟨-1, rfl, by norm_num⟩)⟩

/-! ## Claim C6, case 2: uninhibited round trip with GA = 0, target K = 1.5 -/

theorem c6aux_case2 :
    (∀ y, solverReturns (effective_length_factor "uninhibited" (GInput.fin 0)
      (GInput.fin (-6 * Real.tan (π / 1.5) / (π / 1.5)))) y →
      |y - 1.5| ≤ 1.5 * 1e-9) ∧
    (∃ y, solverReturns (effective_length_factor "uninhibited" (GInput.fin 0)
      (GInput.fin (-6 * Real.tan (π / 1.5) / (π / 1.5)))) y) := by
  have hpi := Real.pi_pos
  have hs3p : (0 : ℝ) < Real.sqrt 3 := Real.sqrt_pos.mpr (by norm_num)
  have h15 : (1.5 : ℝ) = 3 / 2 := by norm_num
  have ht : Real.tan (π / 1.5) = -Real.sqrt 3 := by
    rw [show (π / (1.5 : ℝ)) = -(π / 3) + π by rw [h15]; ring]
    rw [Real.tan_add_pi, Real.tan_neg, Real.tan_pi_div_three]
  have hg : (-6 : ℝ) * Real.tan (π / 1.5) / (π / 1.5) =
      9 * Real.sqrt 3 / π := by
    rw [ht, h15]
    field_simp
    ring
  rw [hg]
  set g : ℝ := 9 * Real.sqrt 3 / π with hgdef
  have hgpos : (0 : ℝ) < g := by
    rw [hgdef]
    positivity
  have hgne : g ≠ 0 := ne_of_gt hgpos
  have hnd : ¬ degenerate (GInput.fin 0) (GInput.fin g) := by
    rintro (⟨hc, -⟩ | (⟨hc, -⟩ | ⟨-, hc⟩) | ⟨-, hc⟩)
    · cases hc
    · cases hc
    · cases hc
    · rw [GInput.fin.injEq] at hc; exact hgne hc
  have hdisp : effective_length_factor "uninhibited" (GInput.fin 0)
      (GInput.fin g) =
      ELFResult.solve (fun K => sidesway_uninhibited_one_zero K g) 1.0 1e10 := by
    rw [effective_length_factor_uninhibited]
    exact elf_body_solve_one_zero_left _ _ _ _ _ _ _ _ _ hnd rfl
  have hroot : sidesway_uninhibited_one_zero 1.5 g = 0 := by
    rw [sidesway_uninhibited_one_zero_eq, xcot]
    have hc : Real.cos (π / 1.5) = -(1 / 2) := by
      rw [show (π / (1.5 : ℝ)) = π - π / 3 by rw [h15]; ring, Real.cos_pi_sub,
        Real.cos_pi_div_three]
    have hs : Real.sin (π / 1.5) = Real.sqrt 3 / 2 := by
      rw [show (π / (1.5 : ℝ)) = π - π / 3 by rw [h15]; ring, Real.sin_pi_sub,
        Real.sin_pi_div_three]
    rw [hc, hs, hgdef]
    have h3ne : Real.sqrt 3 ≠ 0 := ne_of_gt hs3p
    have hpine : π ≠ 0 := Real.pi_ne_zero
    field_simp
    ring
  constructor
  · intro y hy
    rw [hdisp] at hy
    obtain ⟨h1, h2, h3⟩ := hy
    have h3' : sidesway_uninhibited_one_zero y g = 0 := h3
    have h1' : (1 : ℝ) ≤ y := by linarith
    rcases eq_or_lt_of_le h1' with he | hlt
    · exfalso
      rw [← he, sidesway_uninhibited_one_zero_eq, div_one, xcot_pi] at h3'
      have hneg : -6 / g < 0 := div_neg_of_neg_of_pos (by norm_num) hgpos
      linarith
    · rcases lt_trichotomy y 1.5 with hy15 | hy15 | hy15
      · exfalso
        have := uninhibited_one_zero_strict_anti g y 1.5 hlt hy15
        rw [hroot] at this
        linarith
      · rw [hy15]
        norm_num
      · exfalso
        have := uninhibited_one_zero_strict_anti g 1.5 y (by norm_num) hy15
        rw [hroot] at this
        linarith
  · refine ⟨1.5, ?_⟩
    rw [hdisp]
    exact ⟨by norm_num, by norm_num, hroot⟩

/-! ## Claim C6, case 1: uninhibited round trip with GA = ∞, target K = 3 -/

set_option maxHeartbeats 1000000 in
theorem c6aux_case1 :
    (∀ y, solverReturns (effective_length_factor "uninhibited" GInput.inf
      (GInput.fin (6 / (π / 3) / Real.tan (π / 3)))) y → |y - 3| ≤ 3 * 1e-9) ∧
    (∃ y, solverReturns (effective_length_factor "uninhibited" GInput.inf
      (GInput.fin (6 / (π / 3) / Real.tan (π / 3)))) y) := by
  have hpi := Real.pi_pos
  have hpil := Real.pi_gt_d2
  have hpiu := Real.pi_lt_d2
  have hs3p : (0 : ℝ) < Real.sqrt 3 := Real.sqrt_pos.mpr (by norm_num)
  have hs3l : (1.732 : ℝ) ≤ Real.sqrt 3 := by
    calc (1.732 : ℝ) = Real.sqrt (1.732 ^ 2) := (Real.sqrt_sq (by norm_num)).symm
    _ ≤ Real.sqrt 3 := Real.sqrt_le_sqrt (by norm_num)
  have hs3u : Real.sqrt 3 ≤ 1.7321 := by
    calc Real.sqrt 3 ≤ Real.sqrt (1.7321 ^ 2) := Real.sqrt_le_sqrt (by norm_num)
    _ = 1.7321 := Real.sqrt_sq (by norm_num)
  have hg : (6 : ℝ) / (π / 3) / Real.tan (π / 3) = 18 / (π * Real.sqrt 3) := by
    rw [Real.tan_pi_div_three]
    field_simp
    ring
  rw [hg]
  have hpsl : (5.43 : ℝ) ≤ π * Real.sqrt 3 := by nlinarith
  have hpsu : π * Real.sqrt 3 ≤ 5.4562 := by nlinarith
  generalize hgdef : (18 / (π * Real.sqrt 3) : ℝ) = g
  have hgl : (3.29 : ℝ) ≤ g := by
    rw [← hgdef, le_div_iff₀ (by linarith)]
    nlinarith
  have hgu : g ≤ 3.32 := by
    rw [← hgdef, div_le_iff₀ (by linarith)]
    nlinarith
  have hgpos : (0 : ℝ) < g := by linarith
  have hgne : g ≠ 0 := ne_of_gt hgpos
  have hden : (0 : ℝ) < 1e10 + g := by nlinarith
  have hdenne : (1e10 : ℝ) + g ≠ 0 := ne_of_gt hden
  have hnd : ¬ degenerate GInput.inf (GInput.fin g) := by
    rintro (⟨-, hc⟩ | (⟨-, hc⟩ | ⟨hc, -⟩) | ⟨hc, -⟩)
    · cases hc
    · rw [GInput.fin.injEq] at hc; exact hgne hc
    · cases hc
    · cases hc
  have hdisp : effective_length_factor "uninhibited" GInput.inf (GInput.fin g) =
      ELFResult.solve (fun K => sidesway_uninhibited_fcn K 1e10 g) 1.0 1e10 := by
    rw [effective_length_factor_uninhibited]
    exact elf_body_solve_full _ _ _ _ _ _ _ _ _ hnd
      (fun hc => by cases hc)
      (fun hc => by rw [GInput.fin.injEq] at hc; exact hgne hc)
  have hformU : ∀ u : ℝ, (1e10 * g * u ^ 2 - 36) / (6 * (1e10 + g)) =
      1e10 * g / (6 * (1e10 + g)) * u ^ 2 - 6 / (1e10 + g) := by
    intro u
    field_simp
    ring
  have hform : ∀ K : ℝ, sidesway_uninhibited_fcn K 1e10 g =
      1e10 * g / (6 * (1e10 + g)) * (π / K) ^ 2 - 6 / (1e10 + g) -
        xcot (π / K) := by
    intro K
    rw [sidesway_uninhibited_fcn_eq, hformU (π / K)]
  have hval3 : sidesway_uninhibited_fcn 3 1e10 g = -8 / (1e10 + g) := by
    rw [sidesway_uninhibited_fcn_eq, xcot, Real.cos_pi_div_three,
      Real.sin_pi_div_three, ← hgdef]
    have hsq : Real.sqrt 3 ^ 2 = 3 := Real.sq_sqrt (by norm_num)
    have h3ne : Real.sqrt 3 ≠ 0 := ne_of_gt hs3p
    have hpine : π ≠ 0 := Real.pi_ne_zero
    have hdenne2 : (1e10 : ℝ) + 18 / (π * Real.sqrt 3) ≠ 0 := by
      rw [hgdef]
      exact hdenne
    field_simp
    linear_combination (11664 * π ^ 2 * Real.sqrt 3 +
      6480000000000 * π ^ 3 * Real.sqrt 3 ^ 2) * hsq
  have hval3neg : sidesway_uninhibited_fcn 3 1e10 g < 0 := by
    rw [hval3]
    exact div_neg_of_neg_of_pos (by norm_num) hden
  have hval3ge : -(8e-10 : ℝ) ≤ sidesway_uninhibited_fcn 3 1e10 g := by
    rw [hval3]
    have h1 : (8 : ℝ) / (1e10 + g) ≤ 8e-10 := by
      rw [div_le_iff₀ hden]
      nlinarith
    have h2 : (-8 : ℝ) / (1e10 + g) = -(8 / (1e10 + g)) := by ring
    rw [h2]
    linarith
  have hC_l : (0.5482 : ℝ) ≤ 1e10 * g / (6 * (1e10 + g)) := by
    rw [le_div_iff₀ (by linarith)]
    nlinarith
  have hΔ : (2.19e-9 : ℝ) ≤ (π / (3 - 3e-9)) ^ 2 - (π / 3) ^ 2 := by
    have h1 : (π / (3 - 3e-9)) ^ 2 - (π / 3) ^ 2 =
        π ^ 2 * (1 / (3 - 3e-9) ^ 2 - 1 / 9) := by ring
    have hp2 : (9.8596 : ℝ) ≤ π ^ 2 := by nlinarith
    rw [h1]
    nlinarith
  have hxc3 : xcot (π / (3 - 3e-9)) < xcot (π / 3) := by
    apply xcot_strictAntiOn_low (pi_div_mem_Ioo_of_one_lt 3 (by norm_num))
      (pi_div_mem_Ioo_of_one_lt (3 - 3e-9) (by norm_num))
    exact div_lt_div_of_pos_left hpi (by norm_num) (by norm_num)
  have hpos : 0 < sidesway_uninhibited_fcn (3 - 3e-9) 1e10 g := by
    have hkey : 1e10 * g / (6 * (1e10 + g)) * (π / 3) ^ 2 - 6 / (1e10 + g) -
        xcot (π / 3) = -8 / (1e10 + g) := by
      rw [← hform 3]
      exact hval3
    have hCpos : (0 : ℝ) ≤ 1e10 * g / (6 * (1e10 + g)) := by linarith
    have hprod : (0.5482 : ℝ) * 2.19e-9 ≤
        1e10 * g / (6 * (1e10 + g)) * ((π / (3 - 3e-9)) ^ 2 - (π / 3) ^ 2) :=
      mul_le_mul hC_l hΔ (by norm_num) hCpos
    have hge : -(8e-10 : ℝ) ≤ -8 / (1e10 + g) := by
      rw [← hval3]
      exact hval3ge
    rw [hform]
    linarith [hkey, hprod, hge, hxc3]
  have hend1 : 0 < sidesway_uninhibited_fcn 1 1e10 g := by
    rw [hform, div_one, xcot_pi]
    have hD : 6 / (1e10 + g) ≤ 1 := by
      rw [div_le_iff₀ hden]
      nlinarith
    have hp2 : (9.8596 : ℝ) ≤ π ^ 2 := by nlinarith
    have hCpos : (0 : ℝ) ≤ 1e10 * g / (6 * (1e10 + g)) := by linarith
    have hprod : (0.5482 : ℝ) * 9.8596 ≤
        1e10 * g / (6 * (1e10 + g)) * π ^ 2 :=
      mul_le_mul hC_l hp2 (by norm_num) hCpos
    linarith
  constructor
  · intro y hy
    rw [hdisp] at hy
    obtain ⟨h1, h2, h3⟩ := hy
    have h3' : sidesway_uninhibited_fcn y 1e10 g = 0 := h3
    have h1' : (1 : ℝ) ≤ y := by linarith
    have h2' : y ≤ 1e10 := by linarith
    rcases eq_or_lt_of_le h1' with he | hlt
    · exfalso
      rw [← he] at h3'
      linarith
    · rcases lt_or_le y (3 - 3e-9) with hy3 | hy3
      · exfalso
        have := uninhibited_fcn_strict_anti 1e10 g y (3 - 3e-9) (by norm_num)
          hgpos hlt hy3
        linarith
      · rcases le_or_lt y 3 with hy3' | hy3'
        · rw [abs_le]
          constructor <;> linarith
        · exfalso
          have := uninhibited_fcn_strict_anti 1e10 g 3 y (by norm_num) hgpos
            (by norm_num) hy3'
          linarith
  · have hcont : ContinuousOn (fun K => sidesway_uninhibited_fcn K 1e10 g)
        (Set.Icc (3 - 3e-9) 3) := by
      apply uninhibited_fcn_continuousOn
      · intro K hK
        have h1 := hK.1
        intro hc
        rw [hc] at h1
        norm_num at h1
      · intro K hK
        have hmem := pi_div_mem_Ioo_of_one_lt K
          (lt_of_lt_of_le (by norm_num) hK.1)
        exact (Real.sin_pos_of_pos_of_lt_pi hmem.1 hmem.2).ne'
    have hsub := intermediate_value_Icc' (by norm_num : (3 - 3e-9 : ℝ) ≤ 3) hcont
    have hmem : (0 : ℝ) ∈ Set.Icc (sidesway_uninhibited_fcn 3 1e10 g)
        (sidesway_uninhibited_fcn (3 - 3e-9) 1e10 g) :=
      ⟨le_of_lt hval3neg, le_of_lt hpos⟩
    obtain ⟨y, hy, hgy⟩ := hsub hmem
    rw [Set.mem_Icc] at hy
    exact ⟨y, by
      rw [hdisp]
      exact ⟨by linarith [hy.1], by linarith [hy.2], hgy⟩⟩

/-- Interval product bound for nonnegative factors, used in the numeric
round-trip evaluations. -/
theorem mul_bounds (x y xl xu yl yu : ℝ) (h1 : xl ≤ x) (h2 : x ≤ xu)
    (h3 : yl ≤ y) (h4 : y ≤ yu) (hx : 0 ≤ xl) (hy : 0 ≤ yl) :
    xl * yl ≤ x * y ∧ x * y ≤ xu * yu :=
  ⟨mul_le_mul h1 h3 hy (hx.trans h1),
   mul_le_mul h2 h4 (hy.trans h3) ((hx.trans h1).trans h2)⟩

/-- Multiplying the inhibited one-zero equation through by `u * sin u * cos (u/2)`
clears all divisions; stated abstractly over the trigonometric atoms. -/
theorem inhibited_one_zero_mul_identity (G u sa ca sb cb : ℝ)
    (hsa : sa ≠ 0) (hcb : cb ≠ 0) (hu : u ≠ 0) :
    (0.5 * G * (1 - u * ca / sa) + 2 * (sb / cb) / u - 1) * (u * sa * cb) =
      (0.5 * G - 1) * (u * sa * cb) - 0.5 * G * (u ^ 2 * (ca * cb)) +
        2 * (sb * sa) := by
  field_simp
  ring

/-- Multiplying the inhibited full equation through by `u * sin u * cos (u/2)`
clears all divisions; stated abstractly over the trigonometric atoms. -/
theorem inhibited_fcn_mul_identity (GA GB u sa ca sb cb : ℝ)
    (hsa : sa ≠ 0) (hcb : cb ≠ 0) (hu : u ≠ 0) :
    (0.25 * GA * GB * u ^ 2 + 0.5 * (GA + GB) * (1 - u * ca / sa) +
      2 * (sb / cb) / u - 1) * (u * sa * cb) =
      0.25 * GA * GB * (u ^ 2 * (u * sa * cb)) +
        (0.5 * (GA + GB) - 1) * (u * sa * cb) -
        0.5 * (GA + GB) * (u ^ 2 * (ca * cb)) + 2 * (sb * sa) := by
  field_simp
  ring

set_option maxHeartbeats 8000000 in
theorem c6aux_case4_hm :
    0 < sidesway_inhibited_one_zero 0.5999999994 0.6067769722307135 := by
  have hpil := Real.pi_gt_d20
  have hpiu := Real.pi_lt_d20
  have hs3l : (1.73205080756887 : ℝ) ≤ Real.sqrt 3 := by
    calc (1.73205080756887 : ℝ) = Real.sqrt ((1.73205080756887:ℝ) ^ 2) := (Real.sqrt_sq (by norm_num)).symm
    _ ≤ Real.sqrt 3 := Real.sqrt_le_sqrt (by norm_num)
  have hs3u : Real.sqrt 3 ≤ (1.73205080756888 : ℝ) := by
    calc Real.sqrt 3 ≤ Real.sqrt ((1.73205080756888:ℝ) ^ 2) := Real.sqrt_le_sqrt (by norm_num)
    _ = (1.73205080756888 : ℝ) := Real.sqrt_sq (by norm_num)
  have hepos : (0:ℝ) < π * (5 / 2999999997) := by linarith
  have helo : (0.00000000523598776121 : ℝ) ≤ π * (5 / 2999999997) := by linarith
  have hehi : π * (5 / 2999999997) ≤ (0.00000000523598776122 : ℝ) := by linarith
  have hfpos : (0:ℝ) < π * (5 / 5999999994) := by linarith
  have hflo : (0.0000000026179938806 : ℝ) ≤ π * (5 / 5999999994) := by linarith
  have hfhi : π * (5 / 5999999994) ≤ (0.00000000261799388061 : ℝ) := by linarith
  have hSeu : Real.sin (π * (5 / 2999999997)) ≤ (0.00000000523598776122 : ℝ) :=
    le_trans (le_of_lt (Real.sin_lt hepos)) hehi
  have hSel : (0.0000000052359877612 : ℝ) ≤ Real.sin (π * (5 / 2999999997)) := by
    have hcube := Real.sin_gt_sub_cube hepos (by linarith : π * (5 / 2999999997) ≤ 1)
    have hc3 : (π * (5 / 2999999997)) ^ 3 ≤ (0.00000000523598776122 : ℝ) ^ 3 :=
      pow_le_pow_left₀ (le_of_lt hepos) hehi 3
    nlinarith [hcube, hc3]
  have hCeu : Real.cos (π * (5 / 2999999997)) ≤ 1 := Real.cos_le_one _
  have hCel : (0.999999999999999986292216 : ℝ) ≤ Real.cos (π * (5 / 2999999997)) := by
    have h := Real.one_sub_sq_div_two_le_cos (x := π * (5 / 2999999997))
    have hsq : (π * (5 / 2999999997)) ^ 2 ≤ (0.00000000523598776122 : ℝ) ^ 2 :=
      pow_le_pow_left₀ (le_of_lt hepos) hehi 2
    nlinarith [h, hsq]
  have hSfu : Real.sin (π * (5 / 5999999994)) ≤ (0.00000000261799388061 : ℝ) :=
    le_trans (le_of_lt (Real.sin_lt hfpos)) hfhi
  have hSfl : (0.00000000261799388059 : ℝ) ≤ Real.sin (π * (5 / 5999999994)) := by
    have hcube := Real.sin_gt_sub_cube hfpos (by linarith : π * (5 / 5999999994) ≤ 1)
    have hc3 : (π * (5 / 5999999994)) ^ 3 ≤ (0.00000000261799388061 : ℝ) ^ 3 :=
      pow_le_pow_left₀ (le_of_lt hfpos) hfhi 3
    nlinarith [hcube, hc3]
  have hCfu : Real.cos (π * (5 / 5999999994)) ≤ 1 := Real.cos_le_one _
  have hCfl : (0.999999999999999996573054 : ℝ) ≤ Real.cos (π * (5 / 5999999994)) := by
    have h := Real.one_sub_sq_div_two_le_cos (x := π * (5 / 5999999994))
    have hsq : (π * (5 / 5999999994)) ^ 2 ≤ (0.00000000261799388061 : ℝ) ^ 2 :=
      pow_le_pow_left₀ (le_of_lt hfpos) hfhi 2
    nlinarith [h, hsq]
  have hhs3coseh := mul_bounds (Real.sqrt 3) (Real.cos (π * (5 / 2999999997)))
    1.73205080756887 1.73205080756888 (0.999999999999999986292216) (1)
    hs3l hs3u hCel hCeu (by norm_num) (by norm_num)
  have hhs3cosel : (1.7320508075688 : ℝ) ≤ Real.sqrt 3 * Real.cos (π * (5 / 2999999997)) := le_trans (by norm_num) hhs3coseh.1
  have hhs3coseu : Real.sqrt 3 * Real.cos (π * (5 / 2999999997)) ≤ (1.7320508075689 : ℝ) := le_trans hhs3coseh.2 (by norm_num)
  have hhs3sineh := mul_bounds (Real.sqrt 3) (Real.sin (π * (5 / 2999999997)))
    1.73205080756887 1.73205080756888 (0.0000000052359877612) (0.00000000523598776122)
    hs3l hs3u hSel hSeu (by norm_num) (by norm_num)
  have hhs3sinel : (0.0000000090689968302071 : ℝ) ≤ Real.sqrt 3 * Real.sin (π * (5 / 2999999997)) := le_trans (by norm_num) hhs3sineh.1
  have hhs3sineu : Real.sqrt 3 * Real.sin (π * (5 / 2999999997)) ≤ (0.0000000090689968302419 : ℝ) := le_trans hhs3sineh.2 (by norm_num)
  have hhs3cosfh := mul_bounds (Real.sqrt 3) (Real.cos (π * (5 / 5999999994)))
    1.73205080756887 1.73205080756888 (0.999999999999999996573054) (1)
    hs3l hs3u hCfl hCfu (by norm_num) (by norm_num)
  have hhs3cosfl : (1.7320508075688 : ℝ) ≤ Real.sqrt 3 * Real.cos (π * (5 / 5999999994)) := le_trans (by norm_num) hhs3cosfh.1
  have hhs3cosfu : Real.sqrt 3 * Real.cos (π * (5 / 5999999994)) ≤ (1.7320508075689 : ℝ) := le_trans hhs3cosfh.2 (by norm_num)
  have hhs3sinfh := mul_bounds (Real.sqrt 3) (Real.sin (π * (5 / 5999999994)))
    1.73205080756887 1.73205080756888 (0.00000000261799388059) (0.00000000261799388061)
    hs3l hs3u hSfl hSfu (by norm_num) (by norm_num)
  have hhs3sinfl : (0.0000000045344984150862 : ℝ) ≤ Real.sqrt 3 * Real.sin (π * (5 / 5999999994)) := le_trans (by norm_num) hhs3sinfh.1
  have hhs3sinfu : Real.sqrt 3 * Real.sin (π * (5 / 5999999994)) ≤ (0.000000004534498415121 : ℝ) := le_trans hhs3sinfh.2 (by norm_num)
  have hdsin : Real.sin (π / 0.5999999994) = -(Real.sqrt 3 / 2) * Real.cos (π * (5 / 2999999997)) + (1 / 2) * Real.sin (π * (5 / 2999999997)) := by
    rw [show (π / 0.5999999994 : ℝ) = 5 * π / 3 + π * (5 / 2999999997) by ring,
      Real.sin_add, sin_five_pi_div_three, cos_five_pi_div_three]
    try ring
  have hdcos : Real.cos (π / 0.5999999994) = (1 / 2) * Real.cos (π * (5 / 2999999997)) + (Real.sqrt 3 / 2) * Real.sin (π * (5 / 2999999997)) := by
    rw [show (π / 0.5999999994 : ℝ) = 5 * π / 3 + π * (5 / 2999999997) by ring,
      Real.cos_add, sin_five_pi_div_three, cos_five_pi_div_three]
    try ring
  have hdsin2 : Real.sin (0.5 * (π / 0.5999999994)) = (1 / 2) * Real.cos (π * (5 / 5999999994)) - (Real.sqrt 3 / 2) * Real.sin (π * (5 / 5999999994)) := by
    rw [show (0.5 * (π / 0.5999999994) : ℝ) = 5 * π / 6 + π * (5 / 5999999994) by ring,
      Real.sin_add, sin_five_pi_div_six, cos_five_pi_div_six]
    try ring
  have hdcos2 : Real.cos (0.5 * (π / 0.5999999994)) = -(Real.sqrt 3 / 2) * Real.cos (π * (5 / 5999999994)) - (1 / 2) * Real.sin (π * (5 / 5999999994)) := by
    rw [show (0.5 * (π / 0.5999999994) : ℝ) = 5 * π / 6 + π * (5 / 5999999994) by ring,
      Real.cos_add, sin_five_pi_div_six, cos_five_pi_div_six]
    try ring
  have hAsinl : (-0.8660254011665 : ℝ) ≤ Real.sin (π / 0.5999999994) := by
    rw [hdsin]
    linarith [hhs3cosel, hhs3coseu, hhs3sinel, hhs3sineu, hhs3cosfl, hhs3cosfu, hhs3sinfl, hhs3sinfu, hSel, hSeu, hCel, hCeu, hSfl, hSfu, hCfl, hCfu]
  have hAsinu : Real.sin (π / 0.5999999994) ≤ (-0.8660254011664 : ℝ) := by
    rw [hdsin]
    linarith [hhs3cosel, hhs3coseu, hhs3sinel, hhs3sineu, hhs3cosfl, hhs3cosfu, hhs3sinfl, hhs3sinfu, hSel, hSeu, hCel, hCeu, hSfl, hSfu, hCfl, hCfu]
  have hAcosl : (0.5000000045344 : ℝ) ≤ Real.cos (π / 0.5999999994) := by
    rw [hdcos]
    linarith [hhs3cosel, hhs3coseu, hhs3sinel, hhs3sineu, hhs3cosfl, hhs3cosfu, hhs3sinfl, hhs3sinfu, hSel, hSeu, hCel, hCeu, hSfl, hSfu, hCfl, hCfu]
  have hAcosu : Real.cos (π / 0.5999999994) ≤ (0.5000000045345 : ℝ) := by
    rw [hdcos]
    linarith [hhs3cosel, hhs3coseu, hhs3sinel, hhs3sineu, hhs3cosfl, hhs3cosfu, hhs3sinfl, hhs3sinfu, hSel, hSeu, hCel, hCeu, hSfl, hSfu, hCfl, hCfu]
  have hAsin2l : (0.4999999977327 : ℝ) ≤ Real.sin (0.5 * (π / 0.5999999994)) := by
    rw [hdsin2]
    linarith [hhs3cosel, hhs3coseu, hhs3sinel, hhs3sineu, hhs3cosfl, hhs3cosfu, hhs3sinfl, hhs3sinfu, hSel, hSeu, hCel, hCeu, hSfl, hSfu, hCfl, hCfu]
  have hAsin2u : Real.sin (0.5 * (π / 0.5999999994)) ≤ (0.4999999977328 : ℝ) := by
    rw [hdsin2]
    linarith [hhs3cosel, hhs3coseu, hhs3sinel, hhs3sineu, hhs3cosfl, hhs3cosfu, hhs3sinfl, hhs3sinfu, hSel, hSeu, hCel, hCeu, hSfl, hSfu, hCfl, hCfu]
  have hAcos2l : (-0.8660254050935 : ℝ) ≤ Real.cos (0.5 * (π / 0.5999999994)) := by
    rw [hdcos2]
    linarith [hhs3cosel, hhs3coseu, hhs3sinel, hhs3sineu, hhs3cosfl, hhs3cosfu, hhs3sinfl, hhs3sinfu, hSel, hSeu, hCel, hCeu, hSfl, hSfu, hCfl, hCfu]
  have hAcos2u : Real.cos (0.5 * (π / 0.5999999994)) ≤ (-0.8660254050933 : ℝ) := by
    rw [hdcos2]
    linarith [hhs3cosel, hhs3coseu, hhs3sinel, hhs3sineu, hhs3cosfl, hhs3cosfu, hhs3sinfl, hhs3sinfu, hSel, hSeu, hCel, hCeu, hSfl, hSfu, hCfl, hCfu]
  have hul : (5.2359877612189 : ℝ) ≤ π / 0.5999999994 := by
    rw [le_div_iff₀ (by norm_num : (0:ℝ) < 0.5999999994)]
    linarith
  have huu : π / 0.5999999994 ≤ (5.235987761219 : ℝ) := by
    rw [div_le_iff₀ (by norm_num : (0:ℝ) < 0.5999999994)]
    linarith
  have hq1h := mul_bounds (-Real.sin (π / 0.5999999994)) (-Real.cos (0.5 * (π / 0.5999999994)))
    0.8660254011664 0.8660254011665 0.8660254050933 0.8660254050935
    (by linarith) (by linarith) (by linarith) (by linarith) (by norm_num) (by norm_num)
  have hq1l : (0.7499999988662 : ℝ) ≤ -Real.sin (π / 0.5999999994) * (-Real.cos (0.5 * (π / 0.5999999994))) := le_trans (by norm_num) hq1h.1
  have hq1u : -Real.sin (π / 0.5999999994) * (-Real.cos (0.5 * (π / 0.5999999994))) ≤ (0.7499999988665 : ℝ) := le_trans hq1h.2 (by norm_num)
  have hT1h := mul_bounds (π / 0.5999999994) (-Real.sin (π / 0.5999999994) * (-Real.cos (0.5 * (π / 0.5999999994))))
    5.2359877612189 5.235987761219 0.7499999988662 0.7499999988665
    hul huu hq1l hq1u (by norm_num) (by norm_num)
  have hT1l : (3.926990814977 : ℝ) ≤ π / 0.5999999994 * (-Real.sin (π / 0.5999999994) * (-Real.cos (0.5 * (π / 0.5999999994)))) := le_trans (by norm_num) hT1h.1
  have hT1u : π / 0.5999999994 * (-Real.sin (π / 0.5999999994) * (-Real.cos (0.5 * (π / 0.5999999994)))) ≤ (3.92699081498 : ℝ) := le_trans hT1h.2 (by norm_num)
  have hu2h := mul_bounds (π / 0.5999999994) (π / 0.5999999994)
    5.2359877612189 5.235987761219 5.2359877612189 5.235987761219
    hul huu hul huu (by norm_num) (by norm_num)
  have hu2l : (27.41556783563 : ℝ) ≤ π / 0.5999999994 * (π / 0.5999999994) := le_trans (by norm_num) hu2h.1
  have hu2u : π / 0.5999999994 * (π / 0.5999999994) ≤ (27.41556783564 : ℝ) := le_trans hu2h.2 (by norm_num)
  have hr2h := mul_bounds (Real.cos (π / 0.5999999994)) (-Real.cos (0.5 * (π / 0.5999999994)))
    0.5000000045344 0.5000000045345 0.8660254050933 0.8660254050935
    (by linarith) (by linarith) (by linarith) (by linarith) (by norm_num) (by norm_num)
  have hr2l : (0.4330127064735 : ℝ) ≤ Real.cos (π / 0.5999999994) * (-Real.cos (0.5 * (π / 0.5999999994))) := le_trans (by norm_num) hr2h.1
  have hr2u : Real.cos (π / 0.5999999994) * (-Real.cos (0.5 * (π / 0.5999999994))) ≤ (0.4330127064738 : ℝ) := le_trans hr2h.2 (by norm_num)
  have hT2h := mul_bounds (π / 0.5999999994 * (π / 0.5999999994)) (Real.cos (π / 0.5999999994) * (-Real.cos (0.5 * (π / 0.5999999994))))
    27.41556783563 27.41556783564 0.4330127064735 0.4330127064738
    hu2l hu2u hr2l hr2u (by norm_num) (by norm_num)
  have hT2l : (11.87128922801 : ℝ) ≤ π / 0.5999999994 * (π / 0.5999999994) * (Real.cos (π / 0.5999999994) * (-Real.cos (0.5 * (π / 0.5999999994)))) := le_trans (by norm_num) hT2h.1
  have hT2u : π / 0.5999999994 * (π / 0.5999999994) * (Real.cos (π / 0.5999999994) * (-Real.cos (0.5 * (π / 0.5999999994)))) ≤ (11.87128922803 : ℝ) := le_trans hT2h.2 (by norm_num)
  have hT3h := mul_bounds (Real.sin (0.5 * (π / 0.5999999994))) (-Real.sin (π / 0.5999999994))
    0.4999999977327 0.4999999977328 0.8660254011664 0.8660254011665
    hAsin2l hAsin2u (by linarith) (by linarith) (by norm_num) (by norm_num)
  have hT3l : (0.4330126986196 : ℝ) ≤ Real.sin (0.5 * (π / 0.5999999994)) * (-Real.sin (π / 0.5999999994)) := le_trans (by norm_num) hT3h.1
  have hT3u : Real.sin (0.5 * (π / 0.5999999994)) * (-Real.sin (π / 0.5999999994)) ≤ (0.4330126986198 : ℝ) := le_trans hT3h.2 (by norm_num)
  have hsin_ne : Real.sin (π / 0.5999999994) ≠ 0 := ne_of_lt (lt_of_le_of_lt hAsinu (by norm_num))
  have hcos2_ne : Real.cos (0.5 * (π / 0.5999999994)) ≠ 0 := ne_of_lt (lt_of_le_of_lt hAcos2u (by norm_num))
  have hu_ne : (π / 0.5999999994 : ℝ) ≠ 0 := by positivity
  have hMeq : sidesway_inhibited_one_zero 0.5999999994 0.6067769722307135 * (π / 0.5999999994 * Real.sin (π / 0.5999999994) * Real.cos (0.5 * (π / 0.5999999994))) = (0.5 * 0.6067769722307135 - 1) * (π / 0.5999999994 * Real.sin (π / 0.5999999994) * Real.cos (0.5 * (π / 0.5999999994))) - 0.5 * 0.6067769722307135 * ((π / 0.5999999994) ^ 2 * (Real.cos (π / 0.5999999994) * Real.cos (0.5 * (π / 0.5999999994)))) + 2 * (Real.sin (0.5 * (π / 0.5999999994)) * Real.sin (π / 0.5999999994)) := by
    rw [sidesway_inhibited_one_zero_eq, xcot, Real.tan_eq_sin_div_cos]
    exact inhibited_one_zero_mul_identity 0.6067769722307135 (π / 0.5999999994) (Real.sin (π / 0.5999999994)) (Real.cos (π / 0.5999999994))
      (Real.sin (0.5 * (π / 0.5999999994))) (Real.cos (0.5 * (π / 0.5999999994))) hsin_ne hcos2_ne hu_ne
  have hN : (0.0000000532495 : ℝ) ≤ (0.5 * 0.6067769722307135 - 1) * (π / 0.5999999994 * Real.sin (π / 0.5999999994) * Real.cos (0.5 * (π / 0.5999999994))) - 0.5 * 0.6067769722307135 * ((π / 0.5999999994) ^ 2 * (Real.cos (π / 0.5999999994) * Real.cos (0.5 * (π / 0.5999999994)))) + 2 * (Real.sin (0.5 * (π / 0.5999999994)) * Real.sin (π / 0.5999999994)) := by
    linarith [hT1l, hT1u, hT2l, hT2u, hT3l, hT3u]
  have hMpos : (0:ℝ) < π / 0.5999999994 * Real.sin (π / 0.5999999994) * Real.cos (0.5 * (π / 0.5999999994)) := by linarith [hT1l]
  by_contra hcon
  push_neg at hcon
  have hle := mul_le_mul_of_nonneg_right hcon hMpos.le
  rw [zero_mul, hMeq] at hle
  linarith [hN]

set_option maxHeartbeats 8000000 in
theorem c6aux_case4_hp :
    sidesway_inhibited_one_zero 0.6000000006 0.6067769722307135 < 0 := by
  have hpil := Real.pi_gt_d20
  have hpiu := Real.pi_lt_d20
  have hs3l : (1.73205080756887 : ℝ) ≤ Real.sqrt 3 := by
    calc (1.73205080756887 : ℝ) = Real.sqrt ((1.73205080756887:ℝ) ^ 2) := (Real.sqrt_sq (by norm_num)).symm
    _ ≤ Real.sqrt 3 := Real.sqrt_le_sqrt (by norm_num)
  have hs3u : Real.sqrt 3 ≤ (1.73205080756888 : ℝ) := by
    calc Real.sqrt 3 ≤ Real.sqrt ((1.73205080756888:ℝ) ^ 2) := Real.sqrt_le_sqrt (by norm_num)
    _ = (1.73205080756888 : ℝ) := Real.sqrt_sq (by norm_num)
  have hepos : (0:ℝ) < π * (5 / 3000000003) := by linarith
  have helo : (0.00000000523598775074 : ℝ) ≤ π * (5 / 3000000003) := by linarith
  have hehi : π * (5 / 3000000003) ≤ (0.00000000523598775075 : ℝ) := by linarith
  have hfpos : (0:ℝ) < π * (5 / 6000000006) := by linarith
  have hflo : (0.00000000261799387537 : ℝ) ≤ π * (5 / 6000000006) := by linarith
  have hfhi : π * (5 / 6000000006) ≤ (0.00000000261799387538 : ℝ) := by linarith
  have hSeu : Real.sin (π * (5 / 3000000003)) ≤ (0.00000000523598775075 : ℝ) :=
    le_trans (le_of_lt (Real.sin_lt hepos)) hehi
  have hSel : (0.00000000523598775073 : ℝ) ≤ Real.sin (π * (5 / 3000000003)) := by
    have hcube := Real.sin_gt_sub_cube hepos (by linarith : π * (5 / 3000000003) ≤ 1)
    have hc3 : (π * (5 / 3000000003)) ^ 3 ≤ (0.00000000523598775075 : ℝ) ^ 3 :=
      pow_le_pow_left₀ (le_of_lt hepos) hehi 3
    nlinarith [hcube, hc3]
  have hCeu : Real.cos (π * (5 / 3000000003)) ≤ 1 := Real.cos_le_one _
  have hCel : (0.9999999999999999862922161 : ℝ) ≤ Real.cos (π * (5 / 3000000003)) := by
    have h := Real.one_sub_sq_div_two_le_cos (x := π * (5 / 3000000003))
    have hsq : (π * (5 / 3000000003)) ^ 2 ≤ (0.00000000523598775075 : ℝ) ^ 2 :=
      pow_le_pow_left₀ (le_of_lt hepos) hehi 2
    nlinarith [h, hsq]
  have hSfu : Real.sin (π * (5 / 6000000006)) ≤ (0.00000000261799387538 : ℝ) :=
    le_trans (le_of_lt (Real.sin_lt hfpos)) hfhi
  have hSfl : (0.00000000261799387536 : ℝ) ≤ Real.sin (π * (5 / 6000000006)) := by
    have hcube := Real.sin_gt_sub_cube hfpos (by linarith : π * (5 / 6000000006) ≤ 1)
    have hc3 : (π * (5 / 6000000006)) ^ 3 ≤ (0.00000000261799387538 : ℝ) ^ 3 :=
      pow_le_pow_left₀ (le_of_lt hfpos) hfhi 3
    nlinarith [hcube, hc3]
  have hCfu : Real.cos (π * (5 / 6000000006)) ≤ 1 := Real.cos_le_one _
  have hCfl : (0.999999999999999996573054 : ℝ) ≤ Real.cos (π * (5 / 6000000006)) := by
    have h := Real.one_sub_sq_div_two_le_cos (x := π * (5 / 6000000006))
    have hsq : (π * (5 / 6000000006)) ^ 2 ≤ (0.00000000261799387538 : ℝ) ^ 2 :=
      pow_le_pow_left₀ (le_of_lt hfpos) hfhi 2
    nlinarith [h, hsq]
  have hhs3coseh := mul_bounds (Real.sqrt 3) (Real.cos (π * (5 / 3000000003)))
    1.73205080756887 1.73205080756888 (0.9999999999999999862922161) (1)
    hs3l hs3u hCel hCeu (by norm_num) (by norm_num)
  have hhs3cosel : (1.7320508075688 : ℝ) ≤ Real.sqrt 3 * Real.cos (π * (5 / 3000000003)) := le_trans (by norm_num) hhs3coseh.1
  have hhs3coseu : Real.sqrt 3 * Real.cos (π * (5 / 3000000003)) ≤ (1.7320508075689 : ℝ) := le_trans hhs3coseh.2 (by norm_num)
  have hhs3sineh := mul_bounds (Real.sqrt 3) (Real.sin (π * (5 / 3000000003)))
    1.73205080756887 1.73205080756888 (0.00000000523598775073) (0.00000000523598775075)
    hs3l hs3u hSel hSeu (by norm_num) (by norm_num)
  have hhs3sinel : (0.0000000090689968120726 : ℝ) ≤ Real.sqrt 3 * Real.sin (π * (5 / 3000000003)) := le_trans (by norm_num) hhs3sineh.1
  have hhs3sineu : Real.sqrt 3 * Real.sin (π * (5 / 3000000003)) ≤ (0.0000000090689968121074 : ℝ) := le_trans hhs3sineh.2 (by norm_num)
  have hhs3cosfh := mul_bounds (Real.sqrt 3) (Real.cos (π * (5 / 6000000006)))
    1.73205080756887 1.73205080756888 (0.999999999999999996573054) (1)
    hs3l hs3u hCfl hCfu (by norm_num) (by norm_num)
  have hhs3cosfl : (1.7320508075688 : ℝ) ≤ Real.sqrt 3 * Real.cos (π * (5 / 6000000006)) := le_trans (by norm_num) hhs3cosfh.1
  have hhs3cosfu : Real.sqrt 3 * Real.cos (π * (5 / 6000000006)) ≤ (1.7320508075689 : ℝ) := le_trans hhs3cosfh.2 (by norm_num)
  have hhs3sinfh := mul_bounds (Real.sqrt 3) (Real.sin (π * (5 / 6000000006)))
    1.73205080756887 1.73205080756888 (0.00000000261799387536) (0.00000000261799387538)
    hs3l hs3u hSfl hSfu (by norm_num) (by norm_num)
  have hhs3sinfl : (0.0000000045344984060276 : ℝ) ≤ Real.sqrt 3 * Real.sin (π * (5 / 6000000006)) := le_trans (by norm_num) hhs3sinfh.1
  have hhs3sinfu : Real.sqrt 3 * Real.sin (π * (5 / 6000000006)) ≤ (0.0000000045344984060624 : ℝ) := le_trans hhs3sinfh.2 (by norm_num)
  have hdsin : Real.sin (π / 0.6000000006) = -(Real.sqrt 3 / 2) * Real.cos (π * (5 / 3000000003)) - (1 / 2) * Real.sin (π * (5 / 3000000003)) := by
    rw [show (π / 0.6000000006 : ℝ) = 5 * π / 3 - π * (5 / 3000000003) by ring,
      Real.sin_sub, sin_five_pi_div_three, cos_five_pi_div_three]
    try ring
  have hdcos : Real.cos (π / 0.6000000006) = (1 / 2) * Real.cos (π * (5 / 3000000003)) - (Real.sqrt 3 / 2) * Real.sin (π * (5 / 3000000003)) := by
    rw [show (π / 0.6000000006 : ℝ) = 5 * π / 3 - π * (5 / 3000000003) by ring,
      Real.cos_sub, sin_five_pi_div_three, cos_five_pi_div_three]
    try ring
  have hdsin2 : Real.sin (0.5 * (π / 0.6000000006)) = (1 / 2) * Real.cos (π * (5 / 6000000006)) + (Real.sqrt 3 / 2) * Real.sin (π * (5 / 6000000006)) := by
    rw [show (0.5 * (π / 0.6000000006) : ℝ) = 5 * π / 6 - π * (5 / 6000000006) by ring,
      Real.sin_sub, sin_five_pi_div_six, cos_five_pi_div_six]
    try ring
  have hdcos2 : Real.cos (0.5 * (π / 0.6000000006)) = -(Real.sqrt 3 / 2) * Real.cos (π * (5 / 6000000006)) + (1 / 2) * Real.sin (π * (5 / 6000000006)) := by
    rw [show (0.5 * (π / 0.6000000006) : ℝ) = 5 * π / 6 - π * (5 / 6000000006) by ring,
      Real.cos_sub, sin_five_pi_div_six, cos_five_pi_div_six]
    try ring
  have hAsinl : (-0.8660254064025 : ℝ) ≤ Real.sin (π / 0.6000000006) := by
    rw [hdsin]
    linarith [hhs3cosel, hhs3coseu, hhs3sinel, hhs3sineu, hhs3cosfl, hhs3cosfu, hhs3sinfl, hhs3sinfu, hSel, hSeu, hCel, hCeu, hSfl, hSfu, hCfl, hCfu]
  have hAsinu : Real.sin (π / 0.6000000006) ≤ (-0.8660254064023 : ℝ) := by
    rw [hdsin]
    linarith [hhs3cosel, hhs3coseu, hhs3sinel, hhs3sineu, hhs3cosfl, hhs3cosfu, hhs3sinfl, hhs3sinfu, hSel, hSeu, hCel, hCeu, hSfl, hSfu, hCfl, hCfu]
  have hAcosl : (0.4999999954655 : ℝ) ≤ Real.cos (π / 0.6000000006) := by
    rw [hdcos]
    linarith [hhs3cosel, hhs3coseu, hhs3sinel, hhs3sineu, hhs3cosfl, hhs3cosfu, hhs3sinfl, hhs3sinfu, hSel, hSeu, hCel, hCeu, hSfl, hSfu, hCfl, hCfu]
  have hAcosu : Real.cos (π / 0.6000000006) ≤ (0.4999999954656 : ℝ) := by
    rw [hdcos]
    linarith [hhs3cosel, hhs3coseu, hhs3sinel, hhs3sineu, hhs3cosfl, hhs3cosfu, hhs3sinfl, hhs3sinfu, hSel, hSeu, hCel, hCeu, hSfl, hSfu, hCfl, hCfu]
  have hAsin2l : (0.5000000022672 : ℝ) ≤ Real.sin (0.5 * (π / 0.6000000006)) := by
    rw [hdsin2]
    linarith [hhs3cosel, hhs3coseu, hhs3sinel, hhs3sineu, hhs3cosfl, hhs3cosfu, hhs3sinfl, hhs3sinfu, hSel, hSeu, hCel, hCeu, hSfl, hSfu, hCfl, hCfu]
  have hAsin2u : Real.sin (0.5 * (π / 0.6000000006)) ≤ (0.5000000022673 : ℝ) := by
    rw [hdsin2]
    linarith [hhs3cosel, hhs3coseu, hhs3sinel, hhs3sineu, hhs3cosfl, hhs3cosfu, hhs3sinfl, hhs3sinfu, hSel, hSeu, hCel, hCeu, hSfl, hSfu, hCfl, hCfu]
  have hAcos2l : (-0.8660254024755 : ℝ) ≤ Real.cos (0.5 * (π / 0.6000000006)) := by
    rw [hdcos2]
    linarith [hhs3cosel, hhs3coseu, hhs3sinel, hhs3sineu, hhs3cosfl, hhs3cosfu, hhs3sinfl, hhs3sinfu, hSel, hSeu, hCel, hCeu, hSfl, hSfu, hCfl, hCfu]
  have hAcos2u : Real.cos (0.5 * (π / 0.6000000006)) ≤ (-0.8660254024754 : ℝ) := by
    rw [hdcos2]
    linarith [hhs3cosel, hhs3coseu, hhs3sinel, hhs3sineu, hhs3cosfl, hhs3cosfu, hhs3sinfl, hhs3sinfu, hSel, hSeu, hCel, hCeu, hSfl, hSfu, hCfl, hCfu]
  have hul : (5.235987750747 : ℝ) ≤ π / 0.6000000006 := by
    rw [le_div_iff₀ (by norm_num : (0:ℝ) < 0.6000000006)]
    linarith
  have huu : π / 0.6000000006 ≤ (5.2359877507471 : ℝ) := by
    rw [div_le_iff₀ (by norm_num : (0:ℝ) < 0.6000000006)]
    linarith
  have hq1h := mul_bounds (-Real.sin (π / 0.6000000006)) (-Real.cos (0.5 * (π / 0.6000000006)))
    0.8660254064023 0.8660254064025 0.8660254024754 0.8660254024755
    (by linarith) (by linarith) (by linarith) (by linarith) (by norm_num) (by norm_num)
  have hq1l : (0.7500000011334 : ℝ) ≤ -Real.sin (π / 0.6000000006) * (-Real.cos (0.5 * (π / 0.6000000006))) := le_trans (by norm_num) hq1h.1
  have hq1u : -Real.sin (π / 0.6000000006) * (-Real.cos (0.5 * (π / 0.6000000006))) ≤ (0.7500000011338 : ℝ) := le_trans hq1h.2 (by norm_num)
  have hT1h := mul_bounds (π / 0.6000000006) (-Real.sin (π / 0.6000000006) * (-Real.cos (0.5 * (π / 0.6000000006))))
    5.235987750747 5.2359877507471 0.7500000011334 0.7500000011338
    hul huu hq1l hq1u (by norm_num) (by norm_num)
  have hT1l : (3.926990818994 : ℝ) ≤ π / 0.6000000006 * (-Real.sin (π / 0.6000000006) * (-Real.cos (0.5 * (π / 0.6000000006)))) := le_trans (by norm_num) hT1h.1
  have hT1u : π / 0.6000000006 * (-Real.sin (π / 0.6000000006) * (-Real.cos (0.5 * (π / 0.6000000006)))) ≤ (3.926990818997 : ℝ) := le_trans hT1h.2 (by norm_num)
  have hu2h := mul_bounds (π / 0.6000000006) (π / 0.6000000006)
    5.235987750747 5.2359877507471 5.235987750747 5.2359877507471
    hul huu hul huu (by norm_num) (by norm_num)
  have hu2l : (27.41556772597 : ℝ) ≤ π / 0.6000000006 * (π / 0.6000000006) := le_trans (by norm_num) hu2h.1
  have hu2u : π / 0.6000000006 * (π / 0.6000000006) ≤ (27.41556772598 : ℝ) := le_trans hu2h.2 (by norm_num)
  have hr2h := mul_bounds (Real.cos (π / 0.6000000006)) (-Real.cos (0.5 * (π / 0.6000000006)))
    0.4999999954655 0.4999999954656 0.8660254024754 0.8660254024755
    (by linarith) (by linarith) (by linarith) (by linarith) (by norm_num) (by norm_num)
  have hr2l : (0.4330126973107 : ℝ) ≤ Real.cos (π / 0.6000000006) * (-Real.cos (0.5 * (π / 0.6000000006))) := le_trans (by norm_num) hr2h.1
  have hr2u : Real.cos (π / 0.6000000006) * (-Real.cos (0.5 * (π / 0.6000000006))) ≤ (0.4330126973109 : ℝ) := le_trans hr2h.2 (by norm_num)
  have hT2h := mul_bounds (π / 0.6000000006 * (π / 0.6000000006)) (Real.cos (π / 0.6000000006) * (-Real.cos (0.5 * (π / 0.6000000006))))
    27.41556772597 27.41556772598 0.4330126973107 0.4330126973109
    hu2l hu2u hr2l hr2u (by norm_num) (by norm_num)
  have hT2l : (11.87128892932 : ℝ) ≤ π / 0.6000000006 * (π / 0.6000000006) * (Real.cos (π / 0.6000000006) * (-Real.cos (0.5 * (π / 0.6000000006)))) := le_trans (by norm_num) hT2h.1
  have hT2u : π / 0.6000000006 * (π / 0.6000000006) * (Real.cos (π / 0.6000000006) * (-Real.cos (0.5 * (π / 0.6000000006)))) ≤ (11.87128892934 : ℝ) := le_trans hT2h.2 (by norm_num)
  have hT3h := mul_bounds (Real.sin (0.5 * (π / 0.6000000006))) (-Real.sin (π / 0.6000000006))
    0.5000000022672 0.5000000022673 0.8660254064023 0.8660254064025
    hAsin2l hAsin2u (by linarith) (by linarith) (by norm_num) (by norm_num)
  have hT3l : (0.4330127051646 : ℝ) ≤ Real.sin (0.5 * (π / 0.6000000006)) * (-Real.sin (π / 0.6000000006)) := le_trans (by norm_num) hT3h.1
  have hT3u : Real.sin (0.5 * (π / 0.6000000006)) * (-Real.sin (π / 0.6000000006)) ≤ (0.4330127051648 : ℝ) := le_trans hT3h.2 (by norm_num)
  have hsin_ne : Real.sin (π / 0.6000000006) ≠ 0 := ne_of_lt (lt_of_le_of_lt hAsinu (by norm_num))
  have hcos2_ne : Real.cos (0.5 * (π / 0.6000000006)) ≠ 0 := ne_of_lt (lt_of_le_of_lt hAcos2u (by norm_num))
  have hu_ne : (π / 0.6000000006 : ℝ) ≠ 0 := by positivity
  have hMeq : sidesway_inhibited_one_zero 0.6000000006 0.6067769722307135 * (π / 0.6000000006 * Real.sin (π / 0.6000000006) * Real.cos (0.5 * (π / 0.6000000006))) = (0.5 * 0.6067769722307135 - 1) * (π / 0.6000000006 * Real.sin (π / 0.6000000006) * Real.cos (0.5 * (π / 0.6000000006))) - 0.5 * 0.6067769722307135 * ((π / 0.6000000006) ^ 2 * (Real.cos (π / 0.6000000006) * Real.cos (0.5 * (π / 0.6000000006)))) + 2 * (Real.sin (0.5 * (π / 0.6000000006)) * Real.sin (π / 0.6000000006)) := by
    rw [sidesway_inhibited_one_zero_eq, xcot, Real.tan_eq_sin_div_cos]
    exact inhibited_one_zero_mul_identity 0.6067769722307135 (π / 0.6000000006) (Real.sin (π / 0.6000000006)) (Real.cos (π / 0.6000000006))
      (Real.sin (0.5 * (π / 0.6000000006))) (Real.cos (0.5 * (π / 0.6000000006))) hsin_ne hcos2_ne hu_ne
  have hN : (0.5 * 0.6067769722307135 - 1) * (π / 0.6000000006 * Real.sin (π / 0.6000000006) * Real.cos (0.5 * (π / 0.6000000006))) - 0.5 * 0.6067769722307135 * ((π / 0.6000000006) ^ 2 * (Real.cos (π / 0.6000000006) * Real.cos (0.5 * (π / 0.6000000006)))) + 2 * (Real.sin (0.5 * (π / 0.6000000006)) * Real.sin (π / 0.6000000006)) ≤ (-0.0000000532492 : ℝ) := by
    linarith [hT1l, hT1u, hT2l, hT2u, hT3l, hT3u]
  have hMpos : (0:ℝ) < π / 0.6000000006 * Real.sin (π / 0.6000000006) * Real.cos (0.5 * (π / 0.6000000006)) := by linarith [hT1l]
  by_contra hcon
  push_neg at hcon
  have hle := mul_le_mul_of_nonneg_right hcon hMpos.le
  rw [zero_mul, hMeq] at hle
  linarith [hN]

set_option maxHeartbeats 8000000 in
theorem c6aux_case3_hm :
    0 < sidesway_inhibited_fcn 0.7999999992 10.0 0.45469570131810483 := by
  have hpil := Real.pi_gt_d20
  have hpiu := Real.pi_lt_d20
  have hs2l : (1.41421356237309 : ℝ) ≤ Real.sqrt 2 := by
    calc (1.41421356237309 : ℝ) = Real.sqrt ((1.41421356237309:ℝ) ^ 2) := (Real.sqrt_sq (by norm_num)).symm
    _ ≤ Real.sqrt 2 := Real.sqrt_le_sqrt (by norm_num)
  have hs2u : Real.sqrt 2 ≤ (1.4142135623731 : ℝ) := by
    calc Real.sqrt 2 ≤ Real.sqrt ((1.4142135623731:ℝ) ^ 2) := Real.sqrt_le_sqrt (by norm_num)
    _ = (1.4142135623731 : ℝ) := Real.sqrt_sq (by norm_num)
  have hc8l : (1.84775906502257 : ℝ) ≤ Real.sqrt (2 + Real.sqrt 2) := by
    calc (1.84775906502257 : ℝ) = Real.sqrt ((1.84775906502257:ℝ) ^ 2) := (Real.sqrt_sq (by norm_num)).symm
    _ ≤ Real.sqrt (2 + Real.sqrt 2) := Real.sqrt_le_sqrt (by nlinarith [hs2l, hs2u])
  have hc8u : Real.sqrt (2 + Real.sqrt 2) ≤ (1.84775906502258 : ℝ) := by
    calc Real.sqrt (2 + Real.sqrt 2) ≤ Real.sqrt ((1.84775906502258:ℝ) ^ 2) := Real.sqrt_le_sqrt (by nlinarith [hs2l, hs2u])
    _ = (1.84775906502258 : ℝ) := Real.sqrt_sq (by norm_num)
  have hs8l : (0.765366864730176 : ℝ) ≤ Real.sqrt (2 - Real.sqrt 2) := by
    calc (0.765366864730176 : ℝ) = Real.sqrt ((0.765366864730176:ℝ) ^ 2) := (Real.sqrt_sq (by norm_num)).symm
    _ ≤ Real.sqrt (2 - Real.sqrt 2) := Real.sqrt_le_sqrt (by nlinarith [hs2l, hs2u])
  have hs8u : Real.sqrt (2 - Real.sqrt 2) ≤ (0.765366864730183 : ℝ) := by
    calc Real.sqrt (2 - Real.sqrt 2) ≤ Real.sqrt ((0.765366864730183:ℝ) ^ 2) := Real.sqrt_le_sqrt (by nlinarith [hs2l, hs2u])
    _ = (0.765366864730183 : ℝ) := Real.sqrt_sq (by norm_num)
  have hepos : (0:ℝ) < π * (5 / 3999999996) := by linarith
  have helo : (0.00000000392699082091 : ℝ) ≤ π * (5 / 3999999996) := by linarith
  have hehi : π * (5 / 3999999996) ≤ (0.00000000392699082092 : ℝ) := by linarith
  have hfpos : (0:ℝ) < π * (5 / 7999999992) := by linarith
  have hflo : (0.00000000196349541045 : ℝ) ≤ π * (5 / 7999999992) := by linarith
  have hfhi : π * (5 / 7999999992) ≤ (0.00000000196349541046 : ℝ) := by linarith
  have hSeu : Real.sin (π * (5 / 3999999996)) ≤ (0.00000000392699082092 : ℝ) :=
    le_trans (le_of_lt (Real.sin_lt hepos)) hehi
  have hSel : (0.0000000039269908209 : ℝ) ≤ Real.sin (π * (5 / 3999999996)) := by
    have hcube := Real.sin_gt_sub_cube hepos (by linarith : π * (5 / 3999999996) ≤ 1)
    have hc3 : (π * (5 / 3999999996)) ^ 3 ≤ (0.00000000392699082092 : ℝ) ^ 3 :=
      pow_le_pow_left₀ (le_of_lt hepos) hehi 3
    nlinarith [hcube, hc3]
  have hCeu : Real.cos (π * (5 / 3999999996)) ≤ 1 := Real.cos_le_one _
  have hCel : (0.9999999999999999922893715 : ℝ) ≤ Real.cos (π * (5 / 3999999996)) := by
    have h := Real.one_sub_sq_div_two_le_cos (x := π * (5 / 3999999996))
    have hsq : (π * (5 / 3999999996)) ^ 2 ≤ (0.00000000392699082092 : ℝ) ^ 2 :=
      pow_le_pow_left₀ (le_of_lt hepos) hehi 2
    nlinarith [h, hsq]
  have hSfu : Real.sin (π * (5 / 7999999992)) ≤ (0.00000000196349541046 : ℝ) :=
    le_trans (le_of_lt (Real.sin_lt hfpos)) hfhi
  have hSfl : (0.00000000196349541044 : ℝ) ≤ Real.sin (π * (5 / 7999999992)) := by
    have hcube := Real.sin_gt_sub_cube hfpos (by linarith : π * (5 / 7999999992) ≤ 1)
    have hc3 : (π * (5 / 7999999992)) ^ 3 ≤ (0.00000000196349541046 : ℝ) ^ 3 :=
      pow_le_pow_left₀ (le_of_lt hfpos) hfhi 3
    nlinarith [hcube, hc3]
  have hCfu : Real.cos (π * (5 / 7999999992)) ≤ 1 := Real.cos_le_one _
  have hCfl : (0.9999999999999999980723428 : ℝ) ≤ Real.cos (π * (5 / 7999999992)) := by
    have h := Real.one_sub_sq_div_two_le_cos (x := π * (5 / 7999999992))
    have hsq : (π * (5 / 7999999992)) ^ 2 ≤ (0.00000000196349541046 : ℝ) ^ 2 :=
      pow_le_pow_left₀ (le_of_lt hfpos) hfhi 2
    nlinarith [h, hsq]
  have hhs2coseh := mul_bounds (Real.sqrt 2) (Real.cos (π * (5 / 3999999996)))
    1.41421356237309 1.4142135623731 (0.9999999999999999922893715) (1)
    hs2l hs2u hCel hCeu (by norm_num) (by norm_num)
  have hhs2cosel : (1.414213562373 : ℝ) ≤ Real.sqrt 2 * Real.cos (π * (5 / 3999999996)) := le_trans (by norm_num) hhs2coseh.1
  have hhs2coseu : Real.sqrt 2 * Real.cos (π * (5 / 3999999996)) ≤ (1.4142135623731 : ℝ) := le_trans hhs2coseh.2 (by norm_num)
  have hhs2sineh := mul_bounds (Real.sqrt 2) (Real.sin (π * (5 / 3999999996)))
    1.41421356237309 1.4142135623731 (0.0000000039269908209) (0.00000000392699082092)
    hs2l hs2u hSel hSeu (by norm_num) (by norm_num)
  have hhs2sinel : (0.0000000055536036782314 : ℝ) ≤ Real.sqrt 2 * Real.sin (π * (5 / 3999999996)) := le_trans (by norm_num) hhs2sineh.1
  have hhs2sineu : Real.sqrt 2 * Real.sin (π * (5 / 3999999996)) ≤ (0.0000000055536036782598 : ℝ) := le_trans hhs2sineh.2 (by norm_num)
  have hhs2cosfh := mul_bounds (Real.sqrt 2) (Real.cos (π * (5 / 7999999992)))
    1.41421356237309 1.4142135623731 (0.9999999999999999980723428) (1)
    hs2l hs2u hCfl hCfu (by norm_num) (by norm_num)
  have hhs2cosfl : (1.414213562373 : ℝ) ≤ Real.sqrt 2 * Real.cos (π * (5 / 7999999992)) := le_trans (by norm_num) hhs2cosfh.1
  have hhs2cosfu : Real.sqrt 2 * Real.cos (π * (5 / 7999999992)) ≤ (1.4142135623731 : ℝ) := le_trans hhs2cosfh.2 (by norm_num)
  have hhs2sinfh := mul_bounds (Real.sqrt 2) (Real.sin (π * (5 / 7999999992)))
    1.41421356237309 1.4142135623731 (0.00000000196349541044) (0.00000000196349541046)
    hs2l hs2u hSfl hSfu (by norm_num) (by norm_num)
  have hhs2sinfl : (0.0000000027768018391015 : ℝ) ≤ Real.sqrt 2 * Real.sin (π * (5 / 7999999992)) := le_trans (by norm_num) hhs2sinfh.1
  have hhs2sinfu : Real.sqrt 2 * Real.sin (π * (5 / 7999999992)) ≤ (0.0000000027768018391299 : ℝ) := le_trans hhs2sinfh.2 (by norm_num)
  have hhc8coseh := mul_bounds (Real.sqrt (2 + Real.sqrt 2)) (Real.cos (π * (5 / 3999999996)))
    1.84775906502257 1.84775906502258 (0.9999999999999999922893715) (1)
    hc8l hc8u hCel hCeu (by norm_num) (by norm_num)
  have hhc8cosel : (1.8477590650225 : ℝ) ≤ Real.sqrt (2 + Real.sqrt 2) * Real.cos (π * (5 / 3999999996)) := le_trans (by norm_num) hhc8coseh.1
  have hhc8coseu : Real.sqrt (2 + Real.sqrt 2) * Real.cos (π * (5 / 3999999996)) ≤ (1.8477590650226 : ℝ) := le_trans hhc8coseh.2 (by norm_num)
  have hhc8sineh := mul_bounds (Real.sqrt (2 + Real.sqrt 2)) (Real.sin (π * (5 / 3999999996)))
    1.84775906502257 1.84775906502258 (0.0000000039269908209) (0.00000000392699082092)
    hc8l hc8u hSel hSeu (by norm_num) (by norm_num)
  have hhc8sinel : (0.0000000072561328875783 : ℝ) ≤ Real.sqrt (2 + Real.sqrt 2) * Real.sin (π * (5 / 3999999996)) := le_trans (by norm_num) hhc8sineh.1
  have hhc8sineu : Real.sqrt (2 + Real.sqrt 2) * Real.sin (π * (5 / 3999999996)) ≤ (0.0000000072561328876154 : ℝ) := le_trans hhc8sineh.2 (by norm_num)
  have hhc8cosfh := mul_bounds (Real.sqrt (2 + Real.sqrt 2)) (Real.cos (π * (5 / 7999999992)))
    1.84775906502257 1.84775906502258 (0.9999999999999999980723428) (1)
    hc8l hc8u hCfl hCfu (by norm_num) (by norm_num)
  have hhc8cosfl : (1.8477590650225 : ℝ) ≤ Real.sqrt (2 + Real.sqrt 2) * Real.cos (π * (5 / 7999999992)) := le_trans (by norm_num) hhc8cosfh.1
  have hhc8cosfu : Real.sqrt (2 + Real.sqrt 2) * Real.cos (π * (5 / 7999999992)) ≤ (1.8477590650226 : ℝ) := le_trans hhc8cosfh.2 (by norm_num)
  have hhc8sinfh := mul_bounds (Real.sqrt (2 + Real.sqrt 2)) (Real.sin (π * (5 / 7999999992)))
    1.84775906502257 1.84775906502258 (0.00000000196349541044) (0.00000000196349541046)
    hc8l hc8u hSfl hSfu (by norm_num) (by norm_num)
  have hhc8sinfl : (0.0000000036280664437707 : ℝ) ≤ Real.sqrt (2 + Real.sqrt 2) * Real.sin (π * (5 / 7999999992)) := le_trans (by norm_num) hhc8sinfh.1
  have hhc8sinfu : Real.sqrt (2 + Real.sqrt 2) * Real.sin (π * (5 / 7999999992)) ≤ (0.0000000036280664438077 : ℝ) := le_trans hhc8sinfh.2 (by norm_num)
  have hhs8coseh := mul_bounds (Real.sqrt (2 - Real.sqrt 2)) (Real.cos (π * (5 / 3999999996)))
    0.765366864730176 0.765366864730183 (0.9999999999999999922893715) (1)
    hs8l hs8u hCel hCeu (by norm_num) (by norm_num)
  have hhs8cosel : (0.76536686473017 : ℝ) ≤ Real.sqrt (2 - Real.sqrt 2) * Real.cos (π * (5 / 3999999996)) := le_trans (by norm_num) hhs8coseh.1
  have hhs8coseu : Real.sqrt (2 - Real.sqrt 2) * Real.cos (π * (5 / 3999999996)) ≤ (0.76536686473019 : ℝ) := le_trans hhs8coseh.2 (by norm_num)
  have hhs8sineh := mul_bounds (Real.sqrt (2 - Real.sqrt 2)) (Real.sin (π * (5 / 3999999996)))
    0.765366864730176 0.765366864730183 (0.0000000039269908209) (0.00000000392699082092)
    hs8l hs8u hSel hSeu (by norm_num) (by norm_num)
  have hhs8sinel : (0.0000000030055886524164 : ℝ) ≤ Real.sqrt (2 - Real.sqrt 2) * Real.sin (π * (5 / 3999999996)) := le_trans (by norm_num) hhs8sineh.1
  have hhs8sineu : Real.sqrt (2 - Real.sqrt 2) * Real.sin (π * (5 / 3999999996)) ≤ (0.0000000030055886524318 : ℝ) := le_trans hhs8sineh.2 (by norm_num)
  have hhs8cosfh := mul_bounds (Real.sqrt (2 - Real.sqrt 2)) (Real.cos (π * (5 / 7999999992)))
    0.765366864730176 0.765366864730183 (0.9999999999999999980723428) (1)
    hs8l hs8u hCfl hCfu (by norm_num) (by norm_num)
  have hhs8cosfl : (0.76536686473017 : ℝ) ≤ Real.sqrt (2 - Real.sqrt 2) * Real.cos (π * (5 / 7999999992)) := le_trans (by norm_num) hhs8cosfh.1
  have hhs8cosfu : Real.sqrt (2 - Real.sqrt 2) * Real.cos (π * (5 / 7999999992)) ≤ (0.76536686473019 : ℝ) := le_trans hhs8cosfh.2 (by norm_num)
  have hhs8sinfh := mul_bounds (Real.sqrt (2 - Real.sqrt 2)) (Real.sin (π * (5 / 7999999992)))
    0.765366864730176 0.765366864730183 (0.00000000196349541044) (0.00000000196349541046)
    hs8l hs8u hSfl hSfu (by norm_num) (by norm_num)
  have hhs8sinfl : (0.0000000015027943262005 : ℝ) ≤ Real.sqrt (2 - Real.sqrt 2) * Real.sin (π * (5 / 7999999992)) := le_trans (by norm_num) hhs8sinfh.1
  have hhs8sinfu : Real.sqrt (2 - Real.sqrt 2) * Real.sin (π * (5 / 7999999992)) ≤ (0.0000000015027943262159 : ℝ) := le_trans hhs8sinfh.2 (by norm_num)
  have hdsin : Real.sin (π / 0.7999999992) = -(Real.sqrt 2 / 2) * Real.cos (π * (5 / 3999999996)) - (Real.sqrt 2 / 2) * Real.sin (π * (5 / 3999999996)) := by
    rw [show (π / 0.7999999992 : ℝ) = 5 * π / 4 + π * (5 / 3999999996) by ring,
      Real.sin_add, sin_five_pi_div_four, cos_five_pi_div_four]
    try ring
  have hdcos : Real.cos (π / 0.7999999992) = -(Real.sqrt 2 / 2) * Real.cos (π * (5 / 3999999996)) + (Real.sqrt 2 / 2) * Real.sin (π * (5 / 3999999996)) := by
    rw [show (π / 0.7999999992 : ℝ) = 5 * π / 4 + π * (5 / 3999999996) by ring,
      Real.cos_add, sin_five_pi_div_four, cos_five_pi_div_four]
    try ring
  have hdsin2 : Real.sin (0.5 * (π / 0.7999999992)) = (Real.sqrt (2 + Real.sqrt 2) / 2) * Real.cos (π * (5 / 7999999992)) - (Real.sqrt (2 - Real.sqrt 2) / 2) * Real.sin (π * (5 / 7999999992)) := by
    rw [show (0.5 * (π / 0.7999999992) : ℝ) = 5 * π / 8 + π * (5 / 7999999992) by ring,
      Real.sin_add, sin_five_pi_div_eight, cos_five_pi_div_eight]
    try ring
  have hdcos2 : Real.cos (0.5 * (π / 0.7999999992)) = -(Real.sqrt (2 - Real.sqrt 2) / 2) * Real.cos (π * (5 / 7999999992)) - (Real.sqrt (2 + Real.sqrt 2) / 2) * Real.sin (π * (5 / 7999999992)) := by
    rw [show (0.5 * (π / 0.7999999992) : ℝ) = 5 * π / 8 + π * (5 / 7999999992) by ring,
      Real.cos_add, sin_five_pi_div_eight, cos_five_pi_div_eight]
    try ring
  have hAsinl : (-0.7071067839634 : ℝ) ≤ Real.sin (π / 0.7999999992) := by
    rw [hdsin]
    linarith [hhs2cosel, hhs2coseu, hhs2sinel, hhs2sineu, hhs2cosfl, hhs2cosfu, hhs2sinfl, hhs2sinfu, hhc8cosel, hhc8coseu, hhc8sinel, hhc8sineu, hhc8cosfl, hhc8cosfu, hhc8sinfl, hhc8sinfu, hhs8cosel, hhs8coseu, hhs8sinel, hhs8sineu, hhs8cosfl, hhs8cosfu, hhs8sinfl, hhs8sinfu, hSel, hSeu, hCel, hCeu, hSfl, hSfu, hCfl, hCfu]
  have hAsinu : Real.sin (π / 0.7999999992) ≤ (-0.7071067839633 : ℝ) := by
    rw [hdsin]
    linarith [hhs2cosel, hhs2coseu, hhs2sinel, hhs2sineu, hhs2cosfl, hhs2cosfu, hhs2sinfl, hhs2sinfu, hhc8cosel, hhc8coseu, hhc8sinel, hhc8sineu, hhc8cosfl, hhc8cosfu, hhc8sinfl, hhc8sinfu, hhs8cosel, hhs8coseu, hhs8sinel, hhs8sineu, hhs8cosfl, hhs8cosfu, hhs8sinfl, hhs8sinfu, hSel, hSeu, hCel, hCeu, hSfl, hSfu, hCfl, hCfu]
  have hAcosl : (-0.7071067784098 : ℝ) ≤ Real.cos (π / 0.7999999992) := by
    rw [hdcos]
    linarith [hhs2cosel, hhs2coseu, hhs2sinel, hhs2sineu, hhs2cosfl, hhs2cosfu, hhs2sinfl, hhs2sinfu, hhc8cosel, hhc8coseu, hhc8sinel, hhc8sineu, hhc8cosfl, hhc8cosfu, hhc8sinfl, hhc8sinfu, hhs8cosel, hhs8coseu, hhs8sinel, hhs8sineu, hhs8cosfl, hhs8cosfu, hhs8sinfl, hhs8sinfu, hSel, hSeu, hCel, hCeu, hSfl, hSfu, hCfl, hCfu]
  have hAcosu : Real.cos (π / 0.7999999992) ≤ (-0.7071067784096 : ℝ) := by
    rw [hdcos]
    linarith [hhs2cosel, hhs2coseu, hhs2sinel, hhs2sineu, hhs2cosfl, hhs2cosfu, hhs2sinfl, hhs2sinfu, hhc8cosel, hhc8coseu, hhc8sinel, hhc8sineu, hhc8cosfl, hhc8cosfu, hhc8sinfl, hhc8sinfu, hhs8cosel, hhs8coseu, hhs8sinel, hhs8sineu, hhs8cosfl, hhs8cosfu, hhs8sinfl, hhs8sinfu, hSel, hSeu, hCel, hCeu, hSfl, hSfu, hCfl, hCfu]
  have hAsin2l : (0.9238795317598 : ℝ) ≤ Real.sin (0.5 * (π / 0.7999999992)) := by
    rw [hdsin2]
    linarith [hhs2cosel, hhs2coseu, hhs2sinel, hhs2sineu, hhs2cosfl, hhs2cosfu, hhs2sinfl, hhs2sinfu, hhc8cosel, hhc8coseu, hhc8sinel, hhc8sineu, hhc8cosfl, hhc8cosfu, hhc8sinfl, hhc8sinfu, hhs8cosel, hhs8coseu, hhs8sinel, hhs8sineu, hhs8cosfl, hhs8cosfu, hhs8sinfl, hhs8sinfu, hSel, hSeu, hCel, hCeu, hSfl, hSfu, hCfl, hCfu]
  have hAsin2u : Real.sin (0.5 * (π / 0.7999999992)) ≤ (0.92387953176 : ℝ) := by
    rw [hdsin2]
    linarith [hhs2cosel, hhs2coseu, hhs2sinel, hhs2sineu, hhs2cosfl, hhs2cosfu, hhs2sinfl, hhs2sinfu, hhc8cosel, hhc8coseu, hhc8sinel, hhc8sineu, hhc8cosfl, hhc8cosfu, hhc8sinfl, hhc8sinfu, hhs8cosel, hhs8coseu, hhs8sinel, hhs8sineu, hhs8cosfl, hhs8cosfu, hhs8sinfl, hhs8sinfu, hSel, hSeu, hCel, hCeu, hSfl, hSfu, hCfl, hCfu]
  have hAcos2l : (-0.3826834341792 : ℝ) ≤ Real.cos (0.5 * (π / 0.7999999992)) := by
    rw [hdcos2]
    linarith [hhs2cosel, hhs2coseu, hhs2sinel, hhs2sineu, hhs2cosfl, hhs2cosfu, hhs2sinfl, hhs2sinfu, hhc8cosel, hhc8coseu, hhc8sinel, hhc8sineu, hhc8cosfl, hhc8cosfu, hhc8sinfl, hhc8sinfu, hhs8cosel, hhs8coseu, hhs8sinel, hhs8sineu, hhs8cosfl, hhs8cosfu, hhs8sinfl, hhs8sinfu, hSel, hSeu, hCel, hCeu, hSfl, hSfu, hCfl, hCfu]
  have hAcos2u : Real.cos (0.5 * (π / 0.7999999992)) ≤ (-0.3826834341791 : ℝ) := by
    rw [hdcos2]
    linarith [hhs2cosel, hhs2coseu, hhs2sinel, hhs2sineu, hhs2cosfl, hhs2cosfu, hhs2sinfl, hhs2sinfu, hhc8cosel, hhc8coseu, hhc8sinel, hhc8sineu, hhc8cosfl, hhc8cosfu, hhc8sinfl, hhc8sinfu, hhs8cosel, hhs8coseu, hhs8sinel, hhs8sineu, hhs8cosfl, hhs8cosfu, hhs8sinfl, hhs8sinfu, hSel, hSeu, hCel, hCeu, hSfl, hSfu, hCfl, hCfu]
  have hul : (3.9269908209142 : ℝ) ≤ π / 0.7999999992 := by
    rw [le_div_iff₀ (by norm_num : (0:ℝ) < 0.7999999992)]
    linarith
  have huu : π / 0.7999999992 ≤ (3.9269908209143 : ℝ) := by
    rw [div_le_iff₀ (by norm_num : (0:ℝ) < 0.7999999992)]
    linarith
  have hq1h := mul_bounds (-Real.sin (π / 0.7999999992)) (-Real.cos (0.5 * (π / 0.7999999992)))
    0.7071067839633 0.7071067839634 0.3826834341791 0.3826834341792
    (by linarith) (by linarith) (by linarith) (by linarith) (by norm_num) (by norm_num)
  have hq1l : (0.2705980524184 : ℝ) ≤ -Real.sin (π / 0.7999999992) * (-Real.cos (0.5 * (π / 0.7999999992))) := le_trans (by norm_num) hq1h.1
  have hq1u : -Real.sin (π / 0.7999999992) * (-Real.cos (0.5 * (π / 0.7999999992))) ≤ (0.2705980524186 : ℝ) := le_trans hq1h.2 (by norm_num)
  have hT1h := mul_bounds (π / 0.7999999992) (-Real.sin (π / 0.7999999992) * (-Real.cos (0.5 * (π / 0.7999999992))))
    3.9269908209142 3.9269908209143 0.2705980524184 0.2705980524186
    hul huu hq1l hq1u (by norm_num) (by norm_num)
  have hT1l : (1.062636068004 : ℝ) ≤ π / 0.7999999992 * (-Real.sin (π / 0.7999999992) * (-Real.cos (0.5 * (π / 0.7999999992)))) := le_trans (by norm_num) hT1h.1
  have hT1u : π / 0.7999999992 * (-Real.sin (π / 0.7999999992) * (-Real.cos (0.5 * (π / 0.7999999992)))) ≤ (1.062636068006 : ℝ) := le_trans hT1h.2 (by norm_num)
  have hu2h := mul_bounds (π / 0.7999999992) (π / 0.7999999992)
    3.9269908209142 3.9269908209143 3.9269908209142 3.9269908209143
    hul huu hul huu (by norm_num) (by norm_num)
  have hu2l : (15.42125690754 : ℝ) ≤ π / 0.7999999992 * (π / 0.7999999992) := le_trans (by norm_num) hu2h.1
  have hu2u : π / 0.7999999992 * (π / 0.7999999992) ≤ (15.42125690755 : ℝ) := le_trans hu2h.2 (by norm_num)
  have hr2h := mul_bounds (-Real.cos (π / 0.7999999992)) (-Real.cos (0.5 * (π / 0.7999999992)))
    0.7071067784096 0.7071067784098 0.3826834341791 0.3826834341792
    (by linarith) (by linarith) (by linarith) (by linarith) (by norm_num) (by norm_num)
  have hr2l : (0.2705980502931 : ℝ) ≤ -Real.cos (π / 0.7999999992) * (-Real.cos (0.5 * (π / 0.7999999992))) := le_trans (by norm_num) hr2h.1
  have hr2u : -Real.cos (π / 0.7999999992) * (-Real.cos (0.5 * (π / 0.7999999992))) ≤ (0.2705980502933 : ℝ) := le_trans hr2h.2 (by norm_num)
  have hT2h := mul_bounds (π / 0.7999999992 * (π / 0.7999999992)) (-Real.cos (π / 0.7999999992) * (-Real.cos (0.5 * (π / 0.7999999992))))
    15.42125690754 15.42125690755 0.2705980502931 0.2705980502933
    hu2l hu2u hr2l hr2u (by norm_num) (by norm_num)
  have hT2l : (4.172962052249 : ℝ) ≤ π / 0.7999999992 * (π / 0.7999999992) * (-Real.cos (π / 0.7999999992) * (-Real.cos (0.5 * (π / 0.7999999992)))) := le_trans (by norm_num) hT2h.1
  have hT2u : π / 0.7999999992 * (π / 0.7999999992) * (-Real.cos (π / 0.7999999992) * (-Real.cos (0.5 * (π / 0.7999999992)))) ≤ (4.172962052256 : ℝ) := le_trans hT2h.2 (by norm_num)
  have hT3h := mul_bounds (Real.sin (0.5 * (π / 0.7999999992))) (-Real.sin (π / 0.7999999992))
    0.9238795317598 0.92387953176 0.7071067839633 0.7071067839634
    hAsin2l hAsin2u (by linarith) (by linarith) (by norm_num) (by norm_num)
  have hT3l : (0.6532814844721 : ℝ) ≤ Real.sin (0.5 * (π / 0.7999999992)) * (-Real.sin (π / 0.7999999992)) := le_trans (by norm_num) hT3h.1
  have hT3u : Real.sin (0.5 * (π / 0.7999999992)) * (-Real.sin (π / 0.7999999992)) ≤ (0.6532814844725 : ℝ) := le_trans hT3h.2 (by norm_num)
  have hT4h := mul_bounds (π / 0.7999999992 * (π / 0.7999999992)) (π / 0.7999999992 * (-Real.sin (π / 0.7999999992) * (-Real.cos (0.5 * (π / 0.7999999992)))))
    15.42125690754 15.42125690755 1.062636068004 1.062636068006
    hu2l hu2u hT1l hT1u (by norm_num) (by norm_num)
  have hT4l : (16.3871838039 : ℝ) ≤ π / 0.7999999992 * (π / 0.7999999992) * (π / 0.7999999992 * (-Real.sin (π / 0.7999999992) * (-Real.cos (0.5 * (π / 0.7999999992))))) := le_trans (by norm_num) hT4h.1
  have hT4u : π / 0.7999999992 * (π / 0.7999999992) * (π / 0.7999999992 * (-Real.sin (π / 0.7999999992) * (-Real.cos (0.5 * (π / 0.7999999992))))) ≤ (16.38718380395 : ℝ) := le_trans hT4h.2 (by norm_num)
  have hsin_ne : Real.sin (π / 0.7999999992) ≠ 0 := ne_of_lt (lt_of_le_of_lt hAsinu (by norm_num))
  have hcos2_ne : Real.cos (0.5 * (π / 0.7999999992)) ≠ 0 := ne_of_lt (lt_of_le_of_lt hAcos2u (by norm_num))
  have hu_ne : (π / 0.7999999992 : ℝ) ≠ 0 := by positivity
  have hMeq : sidesway_inhibited_fcn 0.7999999992 10.0 0.45469570131810483 * (π / 0.7999999992 * Real.sin (π / 0.7999999992) * Real.cos (0.5 * (π / 0.7999999992))) = 0.25 * 10.0 * 0.45469570131810483 * ((π / 0.7999999992) ^ 2 * (π / 0.7999999992 * Real.sin (π / 0.7999999992) * Real.cos (0.5 * (π / 0.7999999992)))) + (0.5 * (10.0 + 0.45469570131810483) - 1) * (π / 0.7999999992 * Real.sin (π / 0.7999999992) * Real.cos (0.5 * (π / 0.7999999992))) - 0.5 * (10.0 + 0.45469570131810483) * ((π / 0.7999999992) ^ 2 * (Real.cos (π / 0.7999999992) * Real.cos (0.5 * (π / 0.7999999992)))) + 2 * (Real.sin (0.5 * (π / 0.7999999992)) * Real.sin (π / 0.7999999992)) := by
    rw [sidesway_inhibited_fcn_eq, xcot, Real.tan_eq_sin_div_cos]
    exact inhibited_fcn_mul_identity 10.0 0.45469570131810483 (π / 0.7999999992) (Real.sin (π / 0.7999999992)) (Real.cos (π / 0.7999999992))
      (Real.sin (0.5 * (π / 0.7999999992))) (Real.cos (0.5 * (π / 0.7999999992))) hsin_ne hcos2_ne hu_ne
  have hN : (0.000000195279 : ℝ) ≤ 0.25 * 10.0 * 0.45469570131810483 * ((π / 0.7999999992) ^ 2 * (π / 0.7999999992 * Real.sin (π / 0.7999999992) * Real.cos (0.5 * (π / 0.7999999992)))) + (0.5 * (10.0 + 0.45469570131810483) - 1) * (π / 0.7999999992 * Real.sin (π / 0.7999999992) * Real.cos (0.5 * (π / 0.7999999992))) - 0.5 * (10.0 + 0.45469570131810483) * ((π / 0.7999999992) ^ 2 * (Real.cos (π / 0.7999999992) * Real.cos (0.5 * (π / 0.7999999992)))) + 2 * (Real.sin (0.5 * (π / 0.7999999992)) * Real.sin (π / 0.7999999992)) := by
    linarith [hT1l, hT1u, hT2l, hT2u, hT3l, hT3u, hT4l, hT4u]
  have hMpos : (0:ℝ) < π / 0.7999999992 * Real.sin (π / 0.7999999992) * Real.cos (0.5 * (π / 0.7999999992)) := by linarith [hT1l]
  by_contra hcon
  push_neg at hcon
  have hle := mul_le_mul_of_nonneg_right hcon hMpos.le
  rw [zero_mul, hMeq] at hle
  linarith [hN]

set_option maxHeartbeats 8000000 in
theorem c6aux_case3_hp :
    sidesway_inhibited_fcn 0.8000000008 10.0 0.45469570131810483 < 0 := by
  have hpil := Real.pi_gt_d20
  have hpiu := Real.pi_lt_d20
  have hs2l : (1.41421356237309 : ℝ) ≤ Real.sqrt 2 := by
    calc (1.41421356237309 : ℝ) = Real.sqrt ((1.41421356237309:ℝ) ^ 2) := (Real.sqrt_sq (by norm_num)).symm
    _ ≤ Real.sqrt 2 := Real.sqrt_le_sqrt (by norm_num)
  have hs2u : Real.sqrt 2 ≤ (1.4142135623731 : ℝ) := by
    calc Real.sqrt 2 ≤ Real.sqrt ((1.4142135623731:ℝ) ^ 2) := Real.sqrt_le_sqrt (by norm_num)
    _ = (1.4142135623731 : ℝ) := Real.sqrt_sq (by norm_num)
  have hc8l : (1.84775906502257 : ℝ) ≤ Real.sqrt (2 + Real.sqrt 2) := by
    calc (1.84775906502257 : ℝ) = Real.sqrt ((1.84775906502257:ℝ) ^ 2) := (Real.sqrt_sq (by norm_num)).symm
    _ ≤ Real.sqrt (2 + Real.sqrt 2) := Real.sqrt_le_sqrt (by nlinarith [hs2l, hs2u])
  have hc8u : Real.sqrt (2 + Real.sqrt 2) ≤ (1.84775906502258 : ℝ) := by
    calc Real.sqrt (2 + Real.sqrt 2) ≤ Real.sqrt ((1.84775906502258:ℝ) ^ 2) := Real.sqrt_le_sqrt (by nlinarith [hs2l, hs2u])
    _ = (1.84775906502258 : ℝ) := Real.sqrt_sq (by norm_num)
  have hs8l : (0.765366864730176 : ℝ) ≤ Real.sqrt (2 - Real.sqrt 2) := by
    calc (0.765366864730176 : ℝ) = Real.sqrt ((0.765366864730176:ℝ) ^ 2) := (Real.sqrt_sq (by norm_num)).symm
    _ ≤ Real.sqrt (2 - Real.sqrt 2) := Real.sqrt_le_sqrt (by nlinarith [hs2l, hs2u])
  have hs8u : Real.sqrt (2 - Real.sqrt 2) ≤ (0.765366864730183 : ℝ) := by
    calc Real.sqrt (2 - Real.sqrt 2) ≤ Real.sqrt ((0.765366864730183:ℝ) ^ 2) := Real.sqrt_le_sqrt (by nlinarith [hs2l, hs2u])
    _ = (0.765366864730183 : ℝ) := Real.sqrt_sq (by norm_num)
  have hepos : (0:ℝ) < π * (5 / 4000000004) := by linarith
  have helo : (0.00000000392699081306 : ℝ) ≤ π * (5 / 4000000004) := by linarith
  have hehi : π * (5 / 4000000004) ≤ (0.00000000392699081307 : ℝ) := by linarith
  have hfpos : (0:ℝ) < π * (5 / 8000000008) := by linarith
  have hflo : (0.00000000196349540653 : ℝ) ≤ π * (5 / 8000000008) := by linarith
  have hfhi : π * (5 / 8000000008) ≤ (0.00000000196349540654 : ℝ) := by linarith
  have hSeu : Real.sin (π * (5 / 4000000004)) ≤ (0.00000000392699081307 : ℝ) :=
    le_trans (le_of_lt (Real.sin_lt hepos)) hehi
  have hSel : (0.00000000392699081305 : ℝ) ≤ Real.sin (π * (5 / 4000000004)) := by
    have hcube := Real.sin_gt_sub_cube hepos (by linarith : π * (5 / 4000000004) ≤ 1)
    have hc3 : (π * (5 / 4000000004)) ^ 3 ≤ (0.00000000392699081307 : ℝ) ^ 3 :=
      pow_le_pow_left₀ (le_of_lt hepos) hehi 3
    nlinarith [hcube, hc3]
  have hCeu : Real.cos (π * (5 / 4000000004)) ≤ 1 := Real.cos_le_one _
  have hCel : (0.9999999999999999922893715 : ℝ) ≤ Real.cos (π * (5 / 4000000004)) := by
    have h := Real.one_sub_sq_div_two_le_cos (x := π * (5 / 4000000004))
    have hsq : (π * (5 / 4000000004)) ^ 2 ≤ (0.00000000392699081307 : ℝ) ^ 2 :=
      pow_le_pow_left₀ (le_of_lt hepos) hehi 2
    nlinarith [h, hsq]
  have hSfu : Real.sin (π * (5 / 8000000008)) ≤ (0.00000000196349540654 : ℝ) :=
    le_trans (le_of_lt (Real.sin_lt hfpos)) hfhi
  have hSfl : (0.00000000196349540652 : ℝ) ≤ Real.sin (π * (5 / 8000000008)) := by
    have hcube := Real.sin_gt_sub_cube hfpos (by linarith : π * (5 / 8000000008) ≤ 1)
    have hc3 : (π * (5 / 8000000008)) ^ 3 ≤ (0.00000000196349540654 : ℝ) ^ 3 :=
      pow_le_pow_left₀ (le_of_lt hfpos) hfhi 3
    nlinarith [hcube, hc3]
  have hCfu : Real.cos (π * (5 / 8000000008)) ≤ 1 := Real.cos_le_one _
  have hCfl : (0.9999999999999999980723428 : ℝ) ≤ Real.cos (π * (5 / 8000000008)) := by
    have h := Real.one_sub_sq_div_two_le_cos (x := π * (5 / 8000000008))
    have hsq : (π * (5 / 8000000008)) ^ 2 ≤ (0.00000000196349540654 : ℝ) ^ 2 :=
      pow_le_pow_left₀ (le_of_lt hfpos) hfhi 2
    nlinarith [h, hsq]
  have hhs2coseh := mul_bounds (Real.sqrt 2) (Real.cos (π * (5 / 4000000004)))
    1.41421356237309 1.4142135623731 (0.9999999999999999922893715) (1)
    hs2l hs2u hCel hCeu (by norm_num) (by norm_num)
  have hhs2cosel : (1.414213562373 : ℝ) ≤ Real.sqrt 2 * Real.cos (π * (5 / 4000000004)) := le_trans (by norm_num) hhs2coseh.1
  have hhs2coseu : Real.sqrt 2 * Real.cos (π * (5 / 4000000004)) ≤ (1.4142135623731 : ℝ) := le_trans hhs2coseh.2 (by norm_num)
  have hhs2sineh := mul_bounds (Real.sqrt 2) (Real.sin (π * (5 / 4000000004)))
    1.41421356237309 1.4142135623731 (0.00000000392699081305) (0.00000000392699081307)
    hs2l hs2u hSel hSeu (by norm_num) (by norm_num)
  have hhs2sinel : (0.0000000055536036671298 : ℝ) ≤ Real.sqrt 2 * Real.sin (π * (5 / 4000000004)) := le_trans (by norm_num) hhs2sineh.1
  have hhs2sineu : Real.sqrt 2 * Real.sin (π * (5 / 4000000004)) ≤ (0.0000000055536036671582 : ℝ) := le_trans hhs2sineh.2 (by norm_num)
  have hhs2cosfh := mul_bounds (Real.sqrt 2) (Real.cos (π * (5 / 8000000008)))
    1.41421356237309 1.4142135623731 (0.9999999999999999980723428) (1)
    hs2l hs2u hCfl hCfu (by norm_num) (by norm_num)
  have hhs2cosfl : (1.414213562373 : ℝ) ≤ Real.sqrt 2 * Real.cos (π * (5 / 8000000008)) := le_trans (by norm_num) hhs2cosfh.1
  have hhs2cosfu : Real.sqrt 2 * Real.cos (π * (5 / 8000000008)) ≤ (1.4142135623731 : ℝ) := le_trans hhs2cosfh.2 (by norm_num)
  have hhs2sinfh := mul_bounds (Real.sqrt 2) (Real.sin (π * (5 / 8000000008)))
    1.41421356237309 1.4142135623731 (0.00000000196349540652) (0.00000000196349540654)
    hs2l hs2u hSfl hSfu (by norm_num) (by norm_num)
  have hhs2sinfl : (0.0000000027768018335578 : ℝ) ≤ Real.sqrt 2 * Real.sin (π * (5 / 8000000008)) := le_trans (by norm_num) hhs2sinfh.1
  have hhs2sinfu : Real.sqrt 2 * Real.sin (π * (5 / 8000000008)) ≤ (0.0000000027768018335862 : ℝ) := le_trans hhs2sinfh.2 (by norm_num)
  have hhc8coseh := mul_bounds (Real.sqrt (2 + Real.sqrt 2)) (Real.cos (π * (5 / 4000000004)))
    1.84775906502257 1.84775906502258 (0.9999999999999999922893715) (1)
    hc8l hc8u hCel hCeu (by norm_num) (by norm_num)
  have hhc8cosel : (1.8477590650225 : ℝ) ≤ Real.sqrt (2 + Real.sqrt 2) * Real.cos (π * (5 / 4000000004)) := le_trans (by norm_num) hhc8coseh.1
  have hhc8coseu : Real.sqrt (2 + Real.sqrt 2) * Real.cos (π * (5 / 4000000004)) ≤ (1.8477590650226 : ℝ) := le_trans hhc8coseh.2 (by norm_num)
  have hhc8sineh := mul_bounds (Real.sqrt (2 + Real.sqrt 2)) (Real.sin (π * (5 / 4000000004)))
    1.84775906502257 1.84775906502258 (0.00000000392699081305) (0.00000000392699081307)
    hc8l hc8u hSel hSeu (by norm_num) (by norm_num)
  have hhc8sinel : (0.0000000072561328730734 : ℝ) ≤ Real.sqrt (2 + Real.sqrt 2) * Real.sin (π * (5 / 4000000004)) := le_trans (by norm_num) hhc8sineh.1
  have hhc8sineu : Real.sqrt (2 + Real.sqrt 2) * Real.sin (π * (5 / 4000000004)) ≤ (0.0000000072561328731105 : ℝ) := le_trans hhc8sineh.2 (by norm_num)
  have hhc8cosfh := mul_bounds (Real.sqrt (2 + Real.sqrt 2)) (Real.cos (π * (5 / 8000000008)))
    1.84775906502257 1.84775906502258 (0.9999999999999999980723428) (1)
    hc8l hc8u hCfl hCfu (by norm_num) (by norm_num)
  have hhc8cosfl : (1.8477590650225 : ℝ) ≤ Real.sqrt (2 + Real.sqrt 2) * Real.cos (π * (5 / 8000000008)) := le_trans (by norm_num) hhc8cosfh.1
  have hhc8cosfu : Real.sqrt (2 + Real.sqrt 2) * Real.cos (π * (5 / 8000000008)) ≤ (1.8477590650226 : ℝ) := le_trans hhc8cosfh.2 (by norm_num)
  have hhc8sinfh := mul_bounds (Real.sqrt (2 + Real.sqrt 2)) (Real.sin (π * (5 / 8000000008)))
    1.84775906502257 1.84775906502258 (0.00000000196349540652) (0.00000000196349540654)
    hc8l hc8u hSfl hSfu (by norm_num) (by norm_num)
  have hhc8sinfl : (0.0000000036280664365275 : ℝ) ≤ Real.sqrt (2 + Real.sqrt 2) * Real.sin (π * (5 / 8000000008)) := le_trans (by norm_num) hhc8sinfh.1
  have hhc8sinfu : Real.sqrt (2 + Real.sqrt 2) * Real.sin (π * (5 / 8000000008)) ≤ (0.0000000036280664365645 : ℝ) := le_trans hhc8sinfh.2 (by norm_num)
  have hhs8coseh := mul_bounds (Real.sqrt (2 - Real.sqrt 2)) (Real.cos (π * (5 / 4000000004)))
    0.765366864730176 0.765366864730183 (0.9999999999999999922893715) (1)
    hs8l hs8u hCel hCeu (by norm_num) (by norm_num)
  have hhs8cosel : (0.76536686473017 : ℝ) ≤ Real.sqrt (2 - Real.sqrt 2) * Real.cos (π * (5 / 4000000004)) := le_trans (by norm_num) hhs8coseh.1
  have hhs8coseu : Real.sqrt (2 - Real.sqrt 2) * Real.cos (π * (5 / 4000000004)) ≤ (0.76536686473019 : ℝ) := le_trans hhs8coseh.2 (by norm_num)
  have hhs8sineh := mul_bounds (Real.sqrt (2 - Real.sqrt 2)) (Real.sin (π * (5 / 4000000004)))
    0.765366864730176 0.765366864730183 (0.00000000392699081305) (0.00000000392699081307)
    hs8l hs8u hSel hSeu (by norm_num) (by norm_num)
  have hhs8sinel : (0.0000000030055886464082 : ℝ) ≤ Real.sqrt (2 - Real.sqrt 2) * Real.sin (π * (5 / 4000000004)) := le_trans (by norm_num) hhs8sineh.1
  have hhs8sineu : Real.sqrt (2 - Real.sqrt 2) * Real.sin (π * (5 / 4000000004)) ≤ (0.0000000030055886464237 : ℝ) := le_trans hhs8sineh.2 (by norm_num)
  have hhs8cosfh := mul_bounds (Real.sqrt (2 - Real.sqrt 2)) (Real.cos (π * (5 / 8000000008)))
    0.765366864730176 0.765366864730183 (0.9999999999999999980723428) (1)
    hs8l hs8u hCfl hCfu (by norm_num) (by norm_num)
  have hhs8cosfl : (0.76536686473017 : ℝ) ≤ Real.sqrt (2 - Real.sqrt 2) * Real.cos (π * (5 / 8000000008)) := le_trans (by norm_num) hhs8cosfh.1
  have hhs8cosfu : Real.sqrt (2 - Real.sqrt 2) * Real.cos (π * (5 / 8000000008)) ≤ (0.76536686473019 : ℝ) := le_trans hhs8cosfh.2 (by norm_num)
  have hhs8sinfh := mul_bounds (Real.sqrt (2 - Real.sqrt 2)) (Real.sin (π * (5 / 8000000008)))
    0.765366864730176 0.765366864730183 (0.00000000196349540652) (0.00000000196349540654)
    hs8l hs8u hSfl hSfu (by norm_num) (by norm_num)
  have hhs8sinfl : (0.0000000015027943232003 : ℝ) ≤ Real.sqrt (2 - Real.sqrt 2) * Real.sin (π * (5 / 8000000008)) := le_trans (by norm_num) hhs8sinfh.1
  have hhs8sinfu : Real.sqrt (2 - Real.sqrt 2) * Real.sin (π * (5 / 8000000008)) ≤ (0.0000000015027943232157 : ℝ) := le_trans hhs8sinfh.2 (by norm_num)
  have hdsin : Real.sin (π / 0.8000000008) = -(Real.sqrt 2 / 2) * Real.cos (π * (5 / 4000000004)) + (Real.sqrt 2 / 2) * Real.sin (π * (5 / 4000000004)) := by
    rw [show (π / 0.8000000008 : ℝ) = 5 * π / 4 - π * (5 / 4000000004) by ring,
      Real.sin_sub, sin_five_pi_div_four, cos_five_pi_div_four]
    try ring
  have hdcos : Real.cos (π / 0.8000000008) = -(Real.sqrt 2 / 2) * Real.cos (π * (5 / 4000000004)) - (Real.sqrt 2 / 2) * Real.sin (π * (5 / 4000000004)) := by
    rw [show (π / 0.8000000008 : ℝ) = 5 * π / 4 - π * (5 / 4000000004) by ring,
      Real.cos_sub, sin_five_pi_div_four, cos_five_pi_div_four]
    try ring
  have hdsin2 : Real.sin (0.5 * (π / 0.8000000008)) = (Real.sqrt (2 + Real.sqrt 2) / 2) * Real.cos (π * (5 / 8000000008)) + (Real.sqrt (2 - Real.sqrt 2) / 2) * Real.sin (π * (5 / 8000000008)) := by
    rw [show (0.5 * (π / 0.8000000008) : ℝ) = 5 * π / 8 - π * (5 / 8000000008) by ring,
      Real.sin_sub, sin_five_pi_div_eight, cos_five_pi_div_eight]
    try ring
  have hdcos2 : Real.cos (0.5 * (π / 0.8000000008)) = -(Real.sqrt (2 - Real.sqrt 2) / 2) * Real.cos (π * (5 / 8000000008)) + (Real.sqrt (2 + Real.sqrt 2) / 2) * Real.sin (π * (5 / 8000000008)) := by
    rw [show (0.5 * (π / 0.8000000008) : ℝ) = 5 * π / 8 - π * (5 / 8000000008) by ring,
      Real.cos_sub, sin_five_pi_div_eight, cos_five_pi_div_eight]
    try ring
  have hAsinl : (-0.7071067784098 : ℝ) ≤ Real.sin (π / 0.8000000008) := by
    rw [hdsin]
    linarith [hhs2cosel, hhs2coseu, hhs2sinel, hhs2sineu, hhs2cosfl, hhs2cosfu, hhs2sinfl, hhs2sinfu, hhc8cosel, hhc8coseu, hhc8sinel, hhc8sineu, hhc8cosfl, hhc8cosfu, hhc8sinfl, hhc8sinfu, hhs8cosel, hhs8coseu, hhs8sinel, hhs8sineu, hhs8cosfl, hhs8cosfu, hhs8sinfl, hhs8sinfu, hSel, hSeu, hCel, hCeu, hSfl, hSfu, hCfl, hCfu]
  have hAsinu : Real.sin (π / 0.8000000008) ≤ (-0.7071067784096 : ℝ) := by
    rw [hdsin]
    linarith [hhs2cosel, hhs2coseu, hhs2sinel, hhs2sineu, hhs2cosfl, hhs2cosfu, hhs2sinfl, hhs2sinfu, hhc8cosel, hhc8coseu, hhc8sinel, hhc8sineu, hhc8cosfl, hhc8cosfu, hhc8sinfl, hhc8sinfu, hhs8cosel, hhs8coseu, hhs8sinel, hhs8sineu, hhs8cosfl, hhs8cosfu, hhs8sinfl, hhs8sinfu, hSel, hSeu, hCel, hCeu, hSfl, hSfu, hCfl, hCfu]
  have hAcosl : (-0.7071067839634 : ℝ) ≤ Real.cos (π / 0.8000000008) := by
    rw [hdcos]
    linarith [hhs2cosel, hhs2coseu, hhs2sinel, hhs2sineu, hhs2cosfl, hhs2cosfu, hhs2sinfl, hhs2sinfu, hhc8cosel, hhc8coseu, hhc8sinel, hhc8sineu, hhc8cosfl, hhc8cosfu, hhc8sinfl, hhc8sinfu, hhs8cosel, hhs8coseu, hhs8sinel, hhs8sineu, hhs8cosfl, hhs8cosfu, hhs8sinfl, hhs8sinfu, hSel, hSeu, hCel, hCeu, hSfl, hSfu, hCfl, hCfu]
  have hAcosu : Real.cos (π / 0.8000000008) ≤ (-0.7071067839633 : ℝ) := by
    rw [hdcos]
    linarith [hhs2cosel, hhs2coseu, hhs2sinel, hhs2sineu, hhs2cosfl, hhs2cosfu, hhs2sinfl, hhs2sinfu, hhc8cosel, hhc8coseu, hhc8sinel, hhc8sineu, hhc8cosfl, hhc8cosfu, hhc8sinfl, hhc8sinfu, hhs8cosel, hhs8coseu, hhs8sinel, hhs8sineu, hhs8cosfl, hhs8cosfu, hhs8sinfl, hhs8sinfu, hSel, hSeu, hCel, hCeu, hSfl, hSfu, hCfl, hCfu]
  have hAsin2l : (0.9238795332626 : ℝ) ≤ Real.sin (0.5 * (π / 0.8000000008)) := by
    rw [hdsin2]
    linarith [hhs2cosel, hhs2coseu, hhs2sinel, hhs2sineu, hhs2cosfl, hhs2cosfu, hhs2sinfl, hhs2sinfu, hhc8cosel, hhc8coseu, hhc8sinel, hhc8sineu, hhc8cosfl, hhc8cosfu, hhc8sinfl, hhc8sinfu, hhs8cosel, hhs8coseu, hhs8sinel, hhs8sineu, hhs8cosfl, hhs8cosfu, hhs8sinfl, hhs8sinfu, hSel, hSeu, hCel, hCeu, hSfl, hSfu, hCfl, hCfu]
  have hAsin2u : Real.sin (0.5 * (π / 0.8000000008)) ≤ (0.9238795332627 : ℝ) := by
    rw [hdsin2]
    linarith [hhs2cosel, hhs2coseu, hhs2sinel, hhs2sineu, hhs2cosfl, hhs2cosfu, hhs2sinfl, hhs2sinfu, hhc8cosel, hhc8coseu, hhc8sinel, hhc8sineu, hhc8cosfl, hhc8cosfu, hhc8sinfl, hhc8sinfu, hhs8cosel, hhs8coseu, hhs8sinel, hhs8sineu, hhs8cosfl, hhs8cosfu, hhs8sinfl, hhs8sinfu, hSel, hSeu, hCel, hCeu, hSfl, hSfu, hCfl, hCfu]
  have hAcos2l : (-0.3826834305511 : ℝ) ≤ Real.cos (0.5 * (π / 0.8000000008)) := by
    rw [hdcos2]
    linarith [hhs2cosel, hhs2coseu, hhs2sinel, hhs2sineu, hhs2cosfl, hhs2cosfu, hhs2sinfl, hhs2sinfu, hhc8cosel, hhc8coseu, hhc8sinel, hhc8sineu, hhc8cosfl, hhc8cosfu, hhc8sinfl, hhc8sinfu, hhs8cosel, hhs8coseu, hhs8sinel, hhs8sineu, hhs8cosfl, hhs8cosfu, hhs8sinfl, hhs8sinfu, hSel, hSeu, hCel, hCeu, hSfl, hSfu, hCfl, hCfu]
  have hAcos2u : Real.cos (0.5 * (π / 0.8000000008)) ≤ (-0.382683430551 : ℝ) := by
    rw [hdcos2]
    linarith [hhs2cosel, hhs2coseu, hhs2sinel, hhs2sineu, hhs2cosfl, hhs2cosfu, hhs2sinfl, hhs2sinfu, hhc8cosel, hhc8coseu, hhc8sinel, hhc8sineu, hhc8cosfl, hhc8cosfu, hhc8sinfl, hhc8sinfu, hhs8cosel, hhs8coseu, hhs8sinel, hhs8sineu, hhs8cosfl, hhs8cosfu, hhs8sinfl, hhs8sinfu, hSel, hSeu, hCel, hCeu, hSfl, hSfu, hCfl, hCfu]
  have hul : (3.9269908130602 : ℝ) ≤ π / 0.8000000008 := by
    rw [le_div_iff₀ (by norm_num : (0:ℝ) < 0.8000000008)]
    linarith
  have huu : π / 0.8000000008 ≤ (3.9269908130603 : ℝ) := by
    rw [div_le_iff₀ (by norm_num : (0:ℝ) < 0.8000000008)]
    linarith
  have hq1h := mul_bounds (-Real.sin (π / 0.8000000008)) (-Real.cos (0.5 * (π / 0.8000000008)))
    0.7071067784096 0.7071067784098 0.382683430551 0.3826834305511
    (by linarith) (by linarith) (by linarith) (by linarith) (by norm_num) (by norm_num)
  have hq1l : (0.2705980477276 : ℝ) ≤ -Real.sin (π / 0.8000000008) * (-Real.cos (0.5 * (π / 0.8000000008))) := le_trans (by norm_num) hq1h.1
  have hq1u : -Real.sin (π / 0.8000000008) * (-Real.cos (0.5 * (π / 0.8000000008))) ≤ (0.2705980477278 : ℝ) := le_trans hq1h.2 (by norm_num)
  have hT1h := mul_bounds (π / 0.8000000008) (-Real.sin (π / 0.8000000008) * (-Real.cos (0.5 * (π / 0.8000000008))))
    3.9269908130602 3.9269908130603 0.2705980477276 0.2705980477278
    hul huu hq1l hq1u (by norm_num) (by norm_num)
  have hT1l : (1.062636047458 : ℝ) ≤ π / 0.8000000008 * (-Real.sin (π / 0.8000000008) * (-Real.cos (0.5 * (π / 0.8000000008)))) := le_trans (by norm_num) hT1h.1
  have hT1u : π / 0.8000000008 * (-Real.sin (π / 0.8000000008) * (-Real.cos (0.5 * (π / 0.8000000008)))) ≤ (1.06263604746 : ℝ) := le_trans hT1h.2 (by norm_num)
  have hu2h := mul_bounds (π / 0.8000000008) (π / 0.8000000008)
    3.9269908130602 3.9269908130603 3.9269908130602 3.9269908130603
    hul huu hul huu (by norm_num) (by norm_num)
  have hu2l : (15.42125684585 : ℝ) ≤ π / 0.8000000008 * (π / 0.8000000008) := le_trans (by norm_num) hu2h.1
  have hu2u : π / 0.8000000008 * (π / 0.8000000008) ≤ (15.42125684586 : ℝ) := le_trans hu2h.2 (by norm_num)
  have hr2h := mul_bounds (-Real.cos (π / 0.8000000008)) (-Real.cos (0.5 * (π / 0.8000000008)))
    0.7071067839633 0.7071067839634 0.382683430551 0.3826834305511
    (by linarith) (by linarith) (by linarith) (by linarith) (by norm_num) (by norm_num)
  have hr2l : (0.2705980498529 : ℝ) ≤ -Real.cos (π / 0.8000000008) * (-Real.cos (0.5 * (π / 0.8000000008))) := le_trans (by norm_num) hr2h.1
  have hr2u : -Real.cos (π / 0.8000000008) * (-Real.cos (0.5 * (π / 0.8000000008))) ≤ (0.2705980498531 : ℝ) := le_trans hr2h.2 (by norm_num)
  have hT2h := mul_bounds (π / 0.8000000008 * (π / 0.8000000008)) (-Real.cos (π / 0.8000000008) * (-Real.cos (0.5 * (π / 0.8000000008))))
    15.42125684585 15.42125684586 0.2705980498529 0.2705980498531
    hu2l hu2u hr2l hr2u (by norm_num) (by norm_num)
  have hT2l : (4.172962028767 : ℝ) ≤ π / 0.8000000008 * (π / 0.8000000008) * (-Real.cos (π / 0.8000000008) * (-Real.cos (0.5 * (π / 0.8000000008)))) := le_trans (by norm_num) hT2h.1
  have hT2u : π / 0.8000000008 * (π / 0.8000000008) * (-Real.cos (π / 0.8000000008) * (-Real.cos (0.5 * (π / 0.8000000008)))) ≤ (4.172962028774 : ℝ) := le_trans hT2h.2 (by norm_num)
  have hT3h := mul_bounds (Real.sin (0.5 * (π / 0.8000000008))) (-Real.sin (π / 0.8000000008))
    0.9238795332626 0.9238795332627 0.7071067784096 0.7071067784098
    hAsin2l hAsin2u (by linarith) (by linarith) (by norm_num) (by norm_num)
  have hT3l : (0.6532814804038 : ℝ) ≤ Real.sin (0.5 * (π / 0.8000000008)) * (-Real.sin (π / 0.8000000008)) := le_trans (by norm_num) hT3h.1
  have hT3u : Real.sin (0.5 * (π / 0.8000000008)) * (-Real.sin (π / 0.8000000008)) ≤ (0.6532814804042 : ℝ) := le_trans hT3h.2 (by norm_num)
  have hT4h := mul_bounds (π / 0.8000000008 * (π / 0.8000000008)) (π / 0.8000000008 * (-Real.sin (π / 0.8000000008) * (-Real.cos (0.5 * (π / 0.8000000008)))))
    15.42125684585 15.42125684586 1.062636047458 1.06263604746
    hu2l hu2u hT1l hT1u (by norm_num) (by norm_num)
  have hT4l : (16.3871834215 : ℝ) ≤ π / 0.8000000008 * (π / 0.8000000008) * (π / 0.8000000008 * (-Real.sin (π / 0.8000000008) * (-Real.cos (0.5 * (π / 0.8000000008))))) := le_trans (by norm_num) hT4h.1
  have hT4u : π / 0.8000000008 * (π / 0.8000000008) * (π / 0.8000000008 * (-Real.sin (π / 0.8000000008) * (-Real.cos (0.5 * (π / 0.8000000008))))) ≤ (16.38718342156 : ℝ) := le_trans hT4h.2 (by norm_num)
  have hsin_ne : Real.sin (π / 0.8000000008) ≠ 0 := ne_of_lt (lt_of_le_of_lt hAsinu (by norm_num))
  have hcos2_ne : Real.cos (0.5 * (π / 0.8000000008)) ≠ 0 := ne_of_lt (lt_of_le_of_lt hAcos2u (by norm_num))
  have hu_ne : (π / 0.8000000008 : ℝ) ≠ 0 := by positivity
  have hMeq : sidesway_inhibited_fcn 0.8000000008 10.0 0.45469570131810483 * (π / 0.8000000008 * Real.sin (π / 0.8000000008) * Real.cos (0.5 * (π / 0.8000000008))) = 0.25 * 10.0 * 0.45469570131810483 * ((π / 0.8000000008) ^ 2 * (π / 0.8000000008 * Real.sin (π / 0.8000000008) * Real.cos (0.5 * (π / 0.8000000008)))) + (0.5 * (10.0 + 0.45469570131810483) - 1) * (π / 0.8000000008 * Real.sin (π / 0.8000000008) * Real.cos (0.5 * (π / 0.8000000008))) - 0.5 * (10.0 + 0.45469570131810483) * ((π / 0.8000000008) ^ 2 * (Real.cos (π / 0.8000000008) * Real.cos (0.5 * (π / 0.8000000008)))) + 2 * (Real.sin (0.5 * (π / 0.8000000008)) * Real.sin (π / 0.8000000008)) := by
    rw [sidesway_inhibited_fcn_eq, xcot, Real.tan_eq_sin_div_cos]
    exact inhibited_fcn_mul_identity 10.0 0.45469570131810483 (π / 0.8000000008) (Real.sin (π / 0.8000000008)) (Real.cos (π / 0.8000000008))
      (Real.sin (0.5 * (π / 0.8000000008))) (Real.cos (0.5 * (π / 0.8000000008))) hsin_ne hcos2_ne hu_ne
  have hN : 0.25 * 10.0 * 0.45469570131810483 * ((π / 0.8000000008) ^ 2 * (π / 0.8000000008 * Real.sin (π / 0.8000000008) * Real.cos (0.5 * (π / 0.8000000008)))) + (0.5 * (10.0 + 0.45469570131810483) - 1) * (π / 0.8000000008 * Real.sin (π / 0.8000000008) * Real.cos (0.5 * (π / 0.8000000008))) - 0.5 * (10.0 + 0.45469570131810483) * ((π / 0.8000000008) ^ 2 * (Real.cos (π / 0.8000000008) * Real.cos (0.5 * (π / 0.8000000008)))) + 2 * (Real.sin (0.5 * (π / 0.8000000008)) * Real.sin (π / 0.8000000008)) ≤ (-0.000000195265 : ℝ) := by
    linarith [hT1l, hT1u, hT2l, hT2u, hT3l, hT3u, hT4l, hT4u]
  have hMpos : (0:ℝ) < π / 0.8000000008 * Real.sin (π / 0.8000000008) * Real.cos (0.5 * (π / 0.8000000008)) := by linarith [hT1l]
  by_contra hcon
  push_neg at hcon
  have hle := mul_le_mul_of_nonneg_right hcon hMpos.le
  rw [zero_mul, hMeq] at hle
  linarith [hN]
/-! ## Claims C6, cases 3 and 4: assembly of the inhibited round trips -/

theorem inhibited_one_zero_at_half (G : ℝ) :
    sidesway_inhibited_one_zero 0.5 G = 0.5 * G - 1 := by
  rw [sidesway_inhibited_one_zero_eq]
  rw [show (π / (0.5 : ℝ)) = 2 * π by ring]
  rw [xcot, Real.sin_two_pi, div_zero]
  rw [show ((0.5 : ℝ) * (2 * π)) = π by ring, Real.tan_pi]
  ring

theorem inhibited_fcn_at_half (GA GB : ℝ) :
    sidesway_inhibited_fcn 0.5 GA GB =
      0.25 * GA * GB * (2 * π) ^ 2 + 0.5 * (GA + GB) - 1 := by
  rw [sidesway_inhibited_fcn_eq]
  rw [show (π / (0.5 : ℝ)) = 2 * π by ring]
  rw [xcot, Real.sin_two_pi, div_zero]
  rw [show ((0.5 : ℝ) * (2 * π)) = π by ring, Real.tan_pi]
  ring

theorem sin_pi_div_ne_on_inhibited (K : ℝ) (h05 : 0.5 < K) (h1 : K < 1) :
    Real.sin (π / K) ≠ 0 := by
  have hpi := Real.pi_pos
  have hKpos : (0 : ℝ) < K := by linarith
  have hgt : π < π / K := by
    rw [lt_div_iff₀ hKpos]
    nlinarith
  have hlt : π / K < 2 * π := by
    rw [div_lt_iff₀ hKpos]
    nlinarith
  exact (sin_neg_on_pi_two_pi _ hgt hlt).ne

theorem cos_half_pi_div_ne_on_inhibited (K : ℝ) (h05 : 0.5 < K) (h1 : K < 1) :
    Real.cos (0.5 * (π / K)) ≠ 0 := by
  have hpi := Real.pi_pos
  have hKpos : (0 : ℝ) < K := by linarith
  have hgt : π < π / K := by
    rw [lt_div_iff₀ hKpos]
    nlinarith
  have hlt : π / K < 2 * π := by
    rw [div_lt_iff₀ hKpos]
    nlinarith
  exact (Real.cos_neg_of_pi_div_two_lt_of_lt (by linarith) (by linarith)).ne

theorem c6aux_case4 :
    (∀ y, solverReturns (effective_length_factor "inhibited" (GInput.fin 0)
      (GInput.fin 0.6067769722307135)) y → |y - 0.6| ≤ 0.6 * 1e-9) ∧
    (∃ y, solverReturns (effective_length_factor "inhibited" (GInput.fin 0)
      (GInput.fin 0.6067769722307135)) y) := by
  have hnd : ¬ degenerate (GInput.fin 0) (GInput.fin 0.6067769722307135) := by
    rintro (⟨hc, -⟩ | (⟨hc, -⟩ | ⟨-, hc⟩) | ⟨-, hc⟩)
    · cases hc
    · cases hc
    · cases hc
    · rw [GInput.fin.injEq] at hc; norm_num at hc
  have hdisp : effective_length_factor "inhibited" (GInput.fin 0)
      (GInput.fin 0.6067769722307135) =
      ELFResult.solve
        (fun K => sidesway_inhibited_one_zero K 0.6067769722307135)
        0.5 nextafter_one := by
    rw [effective_length_factor_inhibited]
    exact elf_body_solve_one_zero_left _ _ _ _ _ _ _ _ _ hnd rfl
  have hna1 : nextafter_one < 1 := by
    simp only [nextafter_one]
    norm_num
  have hna2 : (0.6000000006 : ℝ) ≤ nextafter_one := by
    simp only [nextafter_one]
    norm_num
  have hm := c6aux_case4_hm
  have hp := c6aux_case4_hp
  constructor
  · intro y hy
    rw [hdisp] at hy
    obtain ⟨h1, h2, h3⟩ := hy
    have h3' : sidesway_inhibited_one_zero y 0.6067769722307135 = 0 := h3
    rcases eq_or_lt_of_le h1 with he | hlt
    · exfalso
      rw [← he, inhibited_one_zero_at_half] at h3'
      norm_num at h3'
    · have hy1 : y < 1 := lt_of_le_of_lt h2 hna1
      rcases lt_trichotomy y 0.5999999994 with hc | hc | hc
      · exfalso
        have hanti := inhibited_one_zero_strict_anti 0.6067769722307135 y
          0.5999999994 (by norm_num) hlt hc (by norm_num)
        rw [h3'] at hanti
        linarith
      · rw [hc, abs_le]
        constructor <;> norm_num
      · rcases lt_trichotomy y 0.6000000006 with hc2 | hc2 | hc2
        · rw [abs_le]
          constructor <;> linarith
        · rw [hc2, abs_le]
          constructor <;> norm_num
        · exfalso
          have hanti := inhibited_one_zero_strict_anti 0.6067769722307135
            0.6000000006 y (by norm_num) (by norm_num) hc2 hy1
          rw [h3'] at hanti
          linarith
  · have hcont : ContinuousOn
        (fun K => sidesway_inhibited_one_zero K 0.6067769722307135)
        (Set.Icc 0.5999999994 0.6000000006) := by
      apply inhibited_one_zero_continuousOn
      · intro K hK
        rw [Set.mem_Icc] at hK
        intro hc
        rw [hc] at hK
        norm_num at hK
      · intro K hK
        rw [Set.mem_Icc] at hK
        exact sin_pi_div_ne_on_inhibited K (by linarith [hK.1])
          (by linarith [hK.2])
      · intro K hK
        rw [Set.mem_Icc] at hK
        exact cos_half_pi_div_ne_on_inhibited K (by linarith [hK.1])
          (by linarith [hK.2])
    have hsub := intermediate_value_Icc'
      (by norm_num : (0.5999999994 : ℝ) ≤ 0.6000000006) hcont
    have hmem : (0 : ℝ) ∈ Set.Icc
        (sidesway_inhibited_one_zero 0.6000000006 0.6067769722307135)
        (sidesway_inhibited_one_zero 0.5999999994 0.6067769722307135) :=
      ⟨le_of_lt hp, le_of_lt hm⟩
    obtain ⟨y, hy, hgy⟩ := hsub hmem
    rw [Set.mem_Icc] at hy
    refine ⟨y, ?_⟩
    rw [hdisp]
    exact ⟨by linarith [hy.1], le_trans hy.2 hna2, hgy⟩

theorem c6aux_case3 :
    (∀ y, solverReturns (effective_length_factor "inhibited" (GInput.fin 10.0)
      (GInput.fin 0.45469570131810483)) y → |y - 0.8| ≤ 0.8 * 1e-9) ∧
    (∃ y, solverReturns (effective_length_factor "inhibited" (GInput.fin 10.0)
      (GInput.fin 0.45469570131810483)) y) := by
  have hnd : ¬ degenerate (GInput.fin 10.0) (GInput.fin 0.45469570131810483) := by
    rintro (⟨hc, -⟩ | (⟨hc, -⟩ | ⟨hc, -⟩) | ⟨hc, -⟩)
    · cases hc
    · cases hc
    · rw [GInput.fin.injEq] at hc; norm_num at hc
    · rw [GInput.fin.injEq] at hc; norm_num at hc
  have hA : GInput.fin 10.0 ≠ GInput.fin 0 := by
    rw [Ne, GInput.fin.injEq]
    norm_num
  have hB : GInput.fin 0.45469570131810483 ≠ GInput.fin 0 := by
    rw [Ne, GInput.fin.injEq]
    norm_num
  have hdisp : effective_length_factor "inhibited" (GInput.fin 10.0)
      (GInput.fin 0.45469570131810483) =
      ELFResult.solve
        (fun K => sidesway_inhibited_fcn K 10.0 0.45469570131810483)
        0.5 nextafter_one := by
    rw [effective_length_factor_inhibited]
    exact elf_body_solve_full _ _ _ _ _ _ _ _ _ hnd hA hB
  have hna1 : nextafter_one < 1 := by
    simp only [nextafter_one]
    norm_num
  have hna2 : (0.8000000008 : ℝ) ≤ nextafter_one := by
    simp only [nextafter_one]
    norm_num
  have hm := c6aux_case3_hm
  have hp := c6aux_case3_hp
  constructor
  · intro y hy
    rw [hdisp] at hy
    obtain ⟨h1, h2, h3⟩ := hy
    have h3' : sidesway_inhibited_fcn y 10.0 0.45469570131810483 = 0 := h3
    rcases eq_or_lt_of_le h1 with he | hlt
    · exfalso
      rw [← he, inhibited_fcn_at_half] at h3'
      nlinarith [sq_nonneg (2 * π)]
    · have hy1 : y < 1 := lt_of_le_of_lt h2 hna1
      rcases lt_trichotomy y 0.7999999992 with hc | hc | hc
      · exfalso
        have hanti := inhibited_fcn_strict_anti 10.0 0.45469570131810483 y
          0.7999999992 (by norm_num) (by norm_num) hlt hc (by norm_num)
        rw [h3'] at hanti
        linarith
      · rw [hc, abs_le]
        constructor <;> norm_num
      · rcases lt_trichotomy y 0.8000000008 with hc2 | hc2 | hc2
        · rw [abs_le]
          constructor <;> linarith
        · rw [hc2, abs_le]
          constructor <;> norm_num
        · exfalso
          have hanti := inhibited_fcn_strict_anti 10.0 0.45469570131810483
            0.8000000008 y (by norm_num) (by norm_num) (by norm_num) hc2 hy1
          rw [h3'] at hanti
          linarith
  · have hcont : ContinuousOn
        (fun K => sidesway_inhibited_fcn K 10.0 0.45469570131810483)
        (Set.Icc 0.7999999992 0.8000000008) := by
      apply inhibited_fcn_continuousOn
      · intro K hK
        rw [Set.mem_Icc] at hK
        intro hc
        rw [hc] at hK
        norm_num at hK
      · intro K hK
        rw [Set.mem_Icc] at hK
        exact sin_pi_div_ne_on_inhibited K (by linarith [hK.1])
          (by linarith [hK.2])
      · intro K hK
        rw [Set.mem_Icc] at hK
        exact cos_half_pi_div_ne_on_inhibited K (by linarith [hK.1])
          (by linarith [hK.2])
    have hsub := intermediate_value_Icc'
      (by norm_num : (0.7999999992 : ℝ) ≤ 0.8000000008) hcont
    have hmem : (0 : ℝ) ∈ Set.Icc
        (sidesway_inhibited_fcn 0.8000000008 10.0 0.45469570131810483)
        (sidesway_inhibited_fcn 0.7999999992 10.0 0.45469570131810483) :=
      ⟨le_of_lt hp, le_of_lt hm⟩
    obtain ⟨y, hy, hgy⟩ := hsub hmem
    rw [Set.mem_Icc] at hy
    refine ⟨y, ?_⟩
    rw [hdisp]
    exact ⟨by linarith [hy.1], le_trans hy.2 hna2, hgy⟩

/-- C6: round-trip: when GB is constructed from the inverse nomogram relation
for a target K with GA fixed, `effective_length_factor` recovers the target
within 1e-9 relative tolerance at the four concrete cases:
(uninhibited, GA = ∞, GB = 6/(π/3)/tan(π/3)) ≈ 3.0,
(uninhibited, GA = 0, GB = -6·tan(π/1.5)/(π/1.5)) ≈ 1.5,
(inhibited, GA = 10.0, GB = 0.45469570131810483) ≈ 0.8 and
(inhibited, GA = 0, GB = 0.6067769722307135) ≈ 0.6.  For each case, every
value the root-finding call can return is within tolerance, and a returnable
value exists. -/
theorem c6_round_trip :
    ((∀ y, solverReturns (effective_length_factor "uninhibited" GInput.inf
        (GInput.fin (6 / (π / 3) / Real.tan (π / 3)))) y → |y - 3| ≤ 3 * 1e-9) ∧
      (∃ y, solverReturns (effective_length_factor "uninhibited" GInput.inf
        (GInput.fin (6 / (π / 3) / Real.tan (π / 3)))) y)) ∧
    ((∀ y, solverReturns (effective_length_factor "uninhibited" (GInput.fin 0)
        (GInput.fin (-6 * Real.tan (π / 1.5) / (π / 1.5)))) y →
        |y - 1.5| ≤ 1.5 * 1e-9) ∧
      (∃ y, solverReturns (effective_length_factor "uninhibited" (GInput.fin 0)
        (GInput.fin (-6 * Real.tan (π / 1.5) / (π / 1.5)))) y)) ∧
    ((∀ y, solverReturns (effective_length_factor "inhibited" (GInput.fin 10.0)
        (GInput.fin 0.45469570131810483)) y → |y - 0.8| ≤ 0.8 * 1e-9) ∧
      (∃ y, solverReturns (effective_length_factor "inhibited" (GInput.fin 10.0)
        (GInput.fin 0.45469570131810483)) y)) ∧
    ((∀ y, solverReturns (effective_length_factor "inhibited" (GInput.fin 0)
        (GInput.fin 0.6067769722307135)) y → |y - 0.6| ≤ 0.6 * 1e-9) ∧
      (∃ y, solverReturns (effective_length_factor "inhibited" (GInput.fin 0)
        (GInput.fin 0.6067769722307135)) y)) :=
  ⟨c6aux_case1, c6aux_case2, c6aux_case3, c6aux_case4⟩

end LibDenavit
